import Mathlib

/-! Visa eligibility scoring engine.

A shallow embedding of `server/services/scoringEngine.js` together with the
requirement catalogs it reads (`OFFICIAL_REQUIREMENTS`, `VISA_CONFIGS`,
`VISA_CATEGORIES`), of the `/compare` handler and the rule-based component of the
`/evaluate` handler of `server/routes/evaluation.js`, and of the consolidated
profile built by `server/services/documentExtractor.js`.

Conventions of the embedding:

* a JavaScript number is a rational (`ℚ`); `NaN` and the infinities are not
  represented.  The scorers are embedded twice: with exact arithmetic, and, in
  the namespace `Float64`, with every operation rounded to the nearest double
  (`roundDouble`, 53 significant bits, ties to even, unbounded exponent), for
  the statements that depend on the rounding;
* an optional property is an `Option`; `none` stands for `undefined`/`null`;
* the mutable fields of a `ScoringEngine` object are threaded explicitly: a
  method takes the object and returns the updated object with its result;
* a thrown exception is the `error` case of `Except`;
* template strings are kept as structured messages (`Msg`, `LogMsg`), one
  constructor per template, carrying the interpolated values;
* the `category` and `notes` display strings of a dimension result are not
  represented; the scoring log holds the messages, and the timestamps of its
  entries are carried, with the clock that produces them, by `TimedEngine`.
-/

namespace VisaEval

/-! ## JavaScript values -/

/-- Exceptions raised by the runtime. -/
inductive JsError where
  | typeError (message : String)
  deriving DecidableEq, Repr

/-- The expression `a || d` for an optional number: `undefined` and `0` are falsy. -/
def numOr (a : Option ℚ) (d : ℚ) : ℚ :=
  match a with
  | some x => if x = 0 then d else x
  | none => d

/-- Truthiness of an optional number. -/
def numTruthy (a : Option ℚ) : Bool :=
  match a with
  | some x => decide (x ≠ 0)
  | none => false

/-- Truthiness of an optional string: `undefined` and the empty string are falsy. -/
def strTruthy (s : Option String) : Bool :=
  match s with
  | some x => decide (x ≠ "")
  | none => false

/-- The expression `a || d` for an optional string. -/
def strOr (a : Option String) (d : String) : String :=
  match a with
  | some x => if x = "" then d else x
  | none => d

/-- The function `Math.round`: the nearest integer, halves rounded up. -/
def mathRound (x : ℚ) : ℤ := ⌊x + 1 / 2⌋

/-- A value found in the `requirements` object of a `VISA_CATEGORIES` entry. -/
inductive JsVal where
  | bool (b : Bool)
  | num (n : ℚ)
  | str (s : String)
  deriving DecidableEq, Repr

/-- Truthiness of an optional catalog value. -/
def JsVal.truthy : Option JsVal → Bool
  | some (JsVal.bool b) => b
  | some (JsVal.num n) => decide (n ≠ 0)
  | some (JsVal.str s) => decide (s ≠ "")
  | none => false

/-! ## Applicant profile -/

/-- The `profile.education` object. -/
structure Education where
  level : Option String := none
  institution : Option String := none
  field : Option String := none
  verified : Bool := false
  deriving DecidableEq, Repr

/-- The `profile.experience` object. -/
structure Experience where
  totalYears : Option ℚ := none
  currentRole : Option String := none
  currentCompany : Option String := none
  deriving DecidableEq, Repr

/-- The `profile.salary` value: a bare number or an object. -/
inductive Salary where
  | number (n : ℚ)
  | object (amount : Option ℚ) (currency : Option String) (verified : Bool)
  deriving DecidableEq, Repr

/-- The `profile.jobOffer` object. -/
structure JobOffer where
  hasOffer : Bool := false
  verified : Bool := false
  company : Option String := none
  position : Option String := none
  deriving DecidableEq, Repr

/-- One entry of `profile.languages`; a bare string entry is an entry whose
`verified` flag is unset. -/
structure Language where
  language : Option String := none
  proficiency : Option String := none
  testType : Option String := none
  score : Option ℚ := none
  verified : Bool := false
  deriving DecidableEq, Repr

/-- The applicant profile handed to the engine. -/
structure Profile where
  education : Option Education := none
  experience : Option Experience := none
  totalExperienceYears : Option ℚ := none
  salary : Option Salary := none
  jobOffer : Option JobOffer := none
  hasJobOffer : Bool := false
  languages : Option (List Language) := none
  skillsAll : Option (List String) := none
  age : Option ℚ := none
  deriving DecidableEq, Repr

/-- The `dataQuality` object of a consolidated profile. -/
structure DataQuality where
  overallConfidence : ℚ
  deriving DecidableEq, Repr

/-- The part of `extractionResults` the engine reads:
`consolidatedProfile?.dataQuality`. -/
structure ExtractionResults where
  dataQuality : Option DataQuality := none
  deriving DecidableEq, Repr

/-! ## Requirement specifications -/

/-- The `education` requirement. -/
structure EducationReq where
  required : Bool := false
  minLevel : Option String := none
  weight : Option ℚ := none
  failIfMissing : Bool := false
  capIfMissing : Option ℚ := none
  deriving DecidableEq, Repr

/-- The `experience` requirement. -/
structure ExperienceReq where
  required : Bool := false
  minYears : Option ℚ := none
  recommended : Option ℚ := none
  weight : Option ℚ := none
  deriving DecidableEq, Repr

/-- The `salary` requirement. -/
structure SalaryReq where
  required : Bool := false
  minAmount : Option ℚ := none
  currency : Option String := none
  weight : Option ℚ := none
  failIfBelow : Bool := false
  capIfBelow : Option ℚ := none
  deriving DecidableEq, Repr

/-- The `jobOffer` requirement. -/
structure JobOfferReq where
  required : Bool := false
  weight : Option ℚ := none
  deriving DecidableEq, Repr

/-- The `language` requirement; the thresholds are carried by the catalogs
but read by no scorer. -/
structure LanguageReq where
  required : Bool := false
  weight : Option ℚ := none
  recommended : Option String := none
  minLevel : Option String := none
  minCEFR : Option String := none
  minCLB : Option ℚ := none
  minIELTS : Option ℚ := none
  failIfBelow : Bool := false
  deriving DecidableEq, Repr

/-- The `age` requirement; only the weight is read. -/
structure AgeReq where
  required : Bool := false
  weight : Option ℚ := none
  maxAge : Option ℚ := none
  optimalRange : Option (ℚ × ℚ) := none
  deriving DecidableEq, Repr

/-- A requirement set: the six kinds `calculateScore` looks at, and in `other`
the name and weight of every further requirement of the entry. -/
structure Requirements where
  education : Option EducationReq := none
  experience : Option ExperienceReq := none
  salary : Option SalaryReq := none
  jobOffer : Option JobOfferReq := none
  language : Option LanguageReq := none
  age : Option AgeReq := none
  other : List (String × Option ℚ) := []
  deriving DecidableEq, Repr

/-! ## Results -/

/-- Entries of `metRequirements`, `failedRequirements` and `warnings`. -/
inductive Msg where
  | lit (s : String)
  | educationMet (level : String)
  | experienceMet (years : ℚ)
  | salaryMet (currency : String) (amount : ℚ)
  | salaryBelowThreshold (currency : String) (minAmount : ℚ)
  | salaryBelowMinimum (currency : String) (amount minAmount : ℚ)
  | languageMet (entry : Language)
  deriving DecidableEq, Repr

/-- Messages of the scoring log. -/
inductive LogMsg where
  | start (country visaType : String)
  | noRequirements (country visaType : String)
  | cappedByHardFail (cap : ℚ) (hardFails : List String)
  | cappedAt85
  | final (score : ℤ) (confidence : ℚ) (isPassing : Bool)
  deriving DecidableEq, Repr

/-- The result object of one dimension scorer. -/
structure DimResult where
  score : ℚ
  maxScore : ℚ
  verified : Option Bool := none
  hardFail : Option String := none
  scoreCap : Option ℚ := none
  deriving DecidableEq, Repr

/-- The `breakdown` object. -/
structure Breakdown where
  education : Option DimResult := none
  experience : Option DimResult := none
  salary : Option DimResult := none
  jobOffer : Option DimResult := none
  language : Option DimResult := none
  age : Option DimResult := none
  deriving DecidableEq, Repr

/-- The object returned by `calculateScore`. -/
structure EvaluationResult where
  score : ℤ
  confidence : ℚ
  breakdown : Breakdown
  hardFails : List String
  passingScore : ℚ
  isPassing : Bool
  metRequirements : List Msg
  failedRequirements : List Msg
  warnings : List Msg
  scoringLog : List LogMsg
  deriving DecidableEq, Repr

/-- A `ScoringEngine` object.  `scoringLog` is `none` while the field is still
unassigned during construction. -/
structure ScoringEngine where
  country : String
  visaType : String
  profile : Profile
  extractionResults : Option ExtractionResults := none
  requirements : Requirements := {}
  breakdown : Breakdown := {}
  failedRequirements : List Msg := []
  metRequirements : List Msg := []
  warnings : List Msg := []
  scoringLog : Option (List LogMsg) := none
  deriving DecidableEq, Repr

/-! ## Dimension scorers -/

/-- ASCII lower-casing of a string, standing for `String.prototype.toLowerCase`. -/
def toLowerCase (s : String) : String := ⟨s.data.map Char.toLower⟩

/-- Whether `key` occurs in `s` as a contiguous run of characters. -/
def includesChars : List Char → List Char → Bool
  | [], key => key.isPrefixOf []
  | c :: cs, key => key.isPrefixOf (c :: cs) || includesChars cs key

/-- The method `String.prototype.includes`. -/
def includes (s key : String) : Bool := includesChars s.data key.data

/-- The `levelRanking` table of `scoreEducation`, in insertion order. -/
def levelRanking : List (String × ℕ) :=
  [("phd", 5), ("doctorate", 5),
   ("master", 4), ("masters", 4), ("mba", 4), ("msc", 4),
   ("bachelor", 3), ("bachelors", 3), ("bsc", 3), ("ba", 3), ("btech", 3),
   ("diploma", 2), ("associate", 2),
   ("highschool", 1), ("high school", 1)]

/-- The loop over `Object.entries(levelRanking)`: the highest rank among the
keys contained in the lower-cased level. -/
def currentLevelOf (level : String) : ℕ :=
  levelRanking.foldl (fun cur kv => if includes level kv.1 then max cur kv.2 else cur) 0

/-- The lookup `minLevels[req.minLevel] || 0`. -/
def requiredLevelOf (minLevel : Option String) : ℕ :=
  match minLevel with
  | some "phd" => 5
  | some "masters" => 4
  | some "bachelors" => 3
  | some "diploma" => 2
  | some "highschool" => 1
  | _ => 0

/-- The method `scoreEducation`; `req` is `this.requirements.education`. -/
def scoreEducation (e : ScoringEngine) (req : EducationReq) : DimResult × ScoringEngine :=
  let weight := numOr req.weight 25
  let education := e.profile.education.getD {}
  let result : DimResult :=
    { score := 0, maxScore := weight, verified := some education.verified,
      hardFail := none, scoreCap := none }
  let level := toLowerCase (strOr education.level "")
  let currentLevel := currentLevelOf level
  let requiredLevel := requiredLevelOf req.minLevel
  if level = "" ∨ currentLevel = 0 then
    if req.required then
      ({ result with
          hardFail := some "Missing required education credentials",
          scoreCap := some (numOr req.capIfMissing 30) },
       { e with failedRequirements := e.failedRequirements ++ [Msg.lit "Education documentation"] })
    else
      (result, e)
  else if currentLevel ≥ requiredLevel then
    let base := weight * 0.8
    let e1 := { e with
      metRequirements := e.metRequirements ++ [Msg.educationMet (strOr education.level "")] }
    let withDegree :=
      if currentLevel = 5 then weight
      else if currentLevel = 4 then weight * 0.95
      else base
    let withInstitution :=
      if strTruthy education.institution then min weight (withDegree + weight * 0.1)
      else withDegree
    ({ result with score := withInstitution }, e1)
  else
    ({ result with
        score := weight * 0.3,
        scoreCap := if req.failIfMissing then some (numOr req.capIfMissing 40) else none },
     e)

/-- The years read by `scoreExperience`:
`experience.totalYears || this.profile.totalExperienceYears || 0`. -/
def experienceYears (p : Profile) : ℚ :=
  numOr ((p.experience.getD {}).totalYears) (numOr p.totalExperienceYears 0)

/-- The method `scoreExperience`; `req` is `this.requirements.experience`.
Neither division is reached with a zero divisor. -/
def scoreExperience (e : ScoringEngine) (req : ExperienceReq) : DimResult × ScoringEngine :=
  let weight := numOr req.weight 20
  let years := experienceYears e.profile
  let result : DimResult := { score := 0, maxScore := weight, hardFail := none }
  if years = 0 ∧ req.required = true then
    (result,
     { e with
       failedRequirements := e.failedRequirements ++ [Msg.lit "Work experience documentation"] })
  else
    let minYears := numOr req.minYears 0
    let recommended := numOr req.recommended 5
    if years ≥ recommended then
      ({ result with score := weight },
       { e with metRequirements := e.metRequirements ++ [Msg.experienceMet years] })
    else if years ≥ minYears then
      let ratio := (years - minYears) / (recommended - minYears)
      ({ result with score := weight * (0.6 + ratio * 0.4) },
       { e with metRequirements := e.metRequirements ++ [Msg.experienceMet years] })
    else if years > 0 then
      ({ result with score := weight * (years / minYears) * 0.5 }, e)
    else
      (result, e)

/-- The `amount` read by `scoreSalary`: the salary itself when it is a number
(`0` is falsy and replaced by an empty object), its `amount` property otherwise. -/
def salaryAmount (p : Profile) : Option ℚ :=
  match p.salary with
  | some (Salary.number n) => if n = 0 then none else some n
  | some (Salary.object amount _ _) => amount
  | none => none

/-- The property `salary.currency` of the profile. -/
def salaryCurrency (p : Profile) : Option String :=
  match p.salary with
  | some (Salary.object _ currency _) => currency
  | _ => none

/-- The expression `salary.verified || false` of the profile. -/
def salaryVerified (p : Profile) : Bool :=
  match p.salary with
  | some (Salary.object _ _ verified) => verified
  | _ => false

/-- The method `scoreSalary`; `req` is `this.requirements.salary`. -/
def scoreSalary (e : ScoringEngine) (req : SalaryReq) : DimResult × ScoringEngine :=
  let weight := numOr req.weight 25
  let result : DimResult :=
    { score := 0, maxScore := weight, verified := some (salaryVerified e.profile),
      hardFail := none, scoreCap := none }
  let amountOpt := salaryAmount e.profile
  let currency := strOr (salaryCurrency e.profile) (strOr req.currency "EUR")
  if numTruthy amountOpt = false then
    if req.required then
      ({ result with score := weight * 0.3 },
       { e with warnings := e.warnings ++ [Msg.lit "Salary verification recommended"] })
    else
      (result, e)
  else
    let amount := amountOpt.getD 0
    let minAmount := numOr req.minAmount 30000
    if amount ≥ minAmount * 1.5 then
      ({ result with score := weight },
       { e with metRequirements := e.metRequirements ++ [Msg.salaryMet currency amount] })
    else if amount ≥ minAmount then
      ({ result with score := weight * 0.9 },
       { e with metRequirements := e.metRequirements ++ [Msg.salaryMet currency amount] })
    else if amount ≥ minAmount * 0.8 then
      ({ result with score := weight * 0.5 },
       { e with warnings := e.warnings ++ [Msg.salaryBelowMinimum currency amount minAmount] })
    else
      ({ result with
          score := weight * 0.2,
          scoreCap := if req.failIfBelow then some (numOr req.capIfBelow 40) else none },
       { e with
         failedRequirements :=
           e.failedRequirements ++ [Msg.salaryBelowThreshold currency minAmount] })

/-- The method `scoreJobOffer`; `req` is `this.requirements.jobOffer`. -/
def scoreJobOffer (e : ScoringEngine) (req : JobOfferReq) : DimResult × ScoringEngine :=
  let weight := numOr req.weight 20
  let jobOffer := e.profile.jobOffer.getD {}
  let hasOffer := jobOffer.hasOffer || e.profile.hasJobOffer
  let result : DimResult :=
    { score := 0, maxScore := weight, verified := some jobOffer.verified, hardFail := none }
  if hasOffer then
    ({ result with score := weight },
     { e with metRequirements := e.metRequirements ++ [Msg.lit "Job offer from employer"] })
  else if req.required then
    ({ result with hardFail := some "Job offer required but not provided" },
     { e with failedRequirements := e.failedRequirements ++ [Msg.lit "Job offer from employer"] })
  else
    (result, e)

/-- The method `scoreLanguage`; `req` is `this.requirements.language`. -/
def scoreLanguage (e : ScoringEngine) (req : LanguageReq) : DimResult × ScoringEngine :=
  let weight := numOr req.weight 15
  let languages := e.profile.languages.getD []
  let result : DimResult :=
    { score := 0, maxScore := weight, verified := some false, hardFail := none }
  match languages.find? (fun l => l.verified) with
  | some verifiedLang =>
    ({ result with verified := some true, score := weight },
     { e with metRequirements := e.metRequirements ++ [Msg.languageMet verifiedLang] })
  | none =>
    if languages.length > 0 then
      ({ result with score := weight * 0.5 },
       { e with
         warnings :=
           e.warnings ++ [Msg.lit "Language certification recommended for verification"] })
    else if req.required then
      ({ result with hardFail := some "Language certification required" },
       { e with
         failedRequirements :=
           e.failedRequirements ++ [Msg.lit "Language proficiency certificate"] })
    else
      (result, e)

/-- The method `scoreAge`; `req` is `this.requirements.age`. -/
def scoreAge (e : ScoringEngine) (req : AgeReq) : DimResult × ScoringEngine :=
  let weight := numOr req.weight 10
  ({ score := weight * 0.7, maxScore := weight }, e)

/-! ## Requirement catalogs -/

/-- An entry of `VISA_CONFIGS`: its `requirements` and `scoringRules.passingScore`. -/
structure VisaConfig where
  requirements : Option Requirements := none
  passingScore : Option ℚ := none
  deriving DecidableEq, Repr

/-- The properties of a `VISA_CATEGORIES` requirements object that
`convertToScoringFormat` reads. -/
structure BasicReqs where
  degree : Option JsVal := none
  higherEducation : Option JsVal := none
  salary : Option JsVal := none
  jobOffer : Option JsVal := none
  workExperience : Option JsVal := none
  currentEmployment : Option JsVal := none
  languageTest : Option JsVal := none
  englishLanguage : Option JsVal := none
  germanLanguage : Option JsVal := none
  deriving DecidableEq, Repr

/-- A visa of `VISA_CATEGORIES`. -/
structure Visa where
  name : String
  requirements : Option BasicReqs := none
  deriving DecidableEq, Repr

/-- The table `OFFICIAL_REQUIREMENTS` of `scoringEngine.js`. -/
def OFFICIAL_REQUIREMENTS : List (String × List (String × Requirements)) :=
  [("Germany",
    [("EU Blue Card",
      { education := some { required := true, minLevel := some "bachelors", weight := some 25,
                            failIfMissing := true, capIfMissing := some 30 },
        salary := some { required := true, minAmount := some 45300, currency := some "EUR",
                         weight := some 30, failIfBelow := true, capIfBelow := some 40 },
        jobOffer := some { required := true, weight := some 25 },
        experience := some { required := false, recommended := some 3, weight := some 10 },
        language := some { required := false, weight := some 10, recommended := some "B1" } }),
     ("Job Seeker Visa",
      { education := some { required := true, minLevel := some "bachelors", weight := some 35 },
        experience := some { required := false, recommended := some 5, weight := some 25 },
        language := some { required := false, weight := some 20, recommended := some "B1" },
        other := [("financialProof", some 20)] })]),
   ("Canada",
    [("Express Entry",
      { age := some { required := true, weight := some 12, maxAge := some 45,
                      optimalRange := some (20, 29) },
        education := some { required := true, minLevel := some "highschool", weight := some 25 },
        language := some { required := true, weight := some 28, minCLB := some 7,
                           failIfBelow := true },
        experience := some { required := true, minYears := some 1, weight := some 25 },
        jobOffer := some { required := false, weight := some 10 } }),
     ("Study Permit",
      { language := some { required := true, weight := some 20, minIELTS := some 6.0 },
        other := [("letterOfAcceptance", some 40), ("financialProof", some 30), ("ties", some 10)] })]),
   ("Ireland",
    [("Critical Skills Employment Permit",
      { jobOffer := some { required := true, weight := some 30 },
        salary := some { required := true, minAmount := some 32000, currency := some "EUR",
                         weight := some 30 },
        education := some { required := true, minLevel := some "bachelors", weight := some 25 },
        experience := some { required := false, recommended := some 2, weight := some 15 } })]),
   ("Netherlands",
    [("Highly Skilled Migrant",
      { salary := some { required := true, currency := some "EUR", weight := some 35 },
        education := some { required := false, weight := some 15 },
        experience := some { required := false, weight := some 15 },
        other := [("employer", some 35)] })]),
   ("Australia",
    [("Skilled Independent (189)",
      { age := some { required := true, weight := some 15, maxAge := some 45 },
        education := some { required := true, minLevel := some "diploma", weight := some 20 },
        experience := some { required := true, minYears := some 3, weight := some 20 },
        language := some { required := true, weight := some 20, minIELTS := some 6.0 },
        other := [("skillsAssessment", some 25)] })]),
   ("UK",
    [("Skilled Worker Visa",
      { jobOffer := some { required := true, weight := some 30 },
        salary := some { required := true, minAmount := some 26200, currency := some "GBP",
                         weight := some 25 },
        language := some { required := true, weight := some 15, minCEFR := some "B1" },
        other := [("skillLevel", some 20), ("sponsorship", some 10)] })])]

/-- The table `VISA_CONFIGS` of `config/visaConfigs.js`: for each entry its
`requirements` and `scoringRules.passingScore`. -/
def VISA_CONFIGS : List (String × List (String × VisaConfig)) :=
  [("Germany",
    [("EU Blue Card",
      { passingScore := some 60,
        requirements := some
          { education := some { required := true, minLevel := some "bachelors", weight := some 20 },
            salary := some { required := true, minAmount := some 45300, currency := some "EUR",
                             weight := some 25 },
            experience := some { required := false, minYears := some 0, weight := some 20 },
            jobOffer := some { required := true, weight := some 15 },
            language := some { required := false, weight := some 10, minLevel := some "A1" },
            other := [("ageBonus", none)] } }),
     ("ICT Permit",
      { passingScore := some 65,
        requirements := some
          { education := some { required := true, minLevel := some "bachelors", weight := some 20 },
            salary := some { required := true, minAmount := some 41041.80, currency := some "EUR",
                             weight := some 25 },
            experience := some { required := true, minYears := some 3, weight := some 10 },
            other := [("employment", some 25), ("position", some 20)] } })]),
   ("Canada",
    [("Express Entry",
      { passingScore := some 67,
        requirements := some
          { education := some { required := true, minLevel := some "bachelors", weight := some 25 },
            language := some { required := true, weight := some 28, minCLB := some 7 },
            experience := some { required := true, minYears := some 1, weight := some 25 },
            age := some { required := true, weight := some 12 },
            jobOffer := some { required := false, weight := some 10 } } })]),
   ("Ireland",
    [("Critical Skills Employment Permit",
      { passingScore := some 70,
        requirements := some
          { salary := some { required := true, minAmount := some 32000, currency := some "EUR",
                             weight := some 30 },
            education := some { required := true, minLevel := some "bachelors", weight := some 25 },
            jobOffer := some { required := true, weight := some 20 },
            other := [("occupation", some 25)] } })]),
   ("Netherlands",
    [("Knowledge Migrant Permit",
      { passingScore := some 65,
        requirements := some
          { salary := some { required := true, minAmount := some 57600, currency := some "EUR",
                             weight := some 35 },
            education := some { required := false, weight := some 20 },
            jobOffer := some { required := true, weight := some 20 },
            other := [("employer", some 25)] } })]),
   ("Australia",
    [("Skilled Independent Visa (189)",
      { passingScore := some 65,
        requirements := some
          { age := some { required := true, weight := some 15, maxAge := some 44 },
            language := some { required := true, weight := some 20 },
            experience := some { required := true, minYears := some 3, weight := some 15 },
            education := some { required := true, minLevel := some "bachelors", weight := some 10 },
            other := [("occupation", some 20), ("skillsAssessment", some 20)] } })]),
   ("Poland",
    [("Work Permit Type C",
      { passingScore := some 55,
        requirements := some
          { jobOffer := some { required := true, weight := some 30 },
            education := some { required := false, weight := some 25 },
            experience := some { required := false, minYears := some 1, weight := some 20 },
            salary := some { required := false, minAmount := some 4000, currency := some "PLN",
                             weight := some 15 },
            language := some { required := false, weight := some 10 } } })]),
   ("France",
    [("Talent Passport",
      { passingScore := some 70,
        requirements := some
          { salary := some { required := true, minAmount := some 38400, currency := some "EUR",
                             weight := some 30 },
            education := some { required := true, minLevel := some "masters", weight := some 25 },
            experience := some { required := false, minYears := some 5, weight := some 20 },
            jobOffer := some { required := true, weight := some 25 } } })]),
   ("Italy",
    [("Highly Qualified Worker Visa",
      { passingScore := some 65,
        requirements := some
          { education := some { required := true, minLevel := some "bachelors", weight := some 25 },
            salary := some { required := true, minAmount := some 27310, currency := some "EUR",
                             weight := some 30 },
            jobOffer := some { required := true, weight := some 25 },
            experience := some { required := false, minYears := some 5, weight := some 20 } } })]),
   ("UK",
    [("Skilled Worker Visa",
      { passingScore := some 70,
        requirements := some
          { jobOffer := some { required := true, weight := some 20 },
            language := some { required := true, weight := some 10, minLevel := some "B1" },
            salary := some { required := true, minAmount := some 25600, currency := some "GBP",
                             weight := some 30 },
            education := some { required := false, weight := some 10 },
            other := [("skillLevel", some 20), ("shortage", some 10)] } })])]

/-- The table `VISA_CATEGORIES` of `config/visaCategoriesByPurpose.js`: country,
category and, for each visa, its `name` and the properties of its `requirements`
that `convertToScoringFormat` reads. -/
def VISA_CATEGORIES : List (String × List (String × List Visa)) :=
  [("Germany",
    [("student",
      [{ name := "Student Visa (§16b)",
          requirements := some { germanLanguage := some (.str "B1-C1 (depending on program)") } },
       { name := "Language Course Visa (§16f)",
          requirements := some {} },
       { name := "Student Applicant Visa (§16b)",
          requirements := some {} }]),
     ("work",
      [{ name := "EU Blue Card (§18b Abs. 2)",
          requirements := some { degree := some (.str "University degree"),
                                 salary := some (.num 45300), jobOffer := some (.bool true) } },
       { name := "Skilled Workers Visa (§18a)",
          requirements := some { jobOffer := some (.bool true) } },
       { name := "Job Seeker Visa (§20 Abs. 1 + 2)",
          requirements := some { degree := some (.str "University degree") } },
       { name := "ICT Card (§19b)",
          requirements := some { currentEmployment := some (.str "3-12 months with company"),
                                 salary := some (.num 41041.80) } },
       { name := "Opportunity Card (§20a)",
          requirements := some {} },
       { name := "Freelance Visa (§21 Abs. 5)",
          requirements := some {} }]),
     ("business",
      [{ name := "Self-Employment Visa (§21)",
          requirements := some {} }]),
     ("family",
      [{ name := "Family Reunification (§28-36)",
          requirements := some { germanLanguage := some (.str "A1") } }])]),
   ("Canada",
    [("student",
      [{ name := "Study Permit",
          requirements := some {} }]),
     ("work",
      [{ name := "Express Entry - Federal Skilled Worker (FSW)",
          requirements := some { workExperience := some (.str "1 year NOC 0, A, or B"),
                                 languageTest := some (.str "CLB 7") } },
       { name := "Express Entry - Canadian Experience Class (CEC)",
          requirements := some { languageTest := some (.str "CLB 7 (NOC 0/A) or CLB 5 (NOC B)") } },
       { name := "Express Entry - Federal Skilled Trades (FST)",
          requirements := some { workExperience := some (.str "2 years in skilled trade"),
                                 jobOffer := some (.str "Or certificate of qualification"),
                                 languageTest := some (.str "CLB 5 speaking/listening, CLB 4 reading/writing") } },
       { name := "Temporary Foreign Worker Program (TFWP)",
          requirements := some { jobOffer := some (.bool true) } },
       { name := "International Mobility Program (IMP)",
          requirements := some { jobOffer := some (.bool true) } },
       { name := "Global Talent Stream",
          requirements := some {} },
       { name := "Start-up Visa",
          requirements := some { languageTest := some (.str "CLB 5") } }]),
     ("business",
      [{ name := "Self-Employed Program",
          requirements := some {} },
       { name := "Provincial Nominee - Entrepreneur",
          requirements := some {} }]),
     ("family",
      [{ name := "Family Sponsorship",
          requirements := some {} }])]),
   ("Ireland",
    [("student",
      [{ name := "Study Visa (Type D)",
          requirements := some {} }]),
     ("work",
      [{ name := "Critical Skills Employment Permit",
          requirements := some { jobOffer := some (.bool true), salary := some (.num 32000) } },
       { name := "General Employment Permit",
          requirements := some { jobOffer := some (.bool true), salary := some (.num 30000) } },
       { name := "Intra-Company Transfer",
          requirements := some { currentEmployment := some (.str "6-12 months"),
                                 salary := some (.num 40000) } },
       { name := "Contract for Services",
          requirements := some { salary := some (.num 32000) } }]),
     ("business",
      [{ name := "Start-up Entrepreneur Programme (STEP)",
          requirements := some {} },
       { name := "Immigrant Investor Programme (IIP)",
          requirements := some {} }])]),
   ("Netherlands",
    [("student",
      [{ name := "Student Residence Permit (MVV)",
          requirements := some {} },
       { name := "Orientation Year for Graduates",
          requirements := some {} }]),
     ("work",
      [{ name := "Highly Skilled Migrant (Kennismigrant)",
          requirements := some { salary := some (.num 57600),
                                 degree := some (.str "Or relevant experience") } },
       { name := "EU Blue Card",
          requirements := some { higherEducation := some (.bool true), salary := some (.num 57600),
                                 jobOffer := some (.bool true) } },
       { name := "ICT Permit",
          requirements := some { currentEmployment := some (.str "3 months") } },
       { name := "Self-Employment Permit",
          requirements := some {} }]),
     ("business",
      [{ name := "Start-up Visa",
          requirements := some {} }])]),
   ("Australia",
    [("student",
      [{ name := "Student Visa (Subclass 500)",
          requirements := some {} },
       { name := "Temporary Graduate Visa (Subclass 485)",
          requirements := some {} }]),
     ("work",
      [{ name := "Skilled Independent Visa (Subclass 189)",
          requirements := some {} },
       { name := "Skilled Nominated Visa (Subclass 190)",
          requirements := some {} },
       { name := "Skilled Work Regional Visa (Subclass 491)",
          requirements := some {} },
       { name := "Temporary Skill Shortage Visa (Subclass 482)",
          requirements := some { workExperience := some (.str "2 years") } },
       { name := "Employer Nomination Scheme (Subclass 186)",
          requirements := some { workExperience := some (.str "3 years") } },
       { name := "Global Talent Visa (Subclass 858)",
          requirements := some {} }]),
     ("business",
      [{ name := "Business Innovation and Investment (Subclass 188)",
          requirements := some {} },
       { name := "Business Talent (Subclass 132)",
          requirements := some {} }])]),
   ("Poland",
    [("student",
      [{ name := "National Visa Type D (Student)",
          requirements := some {} }]),
     ("work",
      [{ name := "Work Permit Type A",
          requirements := some { jobOffer := some (.bool true) } },
       { name := "Work Permit Type B",
          requirements := some {} },
       { name := "Work Permit Type C",
          requirements := some {} },
       { name := "Work Permit Type D",
          requirements := some {} },
       { name := "Work Permit Type E",
          requirements := some {} },
       { name := "EU Blue Card",
          requirements := some { higherEducation := some (.bool true),
                                 salary := some (.str "1.5x average salary"),
                                 jobOffer := some (.bool true) } },
       { name := "Poland Business Harbour",
          requirements := some {} }])]),
   ("France",
    [("student",
      [{ name := "Long-Stay Student Visa (VLS-TS)",
          requirements := some {} }]),
     ("work",
      [{ name := "Talent Passport - Qualified Employee",
          requirements := some { degree := some (.str "Masters or 5 years experience"),
                                 salary := some (.num 38400), jobOffer := some (.bool true) } },
       { name := "Talent Passport - Researcher",
          requirements := some {} },
       { name := "Talent Passport - Company Creator",
          requirements := some {} },
       { name := "Talent Passport - Economic Investment",
          requirements := some {} },
       { name := "EU Blue Card",
          requirements := some { higherEducation := some (.bool true),
                                 salary := some (.str "1.5x average salary"),
                                 jobOffer := some (.bool true) } },
       { name := "Salarié en Mission (ICT)",
          requirements := some { currentEmployment := some (.str "3-6 months") } },
       { name := "Temporary Worker",
          requirements := some {} }])]),
   ("Italy",
    [("student",
      [{ name := "National Visa Type D (Study)",
          requirements := some {} }]),
     ("work",
      [{ name := "EU Blue Card",
          requirements := some { higherEducation := some (.str "3-year degree minimum"),
                                 salary := some (.num 27310), jobOffer := some (.bool true) } },
       { name := "Subordinate Work Visa",
          requirements := some { jobOffer := some (.bool true) } },
       { name := "Intra-Corporate Transfer",
          requirements := some { currentEmployment := some (.str "3-12 months") } },
       { name := "Self-Employment Visa",
          requirements := some {} },
       { name := "Start-up Visa",
          requirements := some {} },
       { name := "Investor Visa",
          requirements := some {} }])]),
   ("UK",
    [("student",
      [{ name := "Student Visa",
          requirements := some { englishLanguage := some (.str "B2 CEFR") } },
       { name := "Graduate Visa",
          requirements := some {} }]),
     ("work",
      [{ name := "Skilled Worker Visa",
          requirements := some { jobOffer := some (.str "From licensed sponsor"),
                                 salary := some (.num 25600),
                                 englishLanguage := some (.str "B1 CEFR") } },
       { name := "Health and Care Worker Visa",
          requirements := some { jobOffer := some (.str "NHS or registered care provider"),
                                 englishLanguage := some (.str "B1 CEFR") } },
       { name := "Senior or Specialist Worker (ICT)",
          requirements := some { currentEmployment := some (.str "12 months"),
                                 salary := some (.num 42400) } },
       { name := "Global Talent Visa",
          requirements := some {} },
       { name := "High Potential Individual Visa",
          requirements := some { degree := some (.str "From top 50 global university"),
                                 englishLanguage := some (.bool true) } },
       { name := "Innovator Founder Visa",
          requirements := some {} },
       { name := "Start-up Visa",
          requirements := some {} },
       { name := "Scale-up Visa",
          requirements := some { jobOffer := some (.str "From scale-up company"),
                                 salary := some (.num 33000) } }])])]

/-- The two-level lookup `table[country]?.[visaType]`. -/
def lookup2 {α : Type} (table : List (String × List (String × α))) (country visaType : String) :
    Option α :=
  (table.lookup country).bind (fun byType => byType.lookup visaType)

/-- The helper `getVisaConfig` of `config/visaConfigs.js`. -/
def getVisaConfig (country visaType : String) : Option VisaConfig :=
  lookup2 VISA_CONFIGS country visaType

/-- The helper `getVisaTypes` of `config/visaConfigs.js`. -/
def getVisaTypes (country : String) : List String :=
  match VISA_CONFIGS.lookup country with
  | some byType => byType.map Prod.fst
  | none => []

/-- The helper `getCountries` of `config/visaConfigs.js`. -/
def getCountries : List String := VISA_CONFIGS.map Prod.fst

/-! ## The engine -/

/-- The method `log`: pushes onto `this.scoringLog`, which throws while that
field is unassigned. -/
def ScoringEngine.log (e : ScoringEngine) (m : LogMsg) : Except JsError ScoringEngine :=
  match e.scoringLog with
  | some entries => Except.ok { e with scoringLog := some (entries ++ [m]) }
  | none => Except.error (JsError.typeError "Cannot read properties of undefined (reading push)")

/-- The method `convertToScoringFormat`. -/
def convertToScoringFormat (basicReqs : BasicReqs) : Requirements :=
  { education :=
      if JsVal.truthy basicReqs.degree || JsVal.truthy basicReqs.higherEducation then
        some { required := true, minLevel := some "bachelors", weight := some 25 }
      else none,
    salary :=
      if JsVal.truthy basicReqs.salary then
        some { required := true,
               minAmount := some (match basicReqs.salary with
                 | some (JsVal.num n) => n
                 | _ => 30000),
               weight := some 25 }
      else none,
    jobOffer :=
      if JsVal.truthy basicReqs.jobOffer then
        some { required := decide (basicReqs.jobOffer = some (JsVal.bool true)),
               weight := some 25 }
      else none,
    experience :=
      if JsVal.truthy basicReqs.workExperience || JsVal.truthy basicReqs.currentEmployment then
        some { required := true, minYears := some 1, weight := some 15 }
      else none,
    language :=
      if JsVal.truthy basicReqs.languageTest || JsVal.truthy basicReqs.englishLanguage
          || JsVal.truthy basicReqs.germanLanguage then
        some { required := true, weight := some 10 }
      else none }

/-- The method `getDefaultRequirements`. -/
def getDefaultRequirements : Requirements :=
  { education := some { required := false, weight := some 25 },
    experience := some { required := false, weight := some 25 },
    language := some { required := false, weight := some 20 },
    jobOffer := some { required := false, weight := some 15 },
    other := [("financialProof", some 15)] }

/-- The search of `getRequirements` through `VISA_CATEGORIES[country]`: the
requirements of the first visa, in category order, with the given name. -/
def findVisaRequirements (categories : List (String × List Visa)) (visaType : String) :
    Option BasicReqs :=
  ((categories.map Prod.snd).flatten).findSome?
    (fun visa => if visa.name = visaType then visa.requirements else none)

/-- The method `getRequirements`. -/
def getRequirements (e : ScoringEngine) : Except JsError (Requirements × ScoringEngine) :=
  match lookup2 OFFICIAL_REQUIREMENTS e.country e.visaType with
  | some requirements => Except.ok (requirements, e)
  | none =>
    match (getVisaConfig e.country e.visaType).bind (fun config => config.requirements) with
    | some requirements => Except.ok (requirements, e)
    | none =>
      match (VISA_CATEGORIES.lookup e.country).bind
          (fun categories => findVisaRequirements categories e.visaType) with
      | some basicReqs => Except.ok (convertToScoringFormat basicReqs, e)
      | none =>
        (e.log (LogMsg.noRequirements e.country e.visaType)).map
          (fun e1 => (getDefaultRequirements, e1))

/-- The constructor `new ScoringEngine(country, visaType, profile, extractionResults)`:
`getRequirements` runs before `breakdown`, the three lists and `scoringLog` are assigned. -/
def ScoringEngine.new (country visaType : String) (profile : Profile)
    (extractionResults : Option ExtractionResults) : Except JsError ScoringEngine :=
  let this : ScoringEngine :=
    { country := country, visaType := visaType, profile := profile,
      extractionResults := extractionResults, scoringLog := none }
  (getRequirements this).map (fun out =>
    { out.2 with
      requirements := out.1,
      breakdown := {},
      failedRequirements := [],
      metRequirements := [],
      warnings := [],
      scoringLog := some [] })

/-- The method `calculateConfidence`. -/
def calculateConfidence (e : ScoringEngine) : ℚ :=
  let c0 : ℚ := 50
  let c1 := if (e.profile.education.getD {}).verified then c0 + 10 else c0
  let c2 := if salaryVerified e.profile then c1 + 10 else c1
  let c3 := if (e.profile.jobOffer.getD {}).hasOffer then c2 + 10 else c2
  let c4 := if (e.profile.languages.getD []).any (fun l => l.verified) then c3 + 5 else c3
  let c5 :=
    if (match (e.profile.experience.getD {}).totalYears with
        | some years => decide (years > 0)
        | none => false) then c4 + 5 else c4
  let c6 := if (e.profile.skillsAll.getD []).length > 3 then c5 + 5 else c5
  let c7 :=
    match e.extractionResults.bind (fun x => x.dataQuality) with
    | some quality => max c6 quality.overallConfidence
    | none => c6
  min 95 c7

/-- The method `getPassingScore`. -/
def getPassingScore (e : ScoringEngine) : ℚ :=
  match e.visaType with
  | "Express Entry" => 67
  | "EU Blue Card" => 60
  | "Critical Skills Employment Permit" => 60
  | "Skilled Independent (189)" => 65
  | "Skilled Worker Visa" => 70
  | _ => 60

/-- The local variables `totalScore`, `totalWeight`, `hardFails` and `scoreCap`
of `calculateScore`. -/
structure Totals where
  totalScore : ℚ := 0
  totalWeight : ℚ := 0
  hardFails : List String := []
  scoreCap : ℚ := 100
  deriving DecidableEq, Repr

/-- The statements `totalScore += result.score; totalWeight += result.maxScore`. -/
def Totals.addScore (t : Totals) (r : DimResult) : Totals :=
  { t with totalScore := t.totalScore + r.score, totalWeight := t.totalWeight + r.maxScore }

/-- The statement `if (result.hardFail) hardFails.push(result.hardFail)`. -/
def Totals.pushHardFail (t : Totals) (r : DimResult) : Totals :=
  if strTruthy r.hardFail then { t with hardFails := t.hardFails ++ [r.hardFail.getD ""] } else t

/-- The statement `if (result.scoreCap) scoreCap = Math.min(scoreCap, result.scoreCap)`. -/
def Totals.applyCap (t : Totals) (r : DimResult) : Totals :=
  if numTruthy r.scoreCap then { t with scoreCap := min t.scoreCap (r.scoreCap.getD 0) } else t

/-- The `if (this.requirements.education)` block of `calculateScore`. -/
def stepEducation (s : Totals × ScoringEngine) : Totals × ScoringEngine :=
  match s.2.requirements.education with
  | some req =>
    let out := scoreEducation s.2 req
    (((s.1.addScore out.1).pushHardFail out.1).applyCap out.1,
     { out.2 with breakdown := { out.2.breakdown with education := some out.1 } })
  | none => s

/-- The `if (this.requirements.experience)` block of `calculateScore`. -/
def stepExperience (s : Totals × ScoringEngine) : Totals × ScoringEngine :=
  match s.2.requirements.experience with
  | some req =>
    let out := scoreExperience s.2 req
    (s.1.addScore out.1,
     { out.2 with breakdown := { out.2.breakdown with experience := some out.1 } })
  | none => s

/-- The `if (this.requirements.salary)` block of `calculateScore`. -/
def stepSalary (s : Totals × ScoringEngine) : Totals × ScoringEngine :=
  match s.2.requirements.salary with
  | some req =>
    let out := scoreSalary s.2 req
    (((s.1.addScore out.1).pushHardFail out.1).applyCap out.1,
     { out.2 with breakdown := { out.2.breakdown with salary := some out.1 } })
  | none => s

/-- The `if (this.requirements.jobOffer)` block of `calculateScore`. -/
def stepJobOffer (s : Totals × ScoringEngine) : Totals × ScoringEngine :=
  match s.2.requirements.jobOffer with
  | some req =>
    let out := scoreJobOffer s.2 req
    ((s.1.addScore out.1).pushHardFail out.1,
     { out.2 with breakdown := { out.2.breakdown with jobOffer := some out.1 } })
  | none => s

/-- The `if (this.requirements.language)` block of `calculateScore`. -/
def stepLanguage (s : Totals × ScoringEngine) : Totals × ScoringEngine :=
  match s.2.requirements.language with
  | some req =>
    let out := scoreLanguage s.2 req
    ((s.1.addScore out.1).pushHardFail out.1,
     { out.2 with breakdown := { out.2.breakdown with language := some out.1 } })
  | none => s

/-- The `if (this.requirements.age)` block of `calculateScore`. -/
def stepAge (s : Totals × ScoringEngine) : Totals × ScoringEngine :=
  match s.2.requirements.age with
  | some req =>
    let out := scoreAge s.2 req
    (s.1.addScore out.1,
     { out.2 with breakdown := { out.2.breakdown with age := some out.1 } })
  | none => s

/-- The six scoring blocks of `calculateScore`, in source order, from the
initial values of the local variables. -/
def scoreDimensions (e : ScoringEngine) : Totals × ScoringEngine :=
  stepAge (stepLanguage (stepJobOffer (stepSalary (stepExperience (stepEducation ({}, e))))))

/-- The expression `totalWeight > 0 ? (totalScore / totalWeight) * 100 : 0`. -/
def normalize (t : Totals) : ℚ :=
  if t.totalWeight > 0 then t.totalScore / t.totalWeight * 100 else 0

/-- The second half of `calculateScore`, from the comment "Calculate normalized
score" to the `return`: `t` holds the local variables after the six scoring
blocks and `e2` is the engine at that point. -/
def finishScore (t : Totals) (e2 : ScoringEngine) :
    Except JsError (EvaluationResult × ScoringEngine) := do
  let normalizedScore := normalize t
  let afterHardFails ←
    if t.hardFails.length > 0 ∧ normalizedScore > t.scoreCap then
      (e2.log (LogMsg.cappedByHardFail t.scoreCap t.hardFails)).map (fun e => (t.scoreCap, e))
    else
      Except.ok (normalizedScore, e2)
  let afterCeiling ←
    if afterHardFails.1 > 85 then
      (afterHardFails.2.log LogMsg.cappedAt85).map (fun e => ((85 : ℚ), e))
    else
      Except.ok afterHardFails
  let confidence := calculateConfidence afterCeiling.2
  let passingScore := getPassingScore afterCeiling.2
  let isPassing := decide (afterCeiling.1 ≥ passingScore)
  let e3 ← afterCeiling.2.log (LogMsg.final (mathRound afterCeiling.1) confidence isPassing)
  return ({ score := mathRound afterCeiling.1,
            confidence := confidence,
            breakdown := e3.breakdown,
            hardFails := t.hardFails,
            passingScore := passingScore,
            isPassing := isPassing,
            metRequirements := e3.metRequirements,
            failedRequirements := e3.failedRequirements,
            warnings := e3.warnings,
            scoringLog := e3.scoringLog.getD [] }, e3)

/-- The method `calculateScore`: the opening `log` call, the six scoring blocks
and the normalisation, capping and result construction. -/
def calculateScore (e0 : ScoringEngine) : Except JsError (EvaluationResult × ScoringEngine) := do
  let e1 ← e0.log (LogMsg.start e0.country e0.visaType)
  let scored := scoreDimensions e1
  finishScore scored.1 scored.2

/-- The call sequence of the route handlers:
`new ScoringEngine(country, visaType, profile, extractionResults).calculateScore()`. -/
def evaluate (country visaType : String) (profile : Profile)
    (extractionResults : Option ExtractionResults) : Except JsError EvaluationResult :=
  ((ScoringEngine.new country visaType profile extractionResults).bind calculateScore).map
    Prod.fst

/-! ## Derived quantities used in the statements -/

/-- The value of `normalizedScore` after the hard-fail block of `calculateScore`. -/
def afterHardFailCap (t : Totals) : ℚ :=
  if t.hardFails.length > 0 ∧ normalize t > t.scoreCap then t.scoreCap else normalize t

/-- The value of `normalizedScore` after the 85 ceiling of `calculateScore`. -/
def finalNormalized (t : Totals) : ℚ :=
  if afterHardFailCap t > 85 then 85 else afterHardFailCap t

/-- The engine right after the first `log` call of `calculateScore`. -/
def started (e0 : ScoringEngine) (entries : List LogMsg) : ScoringEngine :=
  { e0 with scoringLog := some (entries ++ [LogMsg.start e0.country e0.visaType]) }

/-- The level `scoreEducation` recognises in the profile; `0` when the level is
absent, empty or contains none of the known names. -/
def recognisedLevel (p : Profile) : ℕ :=
  currentLevelOf (toLowerCase (strOr (p.education.getD {}).level ""))

/-- The requirement sets held by a table with two levels of keys. -/
def tableEntries {α : Type} (table : List (String × List (String × α))) : List α :=
  (table.map (fun byCountry => byCountry.2.map Prod.snd)).flatten

/-- Every visa of `VISA_CATEGORIES`. -/
def allVisas : List Visa :=
  (VISA_CATEGORIES.map (fun byCountry => (byCountry.2.map Prod.snd).flatten)).flatten

/-- An optional number that, when present, satisfies `p`. -/
def optAll (p : ℚ → Bool) (a : Option ℚ) : Bool :=
  match a with
  | some x => p x
  | none => true

/-- Catalog invariant of a requirement set: no weight is negative, the education
cap is absent or `30`, the salary cap is absent or non-negative and the salary
minimum is absent or positive. -/
def Requirements.wellFormed (r : Requirements) : Bool :=
  (match r.education with
   | some q => optAll (fun w => decide (0 ≤ w)) q.weight
                 && optAll (fun c => decide (c = 30)) q.capIfMissing
   | none => true)
  && (match r.experience with
   | some q => optAll (fun w => decide (0 ≤ w)) q.weight
   | none => true)
  && (match r.salary with
   | some q => optAll (fun w => decide (0 ≤ w)) q.weight
                 && optAll (fun c => decide (0 ≤ c)) q.capIfBelow
                 && optAll (fun m => decide (0 < m)) q.minAmount
   | none => true)
  && (match r.jobOffer with
   | some q => optAll (fun w => decide (0 ≤ w)) q.weight
   | none => true)
  && (match r.language with
   | some q => optAll (fun w => decide (0 ≤ w)) q.weight
   | none => true)
  && (match r.age with
   | some q => optAll (fun w => decide (0 ≤ w)) q.weight
   | none => true)

/-- The fields of the engine that no scorer assigns. -/
def SameInputs (e e1 : ScoringEngine) : Prop :=
  e1.country = e.country ∧ e1.visaType = e.visaType ∧ e1.profile = e.profile ∧
  e1.extractionResults = e.extractionResults ∧ e1.requirements = e.requirements ∧
  e1.scoringLog = e.scoringLog

/-- Invariant of the running totals: the score lies between `0` and the weight
and the cap is not negative. -/
def Totals.Good (t : Totals) : Prop :=
  0 ≤ t.totalScore ∧ t.totalScore ≤ t.totalWeight ∧ 0 ≤ t.scoreCap

/-- A hard fail has been recorded and the cap is at most `c`. -/
def Totals.CappedAt (t : Totals) (c : ℚ) : Prop :=
  t.hardFails ≠ [] ∧ t.scoreCap ≤ c

/-- The profile of the eligibility scenario for the Germany EU Blue Card. -/
def scenarioProfile : Profile :=
  { education := some { level := some "master", verified := true },
    salary := some (Salary.object (some 50000) (some "EUR") true),
    hasJobOffer := true,
    experience := some { totalYears := some 2 } }

/-- The engine the constructor returns once the pair has resolved to `requirements`. -/
def freshEngine (country visaType : String) (profile : Profile)
    (extractionResults : Option ExtractionResults) (requirements : Requirements) :
    ScoringEngine :=
  { country := country, visaType := visaType, profile := profile,
    extractionResults := extractionResults, requirements := requirements,
    breakdown := {}, failedRequirements := [], metRequirements := [], warnings := [],
    scoringLog := some [] }

/-- The entry `OFFICIAL_REQUIREMENTS.Germany['EU Blue Card']`. -/
def euBlueCard : Requirements :=
  (lookup2 OFFICIAL_REQUIREMENTS "Germany" "EU Blue Card").getD {}

/-- The salary requirement of the Germany EU Blue Card. -/
def euBlueCardSalary : SalaryReq := euBlueCard.salary.getD {}

/-- A strong profile whose salary is far below the EU Blue Card minimum. -/
def lowSalaryProfile : Profile :=
  { education := some { level := some "phd" },
    experience := some { totalYears := some 5 },
    salary := some (Salary.object (some 1000) (some "EUR") false),
    hasJobOffer := true,
    languages := some [{ language := some "German", verified := true }] }

/-! ## The `/compare` route handler of `routes/evaluation.js` -/

/-- One entry of the `comparisons` array of the `/compare` handler; the `summary`
string, built from `country`, `visaType` and `score`, is not represented. -/
structure Comparison where
  country : String
  visaType : String
  score : ℤ
  confidence : ℚ
  isPassing : Bool
  passingScore : ℚ
  deriving DecidableEq, Repr

/-- The method `Array.prototype.sort(compareFn)`: a stable sort in which `a`
is placed no later than `b` when `compareFn(a, b) <= 0`. -/
def arraySort {α : Type} (compareFn : α → α → ℤ) (l : List α) : List α :=
  l.mergeSort (fun a b => decide (compareFn a b ≤ 0))

/-- The inner loop of the `/compare` handler for one country: one entry for
each visa type of `getVisaTypes(country)`; a pair whose evaluation throws is
caught and skipped. -/
def compareCountry (data : Profile) (country : String) : List Comparison :=
  (getVisaTypes country).filterMap (fun visaType =>
    match evaluate country visaType data none with
    | Except.ok scoreResult =>
      some { country := country, visaType := visaType, score := scoreResult.score,
             confidence := scoreResult.confidence, isPassing := scoreResult.isPassing,
             passingScore := scoreResult.passingScore }
    | Except.error _ => none)

/-- The `comparisons` array of the `/compare` handler before it is sorted:
the entries in loop order, by country and within a country by visa type. -/
def collectComparisons (data : Profile) (countriesToCompare : List String) : List Comparison :=
  (countriesToCompare.map (compareCountry data)).flatten

/-- The `comparisons` and `bestMatch` fields of the response of `/compare`. -/
structure CompareResult where
  comparisons : List Comparison
  bestMatch : Option Comparison
  deriving DecidableEq, Repr

/-- The `/compare` handler after its guard on `extractedData`: `data` is
`confirmedData || extractedData` and `countries` the optional list of the
request body, replaced by `getCountries()` when absent. -/
def compareHandler (data : Profile) (countries : Option (List String)) : CompareResult :=
  let countriesToCompare := countries.getD getCountries
  let comparisons :=
    arraySort (fun a b => b.score - a.score) (collectComparisons data countriesToCompare)
  { comparisons := comparisons, bestMatch := comparisons.head? }

/-! ## Inputs of the counterexamples -/

/-- A profile with a job offer, a bachelor degree and one unverified language. -/
def borderlineProfile : Profile :=
  { education := some { level := some "bachelor" },
    hasJobOffer := true,
    languages := some [{ language := some "English" }] }

/-- A profile whose only content is a job offer that is not verified. -/
def unverifiedOfferProfile : Profile :=
  { jobOffer := some { hasOffer := true, verified := false } }

/-- A profile with no experience data. -/
def noExperience (p : Profile) : Profile := { p with experience := none }

/-- A profile whose experience object holds `totalYears: 0`. -/
def zeroExperience (p : Profile) : Profile :=
  { p with experience := some { totalYears := some 0 } }

/-- The experience requirement of `OFFICIAL_REQUIREMENTS.Australia['Skilled Independent (189)']`. -/
def australiaExperience : ExperienceReq :=
  ((lookup2 OFFICIAL_REQUIREMENTS "Australia" "Skilled Independent (189)").getD {}).experience.getD
    {}

/-- The outcome of `calculateScore` on the engine of the scenario. -/
def scenarioOutput : EvaluationResult × ScoringEngine :=
  match calculateScore (freshEngine "Germany" "EU Blue Card" scenarioProfile none euBlueCard) with
  | Except.ok out => out
  | Except.error _ =>
    ({ score := 0, confidence := 0, breakdown := {}, hardFails := [], passingScore := 0,
       isPassing := false, metRequirements := [], failedRequirements := [], warnings := [],
       scoringLog := [] },
     freshEngine "Germany" "EU Blue Card" scenarioProfile none euBlueCard)

/-- The entry `OFFICIAL_REQUIREMENTS.UK['Skilled Worker Visa']`. -/
def ukSkilledWorker : Requirements :=
  (lookup2 OFFICIAL_REQUIREMENTS "UK" "Skilled Worker Visa").getD {}

/-- A profile with a job offer, a salary above one and a half times the UK
minimum and a verified language certificate. -/
def ukStrongProfile : Profile :=
  { hasJobOffer := true,
    salary := some (Salary.object (some 40000) (some "GBP") true),
    languages := some [{ language := some "English", proficiency := some "C1", verified := true }] }

/-- A weight that is present and positive. -/
def optPos (a : Option ℚ) : Bool :=
  match a with
  | some w => decide (0 < w)
  | none => false

/-- A requirement set with positive weights: every requirement of the six scored
kinds carries a `weight` property, and that weight is positive. -/
def Requirements.positiveWeights (r : Requirements) : Bool :=
  (match r.education with
   | some q => optPos q.weight
   | none => true)
  && (match r.experience with
   | some q => optPos q.weight
   | none => true)
  && (match r.salary with
   | some q => optPos q.weight
   | none => true)
  && (match r.jobOffer with
   | some q => optPos q.weight
   | none => true)
  && (match r.language with
   | some q => optPos q.weight
   | none => true)
  && (match r.age with
   | some q => optPos q.weight
   | none => true)

/-- The requirement set with every `weight` property multiplied by `k`. -/
def scaleWeights (k : ℚ) (r : Requirements) : Requirements :=
  { education := r.education.map (fun q => { q with weight := q.weight.map (fun w => k * w) }),
    experience := r.experience.map (fun q => { q with weight := q.weight.map (fun w => k * w) }),
    salary := r.salary.map (fun q => { q with weight := q.weight.map (fun w => k * w) }),
    jobOffer := r.jobOffer.map (fun q => { q with weight := q.weight.map (fun w => k * w) }),
    language := r.language.map (fun q => { q with weight := q.weight.map (fun w => k * w) }),
    age := r.age.map (fun q => { q with weight := q.weight.map (fun w => k * w) }),
    other := r.other.map (fun p => (p.1, p.2.map (fun w => k * w))) }

/-- A dimension result whose score and maximum are `k` times those of another,
with the same hard fail and score cap. -/
def DimResult.ScaledBy (k : ℚ) (r r1 : DimResult) : Prop :=
  r1.score = k * r.score ∧ r1.maxScore = k * r.maxScore ∧ r1.hardFail = r.hardFail ∧
  r1.scoreCap = r.scoreCap

/-- Running totals `k` times as large as others, with the same hard fails and cap. -/
def Totals.ScaledBy (k : ℚ) (t t1 : Totals) : Prop :=
  t1.totalScore = k * t.totalScore ∧ t1.totalWeight = k * t.totalWeight ∧
  t1.hardFails = t.hardFails ∧ t1.scoreCap = t.scoreCap

/-- Two states of `calculateScore` on the same profile and visa type, the second
under weights `k` times those of the first. -/
def ScaledState (k : ℚ) (s s1 : Totals × ScoringEngine) : Prop :=
  Totals.ScaledBy k s.1 s1.1 ∧ s1.2.profile = s.2.profile ∧ s1.2.visaType = s.2.visaType ∧
  s1.2.requirements = scaleWeights k s.2.requirements

/-! ## The document extractor

A model of `buildConsolidatedProfile` and `calculateOverallConfidence` of
`server/services/documentExtractor.js`.  An extraction result carries the
properties these two methods read; `extractionSuccess` is `none` when the
property is absent, as in the marker `{ extractionFailed: true, error }` that
`extractAllDocuments` stores for a failed extraction.  The personal data, the
graduation year, the certifications and the achievements of the consolidated
profile are not represented. -/

/-- The expression `a || b` for two optional strings; `a || null` is `strOrElse a none`. -/
def strOrElse (a b : Option String) : Option String :=
  if strTruthy a then a else b

/-- The expression `a || b` for two optional numbers; `a || null` is `numOrElse a none`. -/
def numOrElse (a b : Option ℚ) : Option ℚ :=
  if numTruthy a then a else b

/-- The extraction result of a resume. -/
structure ResumeData where
  extractionSuccess : Option Bool := none
  extractionFailed : Bool := false
  education : Option Education := none
  experience : Option Experience := none
  skillsTechnical : Option (List String) := none
  skillsSoft : Option (List String) := none
  skillsTools : Option (List String) := none
  languages : Option (List Language) := none
  salaryCurrent : Option ℚ := none
  deriving DecidableEq, Repr

/-- The extraction result of a degree certificate. -/
structure DegreeData where
  extractionSuccess : Option Bool := none
  extractionFailed : Bool := false
  degreeLevel : Option String := none
  degreeField : Option String := none
  institutionName : Option String := none
  deriving DecidableEq, Repr

/-- The extraction result of a job offer letter. -/
structure JobOfferData where
  extractionSuccess : Option Bool := none
  extractionFailed : Bool := false
  companyName : Option String := none
  positionTitle : Option String := none
  baseSalary : Option ℚ := none
  currency : Option String := none
  deriving DecidableEq, Repr

/-- The extraction result of a salary proof. -/
structure SalaryProofData where
  extractionSuccess : Option Bool := none
  extractionFailed : Bool := false
  annualized : Option ℚ := none
  currency : Option String := none
  deriving DecidableEq, Repr

/-- The extraction result of a language certificate. -/
structure LanguageCertData where
  extractionSuccess : Option Bool := none
  extractionFailed : Bool := false
  language : Option String := none
  cefrLevel : Option String := none
  testType : Option String := none
  overall : Option ℚ := none
  deriving DecidableEq, Repr

/-- The `results` object of `extractAllDocuments`; a document that was not
uploaded is `none` (`null`). -/
structure ExtractionData where
  resume : Option ResumeData := none
  degree : Option DegreeData := none
  jobOffer : Option JobOfferData := none
  salaryProof : Option SalaryProofData := none
  languageCert : Option LanguageCertData := none
  deriving DecidableEq, Repr

/-- The `dataQuality` object of the consolidated profile. -/
structure ConsolidatedQuality where
  resumeExtracted : Bool
  degreeVerified : Bool
  salaryVerified : Bool
  languageVerified : Bool
  jobOfferVerified : Bool
  overallConfidence : ℤ
  deriving DecidableEq, Repr

/-- The object returned by `buildConsolidatedProfile`. -/
structure ConsolidatedProfile where
  education : Education
  experience : Experience
  skillsAll : List String
  languages : List Language
  salary : Salary
  jobOffer : JobOffer
  dataQuality : ConsolidatedQuality
  deriving DecidableEq, Repr

/-- The test `x === true` on an optional flag. -/
def strictlyTrue (a : Option Bool) : Bool :=
  match a with
  | some true => true
  | _ => false

/-- The test `x !== false` on an optional flag. -/
def notFalse (a : Option Bool) : Bool :=
  match a with
  | some false => false
  | _ => true

/-- One block of `calculateOverallConfidence`: `maxScore += points`, and
`score += points` when the test on `extractionSuccess` holds. -/
def confidenceBlock (present credited : Bool) (points : ℚ) (s : ℚ × ℚ) : ℚ × ℚ :=
  if present then (if credited then s.1 + points else s.1, s.2 + points) else s

/-- The method `calculateOverallConfidence`; the pair holds `score` and `maxScore`. -/
def calculateOverallConfidence (results : ExtractionData) : ℤ :=
  let s1 := confidenceBlock results.resume.isSome
    (strictlyTrue (results.resume.bind (fun d => d.extractionSuccess))) 30 (0, 0)
  let s2 := confidenceBlock results.degree.isSome
    (notFalse (results.degree.bind (fun d => d.extractionSuccess))) 20 s1
  let s3 := confidenceBlock results.jobOffer.isSome
    (notFalse (results.jobOffer.bind (fun d => d.extractionSuccess))) 25 s2
  let s4 := confidenceBlock results.salaryProof.isSome
    (notFalse (results.salaryProof.bind (fun d => d.extractionSuccess))) 15 s3
  let s5 := confidenceBlock results.languageCert.isSome
    (notFalse (results.languageCert.bind (fun d => d.extractionSuccess))) 10 s4
  if s5.2 > 0 then mathRound (s5.1 / s5.2 * 100) else 0

/-- The `education` property of the consolidated profile. -/
def consolidatedEducation (results : ExtractionData) : Education :=
  let resumeEducation := results.resume.bind (fun d => d.education)
  { level := strOrElse (results.degree.bind (fun d => d.degreeLevel))
      (strOrElse (resumeEducation.bind (fun x => x.level)) none),
    field := strOrElse (results.degree.bind (fun d => d.degreeField))
      (strOrElse (resumeEducation.bind (fun x => x.field)) none),
    institution := strOrElse (results.degree.bind (fun d => d.institutionName))
      (strOrElse (resumeEducation.bind (fun x => x.institution)) none),
    verified := strictlyTrue (results.degree.bind (fun d => d.extractionSuccess)) }

/-- The `experience` property of the consolidated profile. -/
def consolidatedExperience (results : ExtractionData) : Experience :=
  let resumeExperience := results.resume.bind (fun d => d.experience)
  { totalYears := some (numOr (resumeExperience.bind (fun x => x.totalYears)) 0),
    currentRole := strOrElse (resumeExperience.bind (fun x => x.currentRole)) none,
    currentCompany := strOrElse (resumeExperience.bind (fun x => x.currentCompany)) none }

/-- The `skills.all` property of the consolidated profile. -/
def consolidatedSkills (results : ExtractionData) : List String :=
  ((results.resume.bind (fun d => d.skillsTechnical)).getD [])
    ++ ((results.resume.bind (fun d => d.skillsSoft)).getD [])
    ++ ((results.resume.bind (fun d => d.skillsTools)).getD [])

/-- The `languages` property of the consolidated profile. -/
def consolidatedLanguages (results : ExtractionData) : List Language :=
  match results.languageCert with
  | some cert =>
    [{ language := cert.language, proficiency := cert.cefrLevel, testType := cert.testType,
       score := cert.overall, verified := true }]
  | none =>
    ((results.resume.bind (fun d => d.languages)).getD []).map
      (fun l => { l with verified := false })

/-- The `salary` property of the consolidated profile. -/
def consolidatedSalary (results : ExtractionData) : Salary :=
  Salary.object
    (numOrElse (results.jobOffer.bind (fun d => d.baseSalary))
      (numOrElse (results.salaryProof.bind (fun d => d.annualized))
        (numOrElse (results.resume.bind (fun d => d.salaryCurrent)) none)))
    (strOrElse (results.jobOffer.bind (fun d => d.currency))
      (strOrElse (results.salaryProof.bind (fun d => d.currency)) none))
    (strictlyTrue (results.salaryProof.bind (fun d => d.extractionSuccess))
      || strictlyTrue (results.jobOffer.bind (fun d => d.extractionSuccess)))

/-- The `jobOffer` property of the consolidated profile. -/
def consolidatedJobOffer (results : ExtractionData) : JobOffer :=
  match results.jobOffer with
  | some offer =>
    { hasOffer := true, company := offer.companyName, position := offer.positionTitle }
  | none => { hasOffer := false }

/-- The `dataQuality` property of the consolidated profile. -/
def consolidatedQuality (results : ExtractionData) : ConsolidatedQuality :=
  { resumeExtracted := strictlyTrue (results.resume.bind (fun d => d.extractionSuccess)),
    degreeVerified := strictlyTrue (results.degree.bind (fun d => d.extractionSuccess)),
    salaryVerified := strictlyTrue (results.salaryProof.bind (fun d => d.extractionSuccess)),
    languageVerified := strictlyTrue (results.languageCert.bind (fun d => d.extractionSuccess)),
    jobOfferVerified := strictlyTrue (results.jobOffer.bind (fun d => d.extractionSuccess)),
    overallConfidence := calculateOverallConfidence results }

/-- The method `buildConsolidatedProfile`, property by property. -/
def buildConsolidatedProfile (results : ExtractionData) : ConsolidatedProfile :=
  { education := consolidatedEducation results,
    experience := consolidatedExperience results,
    skillsAll := consolidatedSkills results,
    languages := consolidatedLanguages results,
    salary := consolidatedSalary results,
    jobOffer := consolidatedJobOffer results,
    dataQuality := consolidatedQuality results }

/-- The object `{ extractionFailed: true, error }` stored for a job offer letter
whose extraction failed. -/
def failedJobOffer : JobOfferData := { extractionFailed := true }

/-- The object `{ extractionFailed: true, error }` stored for a language
certificate whose extraction failed. -/
def failedLanguageCert : LanguageCertData := { extractionFailed := true }

/-! ## The rule-based component of the `/evaluate` handler

A model of the choice between the visa config and the default scoring in the
`/evaluate` handler of `server/routes/evaluation.js`, of the default scoring
(`calculateDefaultScore`, `getDefaultBreakdown`), of the normalisation of the rule
score and of the AI score.  The definitions of the handler live in the namespace
`Route`, apart from the engine methods of the same name. -/

/-- The properties of the handler's `profile` object that the default scoring reads. -/
structure RouteProfile where
  education : Education := {}
  totalExperienceYears : ℚ := 0
  skills : List String := []
  languages : List Language := []
  hasJobOffer : Bool := false
  deriving DecidableEq, Repr

/-- An entry of the handler's `breakdown` object. -/
structure BreakdownItem where
  score : ℚ
  maxScore : ℚ
  deriving DecidableEq, Repr

/-- The function `getVisaCategoryConfig`, as far as the handler's test
`visaConfig && visaConfig.requirements` sees it: whether some visa of
`VISA_CATEGORIES[country]` has the name `visaType`; the `requirements` of the
returned object is always an object. -/
def Route.getVisaCategoryConfig (country visaType : String) : Bool :=
  match VISA_CATEGORIES.lookup country with
  | some categories =>
    ((categories.map Prod.snd).flatten).any (fun visa => decide (visa.name = visaType))
  | none => false

/-- The test `visaConfig && visaConfig.requirements` of the handler, where
`visaConfig = getVisaConfig(country, visaType) || getVisaCategoryConfig(country, visaType)`. -/
def Route.usesVisaConfig (country visaType : String) : Bool :=
  match getVisaConfig country visaType with
  | some config => config.requirements.isSome
  | none => Route.getVisaCategoryConfig country visaType

/-- The function `calculateDefaultScore`. -/
def Route.calculateDefaultScore (profile : RouteProfile) : ℚ :=
  let s0 : ℚ := 30
  let s1 := if strTruthy profile.education.level then s0 + 15 else s0
  let s2 := if profile.totalExperienceYears ≥ 2 then s1 + 15 else s1
  let s3 := if profile.skills.length > 3 then s2 + 10 else s2
  let s4 := if profile.hasJobOffer then s3 + 15 else s3
  let s5 := if profile.languages.length > 0 then s4 + 5 else s4
  s5

/-- The function `getDefaultBreakdown`. -/
def Route.getDefaultBreakdown (profile : RouteProfile) : List (String × BreakdownItem) :=
  [("education",
     { score := if strTruthy profile.education.level then 15 else 0, maxScore := 20 }),
   ("experience",
     { score := min 20 (numOr (some profile.totalExperienceYears) 0 * 4), maxScore := 20 }),
   ("skills",
     { score := min 10 (numOr (some (profile.skills.length : ℚ)) 0 * 2), maxScore := 10 }),
   ("documents",
     { score := if profile.hasJobOffer then 15 else 5, maxScore := 15 })]

/-- The expression
`Object.values(breakdown).reduce((sum, item) => sum + (item.maxScore || 0), 0) || 100`. -/
def Route.totalMaxScore (breakdown : List (String × BreakdownItem)) : ℚ :=
  numOr (some (breakdown.foldl (fun sum item => sum + numOr (some item.2.maxScore) 0) 0)) 100

/-- The expression `totalMaxScore > 0 ? (ruleScore / totalMaxScore) * 70 : 35`. -/
def Route.normalizedRuleScore (ruleScore : ℚ) (breakdown : List (String × BreakdownItem)) : ℚ :=
  if Route.totalMaxScore breakdown > 0 then ruleScore / Route.totalMaxScore breakdown * 70
  else 35

/-- The value of `normalizedRuleScore` in the handler when the default scoring is
used: `ruleScore = calculateDefaultScore(profile)` and
`breakdown = getDefaultBreakdown(profile)`. -/
def Route.defaultRuleComponent (profile : RouteProfile) : ℚ :=
  Route.normalizedRuleScore (Route.calculateDefaultScore profile)
    (Route.getDefaultBreakdown profile)

/-- The expression
`Math.min(30, Math.max(0, 15 + (strengthCount * 3) - (weaknessCount * 2)))`. -/
def Route.aiScore (strengthCount weaknessCount : ℕ) : ℚ :=
  min 30 (max 0 (15 + (strengthCount : ℚ) * 3 - (weaknessCount : ℚ) * 2))

/-- A profile with a degree, three years of experience, four skills, one
language and a job offer letter. -/
def fullRouteProfile : RouteProfile :=
  { education := { level := some "Bachelor" },
    totalExperienceYears := 3,
    skills := ["Python", "SQL", "Java", "Go"],
    languages := [{ language := some "English" }],
    hasJobOffer := true }

/-! ## Rounding to a double -/

/-- Auxiliary recursion of `floorLog2`, structural in the first argument. -/
def log2Fuel : ℕ → ℕ → ℕ
  | 0, _ => 0
  | fuel + 1, n => if n < 2 then 0 else log2Fuel fuel (n / 2) + 1

/-- The position of the leading binary digit of a natural number: the `k` with
`2 ^ k ≤ n < 2 ^ (k + 1)` for `n ≠ 0`. -/
def floorLog2 (n : ℕ) : ℕ := log2Fuel n n

/-- The power `2 ^ e` for an integer exponent. -/
def twoPow (e : ℤ) : ℚ :=
  if 0 ≤ e then ((2 ^ e.toNat : ℕ) : ℚ) else 1 / ((2 ^ (-e).toNat : ℕ) : ℚ)

/-- Rounding to the nearest integer, a tie going to the even neighbour. -/
def roundHalfEven (q : ℚ) : ℤ :=
  let f := ⌊q⌋
  let r := q - f
  if r < 1 / 2 then f
  else if 1 / 2 < r then f + 1
  else if f % 2 = 0 then f
  else f + 1

/-- The binary exponent of a non-zero number: the `e` with `2 ^ e ≤ |x| < 2 ^ (e + 1)`. -/
def binaryExponent (x : ℚ) : ℤ :=
  let e0 : ℤ := (floorLog2 x.num.natAbs : ℤ) - (floorLog2 x.den : ℤ)
  if twoPow e0 ≤ |x| then e0 else e0 - 1

/-- The double nearest to `x`: rounding to 53 significant binary digits, to
nearest with ties to even, as every arithmetic operation on JavaScript numbers
does.  The exponent is not bounded. -/
def roundDouble (x : ℚ) : ℚ :=
  if x = 0 then 0
  else
    let ulp : ℚ := twoPow (binaryExponent x - 52)
    roundHalfEven (x / ulp) * ulp

/-! ## The engine in double arithmetic

The definitions above compute in exact rationals.  Where a result depends on
the rounding of the arithmetic, the scorers are given a second time in the
namespace `Float64`, with every arithmetic operation of the source rounded to
the nearest double (`roundDouble`) and every decimal literal of the source read
as the nearest double.  The numbers a requirement set or a profile holds are
meant to be doubles (`isDouble`). -/

/-- A rational that is a double: rounding leaves it unchanged. -/
def isDouble (x : ℚ) : Bool := decide (roundDouble x = x)

/-- The numeric literal `x` of the source, read as a double. -/
def Float64.lit (x : ℚ) : ℚ := roundDouble x

/-- The operator `a * b` on doubles. -/
def Float64.mul (a b : ℚ) : ℚ := roundDouble (a * b)

/-- The operator `a + b` on doubles. -/
def Float64.add (a b : ℚ) : ℚ := roundDouble (a + b)

/-- The operator `a - b` on doubles. -/
def Float64.sub (a b : ℚ) : ℚ := roundDouble (a - b)

/-- The operator `a / b` on doubles, for a non-zero divisor. -/
def Float64.div (a b : ℚ) : ℚ := roundDouble (a / b)

/-- An optional number read as a double. -/
def Float64.optLit (a : Option ℚ) : Option ℚ := a.map roundDouble

/-- A requirement set as the engine reads it from a catalog literal: every
number is the double nearest to the decimal literal. -/
def Requirements.asDoubles (r : Requirements) : Requirements :=
  { education := r.education.map (fun q =>
      { q with weight := Float64.optLit q.weight,
               capIfMissing := Float64.optLit q.capIfMissing }),
    experience := r.experience.map (fun q =>
      { q with minYears := Float64.optLit q.minYears,
               recommended := Float64.optLit q.recommended,
               weight := Float64.optLit q.weight }),
    salary := r.salary.map (fun q =>
      { q with minAmount := Float64.optLit q.minAmount,
               weight := Float64.optLit q.weight,
               capIfBelow := Float64.optLit q.capIfBelow }),
    jobOffer := r.jobOffer.map (fun q => { q with weight := Float64.optLit q.weight }),
    language := r.language.map (fun q =>
      { q with weight := Float64.optLit q.weight,
               minCLB := Float64.optLit q.minCLB,
               minIELTS := Float64.optLit q.minIELTS }),
    age := r.age.map (fun q =>
      { q with weight := Float64.optLit q.weight,
               maxAge := Float64.optLit q.maxAge,
               optimalRange := q.optimalRange.map (fun p => (roundDouble p.1, roundDouble p.2)) }),
    other := r.other.map (fun p => (p.1, Float64.optLit p.2)) }

/-- The method `scoreEducation` in double arithmetic. -/
def Float64.scoreEducation (e : ScoringEngine) (req : EducationReq) :
    DimResult × ScoringEngine :=
  let weight := numOr req.weight 25
  let education := e.profile.education.getD {}
  let result : DimResult :=
    { score := 0, maxScore := weight, verified := some education.verified,
      hardFail := none, scoreCap := none }
  let level := toLowerCase (strOr education.level "")
  let currentLevel := currentLevelOf level
  let requiredLevel := requiredLevelOf req.minLevel
  if level = "" ∨ currentLevel = 0 then
    if req.required then
      ({ result with
          hardFail := some "Missing required education credentials",
          scoreCap := some (numOr req.capIfMissing 30) },
       { e with failedRequirements := e.failedRequirements ++ [Msg.lit "Education documentation"] })
    else
      (result, e)
  else if currentLevel ≥ requiredLevel then
    let base := Float64.mul weight (Float64.lit 0.8)
    let e1 := { e with
      metRequirements := e.metRequirements ++ [Msg.educationMet (strOr education.level "")] }
    let withDegree :=
      if currentLevel = 5 then weight
      else if currentLevel = 4 then Float64.mul weight (Float64.lit 0.95)
      else base
    let withInstitution :=
      if strTruthy education.institution then
        min weight (Float64.add withDegree (Float64.mul weight (Float64.lit 0.1)))
      else withDegree
    ({ result with score := withInstitution }, e1)
  else
    ({ result with
        score := Float64.mul weight (Float64.lit 0.3),
        scoreCap := if req.failIfMissing then some (numOr req.capIfMissing 40) else none },
     e)

/-- The method `scoreExperience` in double arithmetic. -/
def Float64.scoreExperience (e : ScoringEngine) (req : ExperienceReq) :
    DimResult × ScoringEngine :=
  let weight := numOr req.weight 20
  let years := experienceYears e.profile
  let result : DimResult := { score := 0, maxScore := weight, hardFail := none }
  if years = 0 ∧ req.required = true then
    (result,
     { e with
       failedRequirements := e.failedRequirements ++ [Msg.lit "Work experience documentation"] })
  else
    let minYears := numOr req.minYears 0
    let recommended := numOr req.recommended 5
    if years ≥ recommended then
      ({ result with score := weight },
       { e with metRequirements := e.metRequirements ++ [Msg.experienceMet years] })
    else if years ≥ minYears then
      let ratio := Float64.div (Float64.sub years minYears) (Float64.sub recommended minYears)
      ({ result with
          score := Float64.mul weight
            (Float64.add (Float64.lit 0.6) (Float64.mul ratio (Float64.lit 0.4))) },
       { e with metRequirements := e.metRequirements ++ [Msg.experienceMet years] })
    else if years > 0 then
      ({ result with
          score := Float64.mul (Float64.mul weight (Float64.div years minYears))
            (Float64.lit 0.5) },
       e)
    else
      (result, e)

/-- The method `scoreSalary` in double arithmetic: the thresholds
`minAmount * 1.5` and `minAmount * 0.8` are rounded products. -/
def Float64.scoreSalary (e : ScoringEngine) (req : SalaryReq) : DimResult × ScoringEngine :=
  let weight := numOr req.weight 25
  let result : DimResult :=
    { score := 0, maxScore := weight, verified := some (salaryVerified e.profile),
      hardFail := none, scoreCap := none }
  let amountOpt := salaryAmount e.profile
  let currency := strOr (salaryCurrency e.profile) (strOr req.currency "EUR")
  if numTruthy amountOpt = false then
    if req.required then
      ({ result with score := Float64.mul weight (Float64.lit 0.3) },
       { e with warnings := e.warnings ++ [Msg.lit "Salary verification recommended"] })
    else
      (result, e)
  else
    let amount := amountOpt.getD 0
    let minAmount := numOr req.minAmount 30000
    if amount ≥ Float64.mul minAmount (Float64.lit 1.5) then
      ({ result with score := weight },
       { e with metRequirements := e.metRequirements ++ [Msg.salaryMet currency amount] })
    else if amount ≥ minAmount then
      ({ result with score := Float64.mul weight (Float64.lit 0.9) },
       { e with metRequirements := e.metRequirements ++ [Msg.salaryMet currency amount] })
    else if amount ≥ Float64.mul minAmount (Float64.lit 0.8) then
      ({ result with score := Float64.mul weight (Float64.lit 0.5) },
       { e with warnings := e.warnings ++ [Msg.salaryBelowMinimum currency amount minAmount] })
    else
      ({ result with
          score := Float64.mul weight (Float64.lit 0.2),
          scoreCap := if req.failIfBelow then some (numOr req.capIfBelow 40) else none },
       { e with
         failedRequirements :=
           e.failedRequirements ++ [Msg.salaryBelowThreshold currency minAmount] })

/-- The method `scoreLanguage` in double arithmetic. -/
def Float64.scoreLanguage (e : ScoringEngine) (req : LanguageReq) :
    DimResult × ScoringEngine :=
  let weight := numOr req.weight 15
  let languages := e.profile.languages.getD []
  let result : DimResult :=
    { score := 0, maxScore := weight, verified := some false, hardFail := none }
  match languages.find? (fun l => l.verified) with
  | some verifiedLang =>
    ({ result with verified := some true, score := weight },
     { e with metRequirements := e.metRequirements ++ [Msg.languageMet verifiedLang] })
  | none =>
    if languages.length > 0 then
      ({ result with score := Float64.mul weight (Float64.lit 0.5) },
       { e with
         warnings :=
           e.warnings ++ [Msg.lit "Language certification recommended for verification"] })
    else if req.required then
      ({ result with hardFail := some "Language certification required" },
       { e with
         failedRequirements :=
           e.failedRequirements ++ [Msg.lit "Language proficiency certificate"] })
    else
      (result, e)

/-- The method `scoreAge` in double arithmetic. -/
def Float64.scoreAge (e : ScoringEngine) (req : AgeReq) : DimResult × ScoringEngine :=
  let weight := numOr req.weight 10
  ({ score := Float64.mul weight (Float64.lit 0.7), maxScore := weight }, e)

/-- The statements `totalScore += result.score; totalWeight += result.maxScore`
in double arithmetic. -/
def Float64.addScore (t : Totals) (r : DimResult) : Totals :=
  { t with totalScore := Float64.add t.totalScore r.score,
           totalWeight := Float64.add t.totalWeight r.maxScore }

/-- The `if (this.requirements.education)` block of `calculateScore`. -/
def Float64.stepEducation (s : Totals × ScoringEngine) : Totals × ScoringEngine :=
  match s.2.requirements.education with
  | some req =>
    let out := Float64.scoreEducation s.2 req
    (((Float64.addScore s.1 out.1).pushHardFail out.1).applyCap out.1,
     { out.2 with breakdown := { out.2.breakdown with education := some out.1 } })
  | none => s

/-- The `if (this.requirements.experience)` block of `calculateScore`. -/
def Float64.stepExperience (s : Totals × ScoringEngine) : Totals × ScoringEngine :=
  match s.2.requirements.experience with
  | some req =>
    let out := Float64.scoreExperience s.2 req
    (Float64.addScore s.1 out.1,
     { out.2 with breakdown := { out.2.breakdown with experience := some out.1 } })
  | none => s

/-- The `if (this.requirements.salary)` block of `calculateScore`. -/
def Float64.stepSalary (s : Totals × ScoringEngine) : Totals × ScoringEngine :=
  match s.2.requirements.salary with
  | some req =>
    let out := Float64.scoreSalary s.2 req
    (((Float64.addScore s.1 out.1).pushHardFail out.1).applyCap out.1,
     { out.2 with breakdown := { out.2.breakdown with salary := some out.1 } })
  | none => s

/-- The `if (this.requirements.jobOffer)` block of `calculateScore`; `scoreJobOffer`
does no arithmetic. -/
def Float64.stepJobOffer (s : Totals × ScoringEngine) : Totals × ScoringEngine :=
  match s.2.requirements.jobOffer with
  | some req =>
    let out := scoreJobOffer s.2 req
    ((Float64.addScore s.1 out.1).pushHardFail out.1,
     { out.2 with breakdown := { out.2.breakdown with jobOffer := some out.1 } })
  | none => s

/-- The `if (this.requirements.language)` block of `calculateScore`. -/
def Float64.stepLanguage (s : Totals × ScoringEngine) : Totals × ScoringEngine :=
  match s.2.requirements.language with
  | some req =>
    let out := Float64.scoreLanguage s.2 req
    ((Float64.addScore s.1 out.1).pushHardFail out.1,
     { out.2 with breakdown := { out.2.breakdown with language := some out.1 } })
  | none => s

/-- The `if (this.requirements.age)` block of `calculateScore`. -/
def Float64.stepAge (s : Totals × ScoringEngine) : Totals × ScoringEngine :=
  match s.2.requirements.age with
  | some req =>
    let out := Float64.scoreAge s.2 req
    (Float64.addScore s.1 out.1,
     { out.2 with breakdown := { out.2.breakdown with age := some out.1 } })
  | none => s

/-- The six scoring blocks of `calculateScore` in double arithmetic. -/
def Float64.scoreDimensions (e : ScoringEngine) : Totals × ScoringEngine :=
  Float64.stepAge (Float64.stepLanguage (Float64.stepJobOffer (Float64.stepSalary
    (Float64.stepExperience (Float64.stepEducation ({}, e))))))

/-- The expression `totalWeight > 0 ? (totalScore / totalWeight) * 100 : 0` in
double arithmetic. -/
def Float64.normalize (t : Totals) : ℚ :=
  if t.totalWeight > 0 then Float64.mul (Float64.div t.totalScore t.totalWeight) 100 else 0

/-- The second half of `calculateScore` in double arithmetic: as `finishScore`,
from the normalised score `Float64.normalize t`.  `Math.round` takes the double
to the nearest integer exactly. -/
def Float64.finishScore (t : Totals) (e2 : ScoringEngine) :
    Except JsError (EvaluationResult × ScoringEngine) := do
  let normalizedScore := Float64.normalize t
  let afterHardFails ←
    if t.hardFails.length > 0 ∧ normalizedScore > t.scoreCap then
      (e2.log (LogMsg.cappedByHardFail t.scoreCap t.hardFails)).map (fun e => (t.scoreCap, e))
    else
      Except.ok (normalizedScore, e2)
  let afterCeiling ←
    if afterHardFails.1 > 85 then
      (afterHardFails.2.log LogMsg.cappedAt85).map (fun e => ((85 : ℚ), e))
    else
      Except.ok afterHardFails
  let confidence := calculateConfidence afterCeiling.2
  let passingScore := getPassingScore afterCeiling.2
  let isPassing := decide (afterCeiling.1 ≥ passingScore)
  let e3 ← afterCeiling.2.log (LogMsg.final (mathRound afterCeiling.1) confidence isPassing)
  return ({ score := mathRound afterCeiling.1,
            confidence := confidence,
            breakdown := e3.breakdown,
            hardFails := t.hardFails,
            passingScore := passingScore,
            isPassing := isPassing,
            metRequirements := e3.metRequirements,
            failedRequirements := e3.failedRequirements,
            warnings := e3.warnings,
            scoringLog := e3.scoringLog.getD [] }, e3)

/-- The method `calculateScore` in double arithmetic. -/
def Float64.calculateScore (e0 : ScoringEngine) :
    Except JsError (EvaluationResult × ScoringEngine) := do
  let e1 ← e0.log (LogMsg.start e0.country e0.visaType)
  let scored := Float64.scoreDimensions e1
  Float64.finishScore scored.1 scored.2

/-- The value of `normalizedScore` in double arithmetic after the hard-fail
block and the 85 ceiling of `calculateScore`. -/
def Float64.finalNormalized (t : Totals) : ℚ :=
  let afterHardFails :=
    if t.hardFails.length > 0 ∧ Float64.normalize t > t.scoreCap then t.scoreCap
    else Float64.normalize t
  if afterHardFails > 85 then 85 else afterHardFails

/-- The requirements of `VISA_CONFIGS.France['Talent Passport']`. -/
def talentPassport : Requirements :=
  ((getVisaConfig "France" "Talent Passport").bind (fun config => config.requirements)).getD {}

/-- A profile whose only content is a bachelor degree. -/
def bachelorProfile : Profile := { education := some { level := some "bachelor" } }

/-- The salary requirement of `VISA_CONFIGS.Germany['ICT Permit']`, whose
`minAmount` literal `41041.80` is read as the nearest double. -/
def ictPermitSalary : SalaryReq :=
  ((((getVisaConfig "Germany" "ICT Permit").bind (fun config => config.requirements)).getD
    {}).asDoubles.salary).getD {}

/-- The helper `scoreSalary(salary, requirement)` of `routes/evaluation.js` for a
numeric `salary`, in double arithmetic. -/
def Route.scoreSalary (salary : ℚ) (requirement : SalaryReq) : ℚ :=
  let weight := numOr requirement.weight 20
  let minAmount := numOr requirement.minAmount 30000
  if salary ≥ Float64.mul minAmount (Float64.lit 1.5) then weight
  else if salary ≥ minAmount then mathRound (Float64.mul weight (Float64.lit 0.8))
  else if salary ≥ Float64.mul minAmount (Float64.lit 0.7) then
    mathRound (Float64.mul weight (Float64.lit 0.5))
  else mathRound (Float64.mul weight (Float64.lit 0.2))

/-! ## The engine with its clock

The method `log` stamps every entry with `new Date().toISOString()`.  In the
definitions above the log holds the messages only.  Here the clock is an
explicit input: `clock k` is the string the `k`-th reading of the system clock
returns, and a `TimedEngine` carries, beside the engine object, the timestamps
of the entries of `scoringLog`, in the same order, and the number of readings
made so far.  Nothing else in the engine reads the clock, and the engine reads
no random number and writes no state outside its own object. -/

/-- An engine object with the timestamps of its log entries and the number of
clock readings made so far. -/
structure TimedEngine where
  engine : ScoringEngine
  timestamps : List String := []
  reads : ℕ := 0
  deriving DecidableEq, Repr

/-- The object returned by `calculateScore`, with the timestamps of the entries
of its `scoringLog`. -/
structure TimedResult where
  result : EvaluationResult
  timestamps : List String
  deriving DecidableEq, Repr

/-- The method `log` with its clock reading: the entry pushed onto
`this.scoringLog` is `{ timestamp: new Date().toISOString(), message }`; the push
throws, before the clock is read, while `scoringLog` is unassigned. -/
def Timed.log (clock : ℕ → String) (s : TimedEngine) (m : LogMsg) : Except JsError TimedEngine :=
  match s.engine.scoringLog with
  | some entries =>
    Except.ok { engine := { s.engine with scoringLog := some (entries ++ [m]) },
                timestamps := s.timestamps ++ [clock s.reads],
                reads := s.reads + 1 }
  | none => Except.error (JsError.typeError "Cannot read properties of undefined (reading push)")

/-- The method `getRequirements` with the clock of its `log` call. -/
def Timed.getRequirements (clock : ℕ → String) (s : TimedEngine) :
    Except JsError (Requirements × TimedEngine) :=
  match lookup2 OFFICIAL_REQUIREMENTS s.engine.country s.engine.visaType with
  | some requirements => Except.ok (requirements, s)
  | none =>
    match (getVisaConfig s.engine.country s.engine.visaType).bind
        (fun config => config.requirements) with
    | some requirements => Except.ok (requirements, s)
    | none =>
      match (VISA_CATEGORIES.lookup s.engine.country).bind
          (fun categories => findVisaRequirements categories s.engine.visaType) with
      | some basicReqs => Except.ok (convertToScoringFormat basicReqs, s)
      | none =>
        (Timed.log clock s
            (LogMsg.noRequirements s.engine.country s.engine.visaType)).map
          (fun s1 => (getDefaultRequirements, s1))

/-- The constructor with the clock; `reads` is the number of clock readings made
before the call. -/
def Timed.new (clock : ℕ → String) (reads : ℕ) (country visaType : String) (profile : Profile)
    (extractionResults : Option ExtractionResults) : Except JsError TimedEngine :=
  let this : TimedEngine :=
    { engine := { country := country, visaType := visaType, profile := profile,
                  extractionResults := extractionResults, scoringLog := none },
      timestamps := [], reads := reads }
  (Timed.getRequirements clock this).map (fun out =>
    { out.2 with
      engine := { out.2.engine with
        requirements := out.1,
        breakdown := {},
        failedRequirements := [],
        metRequirements := [],
        warnings := [],
        scoringLog := some [] },
      timestamps := [] })

/-- The second half of `calculateScore` with the clock of its `log` calls. -/
def Timed.finishScore (clock : ℕ → String) (t : Totals) (s2 : TimedEngine) :
    Except JsError TimedResult := do
  let normalizedScore := normalize t
  let afterHardFails ←
    if t.hardFails.length > 0 ∧ normalizedScore > t.scoreCap then
      (Timed.log clock s2 (LogMsg.cappedByHardFail t.scoreCap t.hardFails)).map
        (fun s => (t.scoreCap, s))
    else
      Except.ok (normalizedScore, s2)
  let afterCeiling ←
    if afterHardFails.1 > 85 then
      (Timed.log clock afterHardFails.2 LogMsg.cappedAt85).map (fun s => ((85 : ℚ), s))
    else
      Except.ok afterHardFails
  let confidence := calculateConfidence afterCeiling.2.engine
  let passingScore := getPassingScore afterCeiling.2.engine
  let isPassing := decide (afterCeiling.1 ≥ passingScore)
  let s3 ← Timed.log clock afterCeiling.2
    (LogMsg.final (mathRound afterCeiling.1) confidence isPassing)
  return { result :=
             { score := mathRound afterCeiling.1,
               confidence := confidence,
               breakdown := s3.engine.breakdown,
               hardFails := t.hardFails,
               passingScore := passingScore,
               isPassing := isPassing,
               metRequirements := s3.engine.metRequirements,
               failedRequirements := s3.engine.failedRequirements,
               warnings := s3.engine.warnings,
               scoringLog := s3.engine.scoringLog.getD [] },
           timestamps := s3.timestamps }

/-- The method `calculateScore` with the clock: the scorers make no reading. -/
def Timed.calculateScore (clock : ℕ → String) (s0 : TimedEngine) : Except JsError TimedResult := do
  let s1 ← Timed.log clock s0 (LogMsg.start s0.engine.country s0.engine.visaType)
  let scored := scoreDimensions s1.engine
  Timed.finishScore clock scored.1 { s1 with engine := scored.2 }

/-- One fresh evaluation, `new ScoringEngine(...).calculateScore()`, under the
clock `clock`, started after `reads` earlier readings. -/
def Timed.evaluate (clock : ℕ → String) (reads : ℕ) (country visaType : String)
    (profile : Profile) (extractionResults : Option ExtractionResults) :
    Except JsError TimedResult :=
  (Timed.new clock reads country visaType profile extractionResults).bind
    (Timed.calculateScore clock)

/-- The timestamps of a timed engine are the clock readings from `first` on, one
for each entry of its log. -/
def Stamped (clock : ℕ → String) (first : ℕ) (s : TimedEngine) : Prop :=
  ∃ entries, s.engine.scoringLog = some entries ∧
    s.timestamps = (List.range entries.length).map (fun i => clock (first + i)) ∧
    s.reads = first + entries.length

deriving instance DecidableEq for Except

/-! ## Auxiliary lemmas -/

theorem numOr_nonneg (a : Option ℚ) (d : ℚ) (hd : 0 ≤ d)
    (ha : optAll (fun w => decide (0 ≤ w)) a = true) : 0 ≤ numOr a d := by
  cases a with
  | none => simpa [numOr] using hd
  | some x =>
    simp only [optAll, decide_eq_true_eq] at ha
    simp only [numOr]
    split_ifs <;> assumption

theorem numOr_ne_zero (a : Option ℚ) (d : ℚ) (hd : d ≠ 0) : numOr a d ≠ 0 := by
  cases a with
  | none => simpa [numOr] using hd
  | some x =>
    simp only [numOr]
    split_ifs <;> assumption

theorem numOr_eq_of_optAll_eq (a : Option ℚ) (d : ℚ)
    (ha : optAll (fun c => decide (c = d)) a = true) : numOr a d = d := by
  cases a with
  | none => simp [numOr]
  | some x =>
    simp only [optAll, decide_eq_true_eq] at ha
    simp [numOr, ha]

theorem numOr_pos (a : Option ℚ) (d : ℚ) (hd : 0 < d)
    (ha : optAll (fun m => decide (0 < m)) a = true) : 0 < numOr a d := by
  cases a with
  | none => simpa [numOr] using hd
  | some x =>
    simp only [optAll, decide_eq_true_eq] at ha
    simp only [numOr]
    split_ifs <;> assumption

theorem mathRound_le_of_le_int (x : ℚ) (n : ℤ) (h : x ≤ n) : mathRound x ≤ n := by
  unfold mathRound
  have h1 : x + 1 / 2 < (n : ℚ) + 1 := by linarith
  have h2 : ⌊x + 1 / 2⌋ < n + 1 := by
    rw [Int.floor_lt]
    push_cast
    exact h1
  omega

theorem mathRound_nonneg (x : ℚ) (h : 0 ≤ x) : 0 ≤ mathRound x := by
  unfold mathRound
  apply Int.floor_nonneg.mpr
  linarith

theorem lookup_mem {β : Type} (l : List (String × β)) (a : String) (b : β)
    (h : l.lookup a = some b) : b ∈ l.map Prod.snd := by
  induction l with
  | nil => simp [List.lookup] at h
  | cons hd tl ih =>
    obtain ⟨k, v⟩ := hd
    simp only [List.lookup] at h
    split at h
    · simp only [Option.some.injEq] at h
      simp [h]
    · simp [ih h]

theorem lookup2_mem {α : Type} (table : List (String × List (String × α)))
    (country visaType : String) (r : α) (h : lookup2 table country visaType = some r) :
    r ∈ tableEntries table := by
  unfold lookup2 at h
  cases hc : table.lookup country with
  | none => simp [hc] at h
  | some byType =>
    simp only [hc, Option.bind] at h
    have h1 := lookup_mem table country byType hc
    have h2 := lookup_mem byType visaType r h
    simp only [tableEntries, List.mem_flatten, List.mem_map]
    simp only [List.mem_map] at h1
    obtain ⟨q, hq, hq2⟩ := h1
    exact ⟨byType.map Prod.snd, ⟨q, hq, by rw [hq2]⟩, h2⟩

theorem SameInputs.refl (e : ScoringEngine) : SameInputs e e :=
  ⟨rfl, rfl, rfl, rfl, rfl, rfl⟩

theorem SameInputs.trans {a b c : ScoringEngine} (h1 : SameInputs a b) (h2 : SameInputs b c) :
    SameInputs a c := by
  obtain ⟨p1, p2, p3, p4, p5, p6⟩ := h1
  obtain ⟨q1, q2, q3, q4, q5, q6⟩ := h2
  exact ⟨q1.trans p1, q2.trans p2, q3.trans p3, q4.trans p4, q5.trans p5, q6.trans p6⟩

theorem scoreEducation_same (e : ScoringEngine) (req : EducationReq) :
    SameInputs e (scoreEducation e req).2 := by
  unfold scoreEducation SameInputs
  simp only
  split_ifs <;> simp

theorem scoreExperience_same (e : ScoringEngine) (req : ExperienceReq) :
    SameInputs e (scoreExperience e req).2 := by
  unfold scoreExperience SameInputs
  simp only
  split_ifs <;> simp

theorem scoreSalary_same (e : ScoringEngine) (req : SalaryReq) :
    SameInputs e (scoreSalary e req).2 := by
  unfold scoreSalary SameInputs
  simp only
  split_ifs <;> simp

theorem scoreJobOffer_same (e : ScoringEngine) (req : JobOfferReq) :
    SameInputs e (scoreJobOffer e req).2 := by
  unfold scoreJobOffer SameInputs
  simp only
  split_ifs <;> simp

theorem scoreLanguage_same (e : ScoringEngine) (req : LanguageReq) :
    SameInputs e (scoreLanguage e req).2 := by
  unfold scoreLanguage SameInputs
  simp only
  split <;> [skip; split_ifs] <;> simp

theorem scoreAge_same (e : ScoringEngine) (req : AgeReq) :
    SameInputs e (scoreAge e req).2 := by
  simp [scoreAge, SameInputs]

theorem stepEducation_same (s : Totals × ScoringEngine) : SameInputs s.2 (stepEducation s).2 := by
  unfold stepEducation
  split
  · exact scoreEducation_same _ _
  · exact SameInputs.refl _

theorem stepExperience_same (s : Totals × ScoringEngine) :
    SameInputs s.2 (stepExperience s).2 := by
  unfold stepExperience
  split
  · exact scoreExperience_same _ _
  · exact SameInputs.refl _

theorem stepSalary_same (s : Totals × ScoringEngine) : SameInputs s.2 (stepSalary s).2 := by
  unfold stepSalary
  split
  · exact scoreSalary_same _ _
  · exact SameInputs.refl _

theorem stepJobOffer_same (s : Totals × ScoringEngine) : SameInputs s.2 (stepJobOffer s).2 := by
  unfold stepJobOffer
  split
  · exact scoreJobOffer_same _ _
  · exact SameInputs.refl _

theorem stepLanguage_same (s : Totals × ScoringEngine) : SameInputs s.2 (stepLanguage s).2 := by
  unfold stepLanguage
  split
  · exact scoreLanguage_same _ _
  · exact SameInputs.refl _

theorem stepAge_same (s : Totals × ScoringEngine) : SameInputs s.2 (stepAge s).2 := by
  unfold stepAge
  split
  · simp [scoreAge, SameInputs]
  · exact SameInputs.refl _

theorem scoreDimensions_same (e : ScoringEngine) : SameInputs e (scoreDimensions e).2 := by
  unfold scoreDimensions
  exact (((((stepEducation_same ({}, e)).trans (stepExperience_same _)).trans
    (stepSalary_same _)).trans (stepJobOffer_same _)).trans (stepLanguage_same _)).trans
    (stepAge_same _)

/-! ### Bounds of the dimension scores -/

theorem scoreEducation_bounds (e : ScoringEngine) (req : EducationReq)
    (hw : 0 ≤ numOr req.weight 25) :
    0 ≤ (scoreEducation e req).1.score ∧
      (scoreEducation e req).1.score ≤ (scoreEducation e req).1.maxScore := by
  unfold scoreEducation
  simp only
  split_ifs <;> simp only [] <;> refine ⟨?_, ?_⟩ <;>
    first
      | linarith
      | (apply le_min <;> linarith)
      | (apply min_le_left)

theorem scoreExperience_bounds (e : ScoringEngine) (req : ExperienceReq)
    (hw : 0 ≤ numOr req.weight 20) :
    0 ≤ (scoreExperience e req).1.score ∧
      (scoreExperience e req).1.score ≤ (scoreExperience e req).1.maxScore := by
  unfold scoreExperience
  simp only
  split_ifs with h1 h2 h3 h4
  · exact ⟨le_refl _, hw⟩
  · exact ⟨hw, le_refl _⟩
  · simp only
    have hden : 0 < numOr req.recommended 5 - numOr req.minYears 0 := by
      simp only [ge_iff_le, not_le] at h2
      linarith
    have hnum : 0 ≤ experienceYears e.profile - numOr req.minYears 0 := by linarith
    have hratio0 : 0 ≤ (experienceYears e.profile - numOr req.minYears 0)
        / (numOr req.recommended 5 - numOr req.minYears 0) := div_nonneg hnum hden.le
    have hratio1 : (experienceYears e.profile - numOr req.minYears 0)
        / (numOr req.recommended 5 - numOr req.minYears 0) ≤ 1 := by
      rw [div_le_one hden]
      simp only [ge_iff_le, not_le] at h2
      linarith
    constructor
    · apply mul_nonneg hw
      linarith
    · have : numOr req.weight 20 * (0.6 + (experienceYears e.profile - numOr req.minYears 0)
          / (numOr req.recommended 5 - numOr req.minYears 0) * 0.4)
          ≤ numOr req.weight 20 * 1 := by
        apply mul_le_mul_of_nonneg_left _ hw
        linarith
      linarith
  · simp only
    simp only [ge_iff_le, not_le] at h3
    have hmin : 0 < numOr req.minYears 0 := lt_trans h4 h3
    have hr0 : 0 ≤ experienceYears e.profile / numOr req.minYears 0 :=
      div_nonneg h4.le hmin.le
    have hr1 : experienceYears e.profile / numOr req.minYears 0 ≤ 1 := by
      rw [div_le_one hmin]
      exact h3.le
    constructor
    · exact mul_nonneg (mul_nonneg hw hr0) (by norm_num)
    · have : numOr req.weight 20 * (experienceYears e.profile / numOr req.minYears 0)
          ≤ numOr req.weight 20 * 1 := mul_le_mul_of_nonneg_left hr1 hw
      linarith
  · exact ⟨le_refl _, hw⟩

theorem scoreSalary_bounds (e : ScoringEngine) (req : SalaryReq)
    (hw : 0 ≤ numOr req.weight 25) :
    0 ≤ (scoreSalary e req).1.score ∧
      (scoreSalary e req).1.score ≤ (scoreSalary e req).1.maxScore := by
  unfold scoreSalary
  simp only
  split_ifs <;> simp only [] <;> refine ⟨?_, ?_⟩ <;> linarith

theorem scoreJobOffer_bounds (e : ScoringEngine) (req : JobOfferReq)
    (hw : 0 ≤ numOr req.weight 20) :
    0 ≤ (scoreJobOffer e req).1.score ∧
      (scoreJobOffer e req).1.score ≤ (scoreJobOffer e req).1.maxScore := by
  unfold scoreJobOffer
  simp only
  split_ifs <;> simp only [] <;> refine ⟨?_, ?_⟩ <;> linarith

theorem scoreLanguage_bounds (e : ScoringEngine) (req : LanguageReq)
    (hw : 0 ≤ numOr req.weight 15) :
    0 ≤ (scoreLanguage e req).1.score ∧
      (scoreLanguage e req).1.score ≤ (scoreLanguage e req).1.maxScore := by
  unfold scoreLanguage
  simp only
  split <;> [skip; split_ifs] <;> simp only [] <;> refine ⟨?_, ?_⟩ <;> linarith

theorem scoreAge_bounds (e : ScoringEngine) (req : AgeReq)
    (hw : 0 ≤ numOr req.weight 10) :
    0 ≤ (scoreAge e req).1.score ∧ (scoreAge e req).1.score ≤ (scoreAge e req).1.maxScore := by
  unfold scoreAge
  simp only
  refine ⟨?_, ?_⟩ <;> linarith

/-! ### The running totals -/

theorem optAll_nonneg_of_eq (a : Option ℚ) (d : ℚ) (hd : 0 ≤ d)
    (ha : optAll (fun c => decide (c = d)) a = true) :
    optAll (fun c => decide (0 ≤ c)) a = true := by
  cases a with
  | none => rfl
  | some x =>
    simp only [optAll, decide_eq_true_eq] at ha ⊢
    rw [ha]
    exact hd

theorem scoreEducation_cap_nonneg (e : ScoringEngine) (req : EducationReq)
    (hc : optAll (fun c => decide (0 ≤ c)) req.capIfMissing = true) (c : ℚ)
    (h : (scoreEducation e req).1.scoreCap = some c) : 0 ≤ c := by
  have h30 := numOr_nonneg req.capIfMissing 30 (by norm_num) hc
  have h40 := numOr_nonneg req.capIfMissing 40 (by norm_num) hc
  unfold scoreEducation at h
  simp only at h
  split_ifs at h <;> simp only [Option.some.injEq] at h <;> (rw [← h]; assumption)

theorem scoreSalary_cap_nonneg (e : ScoringEngine) (req : SalaryReq)
    (hc : optAll (fun c => decide (0 ≤ c)) req.capIfBelow = true) (c : ℚ)
    (h : (scoreSalary e req).1.scoreCap = some c) : 0 ≤ c := by
  have h40 := numOr_nonneg req.capIfBelow 40 (by norm_num) hc
  unfold scoreSalary at h
  simp only at h
  split_ifs at h
  simp only [Option.some.injEq] at h
  rw [← h]
  assumption

theorem Totals.addScore_good (t : Totals) (r : DimResult) (ht : t.Good)
    (h0 : 0 ≤ r.score) (h1 : r.score ≤ r.maxScore) : (t.addScore r).Good := by
  obtain ⟨a, b, c⟩ := ht
  refine ⟨?_, ?_, c⟩
  · simp only [Totals.addScore]; linarith
  · simp only [Totals.addScore]; linarith

theorem Totals.pushHardFail_good (t : Totals) (r : DimResult) (ht : t.Good) :
    (t.pushHardFail r).Good := by
  unfold Totals.pushHardFail
  split_ifs
  · exact ht
  · exact ht

theorem Totals.applyCap_good (t : Totals) (r : DimResult) (ht : t.Good)
    (hc : ∀ c, r.scoreCap = some c → 0 ≤ c) : (t.applyCap r).Good := by
  unfold Totals.applyCap
  split_ifs with h
  · obtain ⟨a, b, c⟩ := ht
    refine ⟨a, b, ?_⟩
    cases hr : r.scoreCap with
    | none => simp [hr, numTruthy] at h
    | some x =>
      simp only [Option.getD_some]
      exact le_min c (hc x hr)
  · exact ht

theorem wellFormed_education (r : Requirements) (q : EducationReq) (h : r.wellFormed = true)
    (hq : r.education = some q) :
    optAll (fun w => decide (0 ≤ w)) q.weight = true ∧
      optAll (fun c => decide (c = 30)) q.capIfMissing = true := by
  unfold Requirements.wellFormed at h
  simp only [hq, Bool.and_eq_true] at h
  exact h.1.1.1.1.1

theorem wellFormed_experience (r : Requirements) (q : ExperienceReq) (h : r.wellFormed = true)
    (hq : r.experience = some q) : optAll (fun w => decide (0 ≤ w)) q.weight = true := by
  unfold Requirements.wellFormed at h
  simp only [hq, Bool.and_eq_true] at h
  exact h.1.1.1.1.2

theorem wellFormed_salary (r : Requirements) (q : SalaryReq) (h : r.wellFormed = true)
    (hq : r.salary = some q) :
    optAll (fun w => decide (0 ≤ w)) q.weight = true ∧
      optAll (fun c => decide (0 ≤ c)) q.capIfBelow = true ∧
      optAll (fun m => decide (0 < m)) q.minAmount = true := by
  unfold Requirements.wellFormed at h
  simp only [hq, Bool.and_eq_true] at h
  exact ⟨h.1.1.1.2.1.1, h.1.1.1.2.1.2, h.1.1.1.2.2⟩

theorem wellFormed_jobOffer (r : Requirements) (q : JobOfferReq) (h : r.wellFormed = true)
    (hq : r.jobOffer = some q) : optAll (fun w => decide (0 ≤ w)) q.weight = true := by
  unfold Requirements.wellFormed at h
  simp only [hq, Bool.and_eq_true] at h
  exact h.1.1.2

theorem wellFormed_language (r : Requirements) (q : LanguageReq) (h : r.wellFormed = true)
    (hq : r.language = some q) : optAll (fun w => decide (0 ≤ w)) q.weight = true := by
  unfold Requirements.wellFormed at h
  simp only [hq, Bool.and_eq_true] at h
  exact h.1.2

theorem wellFormed_age (r : Requirements) (q : AgeReq) (h : r.wellFormed = true)
    (hq : r.age = some q) : optAll (fun w => decide (0 ≤ w)) q.weight = true := by
  unfold Requirements.wellFormed at h
  simp only [hq, Bool.and_eq_true] at h
  exact h.2

theorem stepEducation_good (s : Totals × ScoringEngine) (hwf : s.2.requirements.wellFormed = true)
    (ht : s.1.Good) : (stepEducation s).1.Good := by
  unfold stepEducation
  split
  · next req hreq =>
    obtain ⟨hw, hc⟩ := wellFormed_education _ _ hwf hreq
    have hb := scoreEducation_bounds s.2 req (numOr_nonneg _ _ (by norm_num) hw)
    exact Totals.applyCap_good _ _
      (Totals.pushHardFail_good _ _ (Totals.addScore_good _ _ ht hb.1 hb.2))
      (scoreEducation_cap_nonneg s.2 req (optAll_nonneg_of_eq _ _ (by norm_num) hc))
  · exact ht

theorem stepExperience_good (s : Totals × ScoringEngine)
    (hwf : s.2.requirements.wellFormed = true) (ht : s.1.Good) : (stepExperience s).1.Good := by
  unfold stepExperience
  split
  · next req hreq =>
    have hw := wellFormed_experience _ _ hwf hreq
    have hb := scoreExperience_bounds s.2 req (numOr_nonneg _ _ (by norm_num) hw)
    exact Totals.addScore_good _ _ ht hb.1 hb.2
  · exact ht

theorem stepSalary_good (s : Totals × ScoringEngine) (hwf : s.2.requirements.wellFormed = true)
    (ht : s.1.Good) : (stepSalary s).1.Good := by
  unfold stepSalary
  split
  · next req hreq =>
    obtain ⟨hw, hc, _⟩ := wellFormed_salary _ _ hwf hreq
    have hb := scoreSalary_bounds s.2 req (numOr_nonneg _ _ (by norm_num) hw)
    exact Totals.applyCap_good _ _
      (Totals.pushHardFail_good _ _ (Totals.addScore_good _ _ ht hb.1 hb.2))
      (scoreSalary_cap_nonneg s.2 req hc)
  · exact ht

theorem stepJobOffer_good (s : Totals × ScoringEngine) (hwf : s.2.requirements.wellFormed = true)
    (ht : s.1.Good) : (stepJobOffer s).1.Good := by
  unfold stepJobOffer
  split
  · next req hreq =>
    have hw := wellFormed_jobOffer _ _ hwf hreq
    have hb := scoreJobOffer_bounds s.2 req (numOr_nonneg _ _ (by norm_num) hw)
    exact Totals.pushHardFail_good _ _ (Totals.addScore_good _ _ ht hb.1 hb.2)
  · exact ht

theorem stepLanguage_good (s : Totals × ScoringEngine) (hwf : s.2.requirements.wellFormed = true)
    (ht : s.1.Good) : (stepLanguage s).1.Good := by
  unfold stepLanguage
  split
  · next req hreq =>
    have hw := wellFormed_language _ _ hwf hreq
    have hb := scoreLanguage_bounds s.2 req (numOr_nonneg _ _ (by norm_num) hw)
    exact Totals.pushHardFail_good _ _ (Totals.addScore_good _ _ ht hb.1 hb.2)
  · exact ht

theorem stepAge_good (s : Totals × ScoringEngine) (hwf : s.2.requirements.wellFormed = true)
    (ht : s.1.Good) : (stepAge s).1.Good := by
  unfold stepAge
  split
  · next req hreq =>
    have hw := wellFormed_age _ _ hwf hreq
    have hb := scoreAge_bounds s.2 req (numOr_nonneg _ _ (by norm_num) hw)
    exact Totals.addScore_good _ _ ht hb.1 hb.2
  · exact ht

theorem scoreDimensions_good (e : ScoringEngine) (hwf : e.requirements.wellFormed = true) :
    (scoreDimensions e).1.Good := by
  unfold scoreDimensions
  have h0 : (({}, e) : Totals × ScoringEngine).1.Good := by
    refine ⟨?_, ?_, ?_⟩ <;> norm_num
  have s1 := stepEducation_same ({}, e)
  have s2 := s1.trans (stepExperience_same _)
  have s3 := s2.trans (stepSalary_same _)
  have s4 := s3.trans (stepJobOffer_same _)
  have s5 := s4.trans (stepLanguage_same _)
  have g1 := stepEducation_good ({}, e) hwf h0
  have g2 := stepExperience_good _ (by rw [s1.2.2.2.2.1]; exact hwf) g1
  have g3 := stepSalary_good _ (by rw [s2.2.2.2.2.1]; exact hwf) g2
  have g4 := stepJobOffer_good _ (by rw [s3.2.2.2.2.1]; exact hwf) g3
  have g5 := stepLanguage_good _ (by rw [s4.2.2.2.2.1]; exact hwf) g4
  exact stepAge_good _ (by rw [s5.2.2.2.2.1]; exact hwf) g5

theorem calculateConfidence_congr (e e1 : ScoringEngine) (h : SameInputs e e1) :
    calculateConfidence e1 = calculateConfidence e := by
  unfold calculateConfidence
  rw [h.2.2.1, h.2.2.2.1]

theorem getPassingScore_congr (e e1 : ScoringEngine) (h : SameInputs e e1) :
    getPassingScore e1 = getPassingScore e := by
  unfold getPassingScore
  rw [h.2.1]

theorem log_of_some (e : ScoringEngine) (entries : List LogMsg) (m : LogMsg)
    (h : e.scoringLog = some entries) :
    e.log m = Except.ok { e with scoringLog := some (entries ++ [m]) } := by
  unfold ScoringEngine.log
  rw [h]

theorem finishScore_ok (t : Totals) (e2 : ScoringEngine) (entries : List LogMsg)
    (h : e2.scoringLog = some entries) :
    ∃ r e3, finishScore t e2 = Except.ok (r, e3) ∧
      r.score = mathRound (finalNormalized t) ∧
      r.isPassing = decide (finalNormalized t ≥ getPassingScore e2) ∧
      r.passingScore = getPassingScore e2 ∧
      r.confidence = calculateConfidence e2 ∧
      r.breakdown = e2.breakdown ∧
      r.hardFails = t.hardFails ∧
      r.metRequirements = e2.metRequirements ∧
      r.failedRequirements = e2.failedRequirements ∧
      r.warnings = e2.warnings := by
  by_cases h1 : t.hardFails.length > 0 ∧ normalize t > t.scoreCap
  · by_cases h2 : t.scoreCap > 85
    · simp [finishScore, h1, h2, finalNormalized, afterHardFailCap, ScoringEngine.log, h,
        Except.map, bind, Except.bind, pure, Except.pure, calculateConfidence, getPassingScore]
    · simp [finishScore, h1, h2, finalNormalized, afterHardFailCap, ScoringEngine.log, h,
        Except.map, bind, Except.bind, pure, Except.pure, calculateConfidence, getPassingScore]
  · by_cases h2 : normalize t > 85
    · simp [finishScore, h1, h2, finalNormalized, afterHardFailCap, ScoringEngine.log, h,
        Except.map, bind, Except.bind, pure, Except.pure, calculateConfidence, getPassingScore]
    · simp [finishScore, h1, h2, finalNormalized, afterHardFailCap, ScoringEngine.log, h,
        Except.map, bind, Except.bind, pure, Except.pure, calculateConfidence, getPassingScore]

theorem calculateScore_ok (e0 : ScoringEngine) (entries : List LogMsg)
    (h : e0.scoringLog = some entries) :
    ∃ r e3, calculateScore e0 = Except.ok (r, e3) ∧
      r.score = mathRound (finalNormalized (scoreDimensions (started e0 entries)).1) ∧
      r.isPassing = decide (finalNormalized (scoreDimensions (started e0 entries)).1
        ≥ getPassingScore e0) ∧
      r.passingScore = getPassingScore e0 ∧
      r.confidence = calculateConfidence e0 ∧
      r.breakdown = (scoreDimensions (started e0 entries)).2.breakdown ∧
      r.hardFails = (scoreDimensions (started e0 entries)).1.hardFails ∧
      r.metRequirements = (scoreDimensions (started e0 entries)).2.metRequirements ∧
      r.failedRequirements = (scoreDimensions (started e0 entries)).2.failedRequirements ∧
      r.warnings = (scoreDimensions (started e0 entries)).2.warnings := by
  have hsame := scoreDimensions_same (started e0 entries)
  have hconf : calculateConfidence (scoreDimensions (started e0 entries)).2
      = calculateConfidence e0 := by
    rw [calculateConfidence_congr _ _ hsame]
    rfl
  have hpass : getPassingScore (scoreDimensions (started e0 entries)).2 = getPassingScore e0 := by
    rw [getPassingScore_congr _ _ hsame]
    rfl
  obtain ⟨r, e3, hfin, hrest⟩ := finishScore_ok (scoreDimensions (started e0 entries)).1
    (scoreDimensions (started e0 entries)).2 _ hsame.2.2.2.2.2
  refine ⟨r, e3, ?_, ?_⟩
  · unfold calculateScore
    rw [log_of_some e0 entries _ h]
    exact hfin
  · rw [hconf, hpass] at hrest
    exact hrest

theorem finalNormalized_bounds (t : Totals) (ht : t.Good) :
    0 ≤ finalNormalized t ∧ finalNormalized t ≤ 85 := by
  obtain ⟨h0, h1, h2⟩ := ht
  have hn : 0 ≤ normalize t := by
    unfold normalize
    split_ifs with hw
    · exact mul_nonneg (div_nonneg h0 hw.le) (by norm_num)
    · exact le_refl _
  have ha : 0 ≤ afterHardFailCap t := by
    unfold afterHardFailCap
    split_ifs
    · exact h2
    · exact hn
  unfold finalNormalized
  split_ifs with h
  · constructor <;> norm_num
  · exact ⟨ha, not_lt.mp h⟩

theorem wellFormed_official : ∀ r ∈ tableEntries OFFICIAL_REQUIREMENTS, r.wellFormed = true := by
  decide!

theorem wellFormed_configs :
    ∀ c ∈ tableEntries VISA_CONFIGS, ∀ r, c.requirements = some r → r.wellFormed = true := by
  have h : ∀ c ∈ tableEntries VISA_CONFIGS,
      (match c.requirements with
       | some r => r.wellFormed
       | none => true) = true := by decide!
  intro c hc r hr
  have := h c hc
  rw [hr] at this
  exact this

theorem wellFormed_categories :
    ∀ v ∈ allVisas, ∀ b, v.requirements = some b →
      (convertToScoringFormat b).wellFormed = true := by
  have h : ∀ v ∈ allVisas,
      (match v.requirements with
       | some b => (convertToScoringFormat b).wellFormed
       | none => true) = true := by decide!
  intro v hv b hb
  have := h v hv
  rw [hb] at this
  exact this

theorem findVisa_mem (country visaType : String) (b : BasicReqs)
    (h : (VISA_CATEGORIES.lookup country).bind
      (fun categories => findVisaRequirements categories visaType) = some b) :
    ∃ v ∈ allVisas, v.requirements = some b := by
  cases hc : VISA_CATEGORIES.lookup country with
  | none => simp [hc] at h
  | some categories =>
    simp only [hc, Option.bind] at h
    unfold findVisaRequirements at h
    obtain ⟨visa, hmem, hvisa⟩ := List.exists_of_findSome?_eq_some h
    have hcat := lookup_mem VISA_CATEGORIES country categories hc
    refine ⟨visa, ?_, ?_⟩
    · simp only [allVisas, List.mem_flatten, List.mem_map]
      simp only [List.mem_map] at hcat
      obtain ⟨q, hq, hq2⟩ := hcat
      exact ⟨(categories.map Prod.snd).flatten, ⟨q, hq, by rw [hq2]⟩, hmem⟩
    · split_ifs at hvisa
      exact hvisa

theorem getRequirements_ok (e : ScoringEngine) (r : Requirements) (e1 : ScoringEngine)
    (hlog : e.scoringLog = none) (h : getRequirements e = Except.ok (r, e1)) :
    r.wellFormed = true ∧ e1 = e := by
  unfold getRequirements at h
  split at h
  · next r0 h0 =>
    simp only [Except.ok.injEq, Prod.mk.injEq] at h
    obtain ⟨hr, he⟩ := h
    subst hr
    exact ⟨wellFormed_official _ (lookup2_mem _ _ _ _ h0), he.symm⟩
  · split at h
    · next r0 h0 =>
      simp only [Except.ok.injEq, Prod.mk.injEq] at h
      obtain ⟨hr, he⟩ := h
      subst hr
      refine ⟨?_, he.symm⟩
      cases hcfg : getVisaConfig e.country e.visaType with
      | none => simp [hcfg] at h0
      | some cfg =>
        simp only [hcfg, Option.bind] at h0
        exact wellFormed_configs cfg (lookup2_mem _ _ _ _ hcfg) _ h0
    · split at h
      · next b hb =>
        simp only [Except.ok.injEq, Prod.mk.injEq] at h
        obtain ⟨hr, he⟩ := h
        subst hr
        obtain ⟨v, hv, hvb⟩ := findVisa_mem _ _ _ hb
        exact ⟨wellFormed_categories v hv b hvb, he.symm⟩
      · simp [ScoringEngine.log, hlog, Except.map] at h

theorem new_ok (country visaType : String) (profile : Profile)
    (x : Option ExtractionResults) (eng : ScoringEngine)
    (h : ScoringEngine.new country visaType profile x = Except.ok eng) :
    eng.requirements.wellFormed = true ∧ eng.country = country ∧ eng.visaType = visaType ∧
      eng.profile = profile ∧ eng.extractionResults = x ∧ eng.scoringLog = some [] ∧
      eng.breakdown = {} ∧ eng.failedRequirements = [] ∧ eng.metRequirements = [] ∧
      eng.warnings = [] := by
  unfold ScoringEngine.new at h
  simp only at h
  cases hg : getRequirements (ScoringEngine.mk country visaType profile x {} {} [] [] [] none) with
  | error err =>
    rw [hg] at h
    simp [Except.map] at h
  | ok out =>
    obtain ⟨r, e1⟩ := out
    rw [hg] at h
    simp only [Except.map, Except.ok.injEq] at h
    obtain ⟨hwf, he1⟩ := getRequirements_ok _ r e1 rfl hg
    subst he1
    subst h
    exact ⟨hwf, rfl, rfl, rfl, rfl, rfl, rfl, rfl, rfl, rfl⟩

/-! ### The education hard fail through the pipeline -/

theorem scoreEducation_breakdown (e : ScoringEngine) (req : EducationReq) :
    (scoreEducation e req).2.breakdown = e.breakdown := by
  unfold scoreEducation
  simp only
  split_ifs <;> rfl

theorem scoreExperience_breakdown (e : ScoringEngine) (req : ExperienceReq) :
    (scoreExperience e req).2.breakdown = e.breakdown := by
  unfold scoreExperience
  simp only
  split_ifs <;> rfl

theorem scoreSalary_breakdown (e : ScoringEngine) (req : SalaryReq) :
    (scoreSalary e req).2.breakdown = e.breakdown := by
  unfold scoreSalary
  simp only
  split_ifs <;> rfl

theorem scoreJobOffer_breakdown (e : ScoringEngine) (req : JobOfferReq) :
    (scoreJobOffer e req).2.breakdown = e.breakdown := by
  unfold scoreJobOffer
  simp only
  split_ifs <;> rfl

theorem scoreLanguage_breakdown (e : ScoringEngine) (req : LanguageReq) :
    (scoreLanguage e req).2.breakdown = e.breakdown := by
  unfold scoreLanguage
  simp only
  split <;> [skip; split_ifs] <;> rfl

theorem stepExperience_education (s : Totals × ScoringEngine) :
    (stepExperience s).2.breakdown.education = s.2.breakdown.education := by
  unfold stepExperience
  split
  · simp only [scoreExperience_breakdown]
  · rfl

theorem stepSalary_education (s : Totals × ScoringEngine) :
    (stepSalary s).2.breakdown.education = s.2.breakdown.education := by
  unfold stepSalary
  split
  · simp only [scoreSalary_breakdown]
  · rfl

theorem stepJobOffer_education (s : Totals × ScoringEngine) :
    (stepJobOffer s).2.breakdown.education = s.2.breakdown.education := by
  unfold stepJobOffer
  split
  · simp only [scoreJobOffer_breakdown]
  · rfl

theorem stepLanguage_education (s : Totals × ScoringEngine) :
    (stepLanguage s).2.breakdown.education = s.2.breakdown.education := by
  unfold stepLanguage
  split
  · simp only [scoreLanguage_breakdown]
  · rfl

theorem stepAge_education (s : Totals × ScoringEngine) :
    (stepAge s).2.breakdown.education = s.2.breakdown.education := by
  unfold stepAge
  split
  · simp only [scoreAge]
  · rfl

theorem Totals.addScore_capped (t : Totals) (r : DimResult) (c : ℚ) (h : t.CappedAt c) :
    (t.addScore r).CappedAt c := h

theorem Totals.pushHardFail_capped (t : Totals) (r : DimResult) (c : ℚ) (h : t.CappedAt c) :
    (t.pushHardFail r).CappedAt c := by
  unfold Totals.pushHardFail
  split_ifs
  · exact ⟨by simp, h.2⟩
  · exact h

theorem Totals.applyCap_capped (t : Totals) (r : DimResult) (c : ℚ) (h : t.CappedAt c) :
    (t.applyCap r).CappedAt c := by
  unfold Totals.applyCap
  split_ifs
  · exact ⟨h.1, le_trans (min_le_left _ _) h.2⟩
  · exact h

theorem stepExperience_capped (s : Totals × ScoringEngine) (c : ℚ) (h : s.1.CappedAt c) :
    (stepExperience s).1.CappedAt c := by
  unfold stepExperience
  split
  · exact Totals.addScore_capped _ _ _ h
  · exact h

theorem stepSalary_capped (s : Totals × ScoringEngine) (c : ℚ) (h : s.1.CappedAt c) :
    (stepSalary s).1.CappedAt c := by
  unfold stepSalary
  split
  · exact Totals.applyCap_capped _ _ _
      (Totals.pushHardFail_capped _ _ _ (Totals.addScore_capped _ _ _ h))
  · exact h

theorem stepJobOffer_capped (s : Totals × ScoringEngine) (c : ℚ) (h : s.1.CappedAt c) :
    (stepJobOffer s).1.CappedAt c := by
  unfold stepJobOffer
  split
  · exact Totals.pushHardFail_capped _ _ _ (Totals.addScore_capped _ _ _ h)
  · exact h

theorem stepLanguage_capped (s : Totals × ScoringEngine) (c : ℚ) (h : s.1.CappedAt c) :
    (stepLanguage s).1.CappedAt c := by
  unfold stepLanguage
  split
  · exact Totals.pushHardFail_capped _ _ _ (Totals.addScore_capped _ _ _ h)
  · exact h

theorem stepAge_capped (s : Totals × ScoringEngine) (c : ℚ) (h : s.1.CappedAt c) :
    (stepAge s).1.CappedAt c := by
  unfold stepAge
  split
  · exact Totals.addScore_capped _ _ _ h
  · exact h

theorem scoreEducation_unknown (e : ScoringEngine) (req : EducationReq)
    (hreq : req.required = true) (hu : recognisedLevel e.profile = 0) :
    (scoreEducation e req).1.score = 0 ∧
      (scoreEducation e req).1.hardFail = some "Missing required education credentials" ∧
      (scoreEducation e req).1.scoreCap = some (numOr req.capIfMissing 30) ∧
      (scoreEducation e req).2.failedRequirements
        = e.failedRequirements ++ [Msg.lit "Education documentation"] := by
  unfold recognisedLevel at hu
  unfold scoreEducation
  simp [hu, hreq]

theorem stepEducation_unknown (s : Totals × ScoringEngine) (req : EducationReq)
    (hq : s.2.requirements.education = some req) (hreq : req.required = true)
    (hu : recognisedLevel s.2.profile = 0) :
    (stepEducation s).1.CappedAt (numOr req.capIfMissing 30) ∧
      ∃ d, (stepEducation s).2.breakdown.education = some d ∧ d.score = 0 := by
  obtain ⟨h0, h1, h2, _⟩ := scoreEducation_unknown s.2 req hreq hu
  unfold stepEducation
  rw [hq]
  simp only
  refine ⟨⟨?_, ?_⟩, _, rfl, h0⟩
  · unfold Totals.applyCap
    split_ifs <;> simp [Totals.pushHardFail, h1, strTruthy]
  · have hne : numTruthy (some (numOr req.capIfMissing 30)) = true := by
      simp [numTruthy, numOr_ne_zero]
    simp only [Totals.applyCap, h2, hne, if_true, Option.getD_some]
    exact min_le_right _ _

theorem scoreDimensions_unknown_education (e : ScoringEngine) (req : EducationReq)
    (hq : e.requirements.education = some req) (hreq : req.required = true)
    (hu : recognisedLevel e.profile = 0) :
    (scoreDimensions e).1.CappedAt (numOr req.capIfMissing 30) ∧
      ∃ d, (scoreDimensions e).2.breakdown.education = some d ∧ d.score = 0 := by
  obtain ⟨hc, d, hd, hd0⟩ := stepEducation_unknown ({}, e) req hq hreq hu
  unfold scoreDimensions
  refine ⟨?_, d, ?_, hd0⟩
  · exact stepAge_capped _ _ (stepLanguage_capped _ _ (stepJobOffer_capped _ _
      (stepSalary_capped _ _ (stepExperience_capped _ _ hc))))
  · rw [stepAge_education, stepLanguage_education, stepJobOffer_education,
      stepSalary_education, stepExperience_education]
    exact hd

theorem finalNormalized_le_of_capped (t : Totals) (c : ℚ) (h : t.CappedAt c) :
    finalNormalized t ≤ c := by
  obtain ⟨hne, hcap⟩ := h
  have hlen : t.hardFails.length > 0 := List.length_pos.mpr hne
  have ha : afterHardFailCap t ≤ c := by
    unfold afterHardFailCap
    split_ifs with hcond
    · exact hcap
    · have : ¬ normalize t > t.scoreCap := fun hgt => hcond ⟨hlen, hgt⟩
      exact le_trans (not_lt.mp this) hcap
  unfold finalNormalized
  split_ifs with h85
  · exact le_trans h85.le ha
  · exact ha

theorem getPassingScore_ge (e : ScoringEngine) : 60 ≤ getPassingScore e := by
  unfold getPassingScore
  split <;> norm_num

theorem new_euBlueCard (profile : Profile) (x : Option ExtractionResults) :
    ScoringEngine.new "Germany" "EU Blue Card" profile x
      = Except.ok (freshEngine "Germany" "EU Blue Card" profile x euBlueCard) := by
  rfl

theorem new_unresolved_throws (country visaType : String) (profile : Profile)
    (x : Option ExtractionResults)
    (h1 : lookup2 OFFICIAL_REQUIREMENTS country visaType = none)
    (h2 : (getVisaConfig country visaType).bind (fun config => config.requirements) = none)
    (h3 : (VISA_CATEGORIES.lookup country).bind
      (fun categories => findVisaRequirements categories visaType) = none) :
    ScoringEngine.new country visaType profile x
      = Except.error (JsError.typeError "Cannot read properties of undefined (reading push)") := by
  unfold ScoringEngine.new getRequirements
  simp only [h1, h2, h3]
  rfl

theorem catalog_salary_minimum_pos (country visaType : String) (profile : Profile)
    (x : Option ExtractionResults) (eng : ScoringEngine) (req : SalaryReq)
    (hnew : ScoringEngine.new country visaType profile x = Except.ok eng)
    (hq : eng.requirements.salary = some req) : 0 < numOr req.minAmount 30000 := by
  obtain ⟨hwf, _⟩ := new_ok country visaType profile x eng hnew
  exact numOr_pos _ _ (by norm_num) (wellFormed_salary _ _ hwf hq).2.2

/-! ## Properties of the specification -/

/-- C1 (fails on the code): for the unknown country "Atlantis", every visa type,
every profile and every extraction result, constructing the engine throws a
`TypeError`: `getRequirements` calls `log` before the constructor has assigned
`scoringLog`, so neither the default requirement set nor a result is produced. -/
theorem C1_unknown_country_throws (visaType : String) (profile : Profile)
    (x : Option ExtractionResults) :
    ScoringEngine.new "Atlantis" visaType profile x
        = Except.error (JsError.typeError "Cannot read properties of undefined (reading push)")
      ∧ evaluate "Atlantis" visaType profile x
        = Except.error (JsError.typeError "Cannot read properties of undefined (reading push)") := by
  have h : ScoringEngine.new "Atlantis" visaType profile x
      = Except.error (JsError.typeError "Cannot read properties of undefined (reading push)") := by
    simp [ScoringEngine.new, getRequirements, lookup2, OFFICIAL_REQUIREMENTS, getVisaConfig,
      VISA_CONFIGS, VISA_CATEGORIES, List.lookup, ScoringEngine.log, Except.map]
  refine ⟨h, ?_⟩
  unfold evaluate
  rw [h]
  rfl

/-- C2: for every pair (country, visaType) that resolves to a requirement set
in the catalogs, that is, for which the constructor returns an engine, and for
every profile, `calculateScore` returns a result whose `score` is an integer
between 0 and 85. -/
theorem C2_score_in_range (country visaType : String) (profile : Profile)
    (x : Option ExtractionResults) (eng : ScoringEngine)
    (hnew : ScoringEngine.new country visaType profile x = Except.ok eng) :
    ∃ r e3, calculateScore eng = Except.ok (r, e3) ∧ 0 ≤ r.score ∧ r.score ≤ 85 := by
  obtain ⟨hwf, _, _, _, _, hlog, _⟩ := new_ok country visaType profile x eng hnew
  obtain ⟨r, e3, hcalc, hscore, _⟩ := calculateScore_ok eng [] hlog
  have hgood : (scoreDimensions (started eng [])).1.Good := scoreDimensions_good _ hwf
  obtain ⟨h0, h85⟩ := finalNormalized_bounds _ hgood
  refine ⟨r, e3, hcalc, ?_, ?_⟩
  · rw [hscore]
    exact mathRound_nonneg _ h0
  · rw [hscore]
    exact mathRound_le_of_le_int _ 85 (by exact_mod_cast h85)

/-- Instance of C2 at the Germany EU Blue Card with the scenario profile. -/
theorem C2_score_in_range_witness :
    ∃ r e3, calculateScore (freshEngine "Germany" "EU Blue Card" scenarioProfile none euBlueCard)
      = Except.ok (r, e3) ∧ 0 ≤ r.score ∧ r.score ≤ 85 :=
  C2_score_in_range "Germany" "EU Blue Card" scenarioProfile none
    (freshEngine "Germany" "EU Blue Card" scenarioProfile none euBlueCard)
    (new_euBlueCard scenarioProfile none)

/-- C3 (fails on the code): the Germany EU Blue Card salary requirement has
`failIfBelow` with `capIfBelow = 40`; for a profile with a doctorate, five
years of experience, a job offer, a verified language and a salary of 1000,
far below 80% of 45300, `scoreSalary` sets `scoreCap = 40` but no `hardFail`,
`hardFails` stays empty, the cap is not applied and the reported score is 76. -/
theorem C3_salary_cap_not_applied :
    (evaluate "Germany" "EU Blue Card" lowSalaryProfile none).map
        (fun r => (r.score, r.hardFails, r.breakdown.salary.map (fun d => (d.score, d.scoreCap))))
      = Except.ok (76, [], some (6, some 40)) := by
  decide!

/-- C4: for the education, experience, jobOffer and language scorers, when the
requirement is required and the profile field is unknown (no recognised
education level; neither `experience.totalYears` nor `totalExperienceYears`;
no job offer; no language entry), the score is 0 and the scorer appends its
entry to `failedRequirements`. -/
theorem C4_required_unknown_scores_zero (e : ScoringEngine) :
    (∀ req : EducationReq, req.required = true → recognisedLevel e.profile = 0 →
      (scoreEducation e req).1.score = 0 ∧
      (scoreEducation e req).2.failedRequirements
        = e.failedRequirements ++ [Msg.lit "Education documentation"]) ∧
    (∀ req : ExperienceReq, req.required = true →
      (e.profile.experience.getD {}).totalYears = none →
      e.profile.totalExperienceYears = none →
      (scoreExperience e req).1.score = 0 ∧
      (scoreExperience e req).2.failedRequirements
        = e.failedRequirements ++ [Msg.lit "Work experience documentation"]) ∧
    (∀ req : JobOfferReq, req.required = true →
      (e.profile.jobOffer.getD {}).hasOffer = false → e.profile.hasJobOffer = false →
      (scoreJobOffer e req).1.score = 0 ∧
      (scoreJobOffer e req).2.failedRequirements
        = e.failedRequirements ++ [Msg.lit "Job offer from employer"]) ∧
    (∀ req : LanguageReq, req.required = true → e.profile.languages.getD [] = [] →
      (scoreLanguage e req).1.score = 0 ∧
      (scoreLanguage e req).2.failedRequirements
        = e.failedRequirements ++ [Msg.lit "Language proficiency certificate"]) := by
  refine ⟨?_, ?_, ?_, ?_⟩
  · intro req hreq hu
    obtain ⟨h0, _, _, hf⟩ := scoreEducation_unknown e req hreq hu
    exact ⟨h0, hf⟩
  · intro req hreq h1 h2
    unfold scoreExperience
    simp [experienceYears, h1, h2, numOr, hreq]
  · intro req hreq h1 h2
    unfold scoreJobOffer
    simp [h1, h2, hreq]
  · intro req hreq h1
    unfold scoreLanguage
    simp [h1, hreq]

/-- Instance of C4 on a fresh engine with the empty profile and a required
requirement of each of the four kinds. -/
theorem C4_required_unknown_scores_zero_witness :
    ((scoreEducation (freshEngine "Germany" "EU Blue Card" {} none euBlueCard)
        { required := true }).1.score = 0 ∧
      (scoreEducation (freshEngine "Germany" "EU Blue Card" {} none euBlueCard)
        { required := true }).2.failedRequirements
        = [] ++ [Msg.lit "Education documentation"]) ∧
    ((scoreExperience (freshEngine "Germany" "EU Blue Card" {} none euBlueCard)
        { required := true }).1.score = 0 ∧
      (scoreExperience (freshEngine "Germany" "EU Blue Card" {} none euBlueCard)
        { required := true }).2.failedRequirements
        = [] ++ [Msg.lit "Work experience documentation"]) ∧
    ((scoreJobOffer (freshEngine "Germany" "EU Blue Card" {} none euBlueCard)
        { required := true }).1.score = 0 ∧
      (scoreJobOffer (freshEngine "Germany" "EU Blue Card" {} none euBlueCard)
        { required := true }).2.failedRequirements
        = [] ++ [Msg.lit "Job offer from employer"]) ∧
    ((scoreLanguage (freshEngine "Germany" "EU Blue Card" {} none euBlueCard)
        { required := true }).1.score = 0 ∧
      (scoreLanguage (freshEngine "Germany" "EU Blue Card" {} none euBlueCard)
        { required := true }).2.failedRequirements
        = [] ++ [Msg.lit "Language proficiency certificate"]) :=
  ⟨(C4_required_unknown_scores_zero
      (freshEngine "Germany" "EU Blue Card" {} none euBlueCard)).1
      { required := true } rfl (by decide),
   (C4_required_unknown_scores_zero
      (freshEngine "Germany" "EU Blue Card" {} none euBlueCard)).2.1
      { required := true } rfl rfl rfl,
   (C4_required_unknown_scores_zero
      (freshEngine "Germany" "EU Blue Card" {} none euBlueCard)).2.2.1
      { required := true } rfl rfl rfl,
   (C4_required_unknown_scores_zero
      (freshEngine "Germany" "EU Blue Card" {} none euBlueCard)).2.2.2
      { required := true } rfl rfl⟩

/-- C5 (as stated, fails): the Germany EU Blue Card salary requirement is
required and the profile `{}` has no salary, yet the salary score is 9, that is
0.3 × 30, and not 0. -/
theorem C5_counterexample :
    euBlueCardSalary.required = true ∧ salaryAmount {} = none ∧
      (evaluate "Germany" "EU Blue Card" {} none).map
          (fun r => r.breakdown.salary.map (fun d => d.score))
        = Except.ok (some 9) := by
  decide!

/-- C5 (amended): for every salary requirement marked required and every
profile with no salary amount (absent or zero), `scoreSalary` returns exactly
0.3 × weight, where the weight is `req.weight || 25`. -/
theorem C5_required_unknown_salary_partial (e : ScoringEngine) (req : SalaryReq)
    (hreq : req.required = true) (hamount : numTruthy (salaryAmount e.profile) = false) :
    (scoreSalary e req).1.score = numOr req.weight 25 * 0.3 := by
  unfold scoreSalary
  simp [hamount, hreq]

/-- Instance of the amended C5 at the Germany EU Blue Card with the empty profile. -/
theorem C5_required_unknown_salary_partial_witness :
    (scoreSalary (freshEngine "Germany" "EU Blue Card" {} none euBlueCard)
      euBlueCardSalary).1.score = numOr euBlueCardSalary.weight 25 * 0.3 :=
  C5_required_unknown_salary_partial (freshEngine "Germany" "EU Blue Card" {} none euBlueCard)
    euBlueCardSalary (by decide) (by decide)

/-- C6: for every visa definition of the catalogs whose education requirement
is required and every profile with no recognised education level,
`calculateScore` returns a result whose education score is 0, whose score is at
most the education cap `capIfMissing || 30` and whose `isPassing` is false; and
for the Germany EU Blue Card with profile `{}` the education and jobOffer
scores are 0, the score is at most 40 and `isPassing` is false. -/
theorem C6_missing_education_caps_score (country visaType : String) (profile : Profile)
    (x : Option ExtractionResults) (eng : ScoringEngine) (req : EducationReq)
    (hnew : ScoringEngine.new country visaType profile x = Except.ok eng)
    (hq : eng.requirements.education = some req) (hreq : req.required = true)
    (hu : recognisedLevel profile = 0) :
    (∃ r e3, calculateScore eng = Except.ok (r, e3) ∧
      (∃ d, r.breakdown.education = some d ∧ d.score = 0) ∧
      (r.score : ℚ) ≤ numOr req.capIfMissing 30 ∧ r.isPassing = false) ∧
    (evaluate "Germany" "EU Blue Card" {} none).map
        (fun r => (r.breakdown.education.map (fun d => d.score),
          r.breakdown.jobOffer.map (fun d => d.score), decide (r.score ≤ 40), r.isPassing))
      = Except.ok (some 0, some 0, true, false) := by
  refine ⟨?_, by decide!⟩
  obtain ⟨hwf, _, _, hprof, _, hlog, _⟩ := new_ok country visaType profile x eng hnew
  obtain ⟨r, e3, hcalc, hscore, hpass, _, _, hbd, _⟩ := calculateScore_ok eng [] hlog
  have hu1 : recognisedLevel (started eng []).profile = 0 := by
    change recognisedLevel eng.profile = 0
    rw [hprof]
    exact hu
  obtain ⟨hcap, d, hd, hd0⟩ := scoreDimensions_unknown_education (started eng []) req hq hreq hu1
  have hle := finalNormalized_le_of_capped _ _ hcap
  have h30 : numOr req.capIfMissing 30 = 30 :=
    numOr_eq_of_optAll_eq _ _ (wellFormed_education _ _ hwf hq).2
  refine ⟨r, e3, hcalc, ⟨d, by rw [hbd]; exact hd, hd0⟩, ?_, ?_⟩
  · rw [hscore, h30]
    have : mathRound (finalNormalized (scoreDimensions (started eng [])).1) ≤ 30 :=
      mathRound_le_of_le_int _ 30 (by rw [h30] at hle; exact_mod_cast hle)
    exact_mod_cast this
  · rw [hpass, decide_eq_false_iff_not, not_le]
    have := getPassingScore_ge eng
    rw [h30] at hle
    linarith

/-- Instance of C6 at the Germany EU Blue Card with the empty profile. -/
theorem C6_missing_education_caps_score_witness :
    (∃ r e3, calculateScore (freshEngine "Germany" "EU Blue Card" {} none euBlueCard)
        = Except.ok (r, e3) ∧
      (∃ d, r.breakdown.education = some d ∧ d.score = 0) ∧
      (r.score : ℚ) ≤ numOr (some 30) 30 ∧ r.isPassing = false) ∧
    (evaluate "Germany" "EU Blue Card" {} none).map
        (fun r => (r.breakdown.education.map (fun d => d.score),
          r.breakdown.jobOffer.map (fun d => d.score), decide (r.score ≤ 40), r.isPassing))
      = Except.ok (some 0, some 0, true, false) :=
  C6_missing_education_caps_score "Germany" "EU Blue Card" {} none
    (freshEngine "Germany" "EU Blue Card" {} none euBlueCard)
    { required := true, minLevel := some "bachelors", weight := some 25, failIfMissing := true,
      capIfMissing := some 30 }
    (new_euBlueCard {} none) (by decide!) rfl (by decide)

/-- C7: for the Germany EU Blue Card (education weight 25, jobOffer weight 25,
passing score 60) and the scenario profile, the education score is at least 90%
of the education weight, the jobOffer score is the full jobOffer weight and
`isPassing` is true. -/
theorem C7_scenario_passes :
    ∃ r, evaluate "Germany" "EU Blue Card" scenarioProfile none = Except.ok r ∧
      (∃ d, r.breakdown.education = some d ∧ d.maxScore = 25 ∧ d.score ≥ 0.9 * d.maxScore) ∧
      (∃ d, r.breakdown.jobOffer = some d ∧ d.maxScore = 25 ∧ d.score = d.maxScore) ∧
      r.passingScore = 60 ∧ r.isPassing = true := by
  have h : (evaluate "Germany" "EU Blue Card" scenarioProfile none).map
      (fun r => (r.breakdown.education.map (fun d => (d.maxScore, decide (d.score ≥ 0.9 * d.maxScore))),
        r.breakdown.jobOffer.map (fun d => (d.maxScore, decide (d.score = d.maxScore))),
        r.passingScore, r.isPassing))
      = Except.ok (some (25, true), some (25, true), 60, true) := by decide!
  cases hev : evaluate "Germany" "EU Blue Card" scenarioProfile none with
  | error err =>
    rw [hev] at h
    simp [Except.map] at h
  | ok r =>
    rw [hev] at h
    simp only [Except.map, Except.ok.injEq, Prod.mk.injEq] at h
    obtain ⟨hedu, hjob, hp, hpass⟩ := h
    refine ⟨r, rfl, ?_, ?_, hp, hpass⟩
    · cases hd : r.breakdown.education with
      | none => simp [hd] at hedu
      | some d =>
        simp only [hd, Option.map_some', Option.some.injEq, Prod.mk.injEq,
          decide_eq_true_eq] at hedu
        exact ⟨d, rfl, hedu.1, hedu.2⟩
    · cases hd : r.breakdown.jobOffer with
      | none => simp [hd] at hjob
      | some d =>
        simp only [hd, Option.map_some', Option.some.injEq, Prod.mk.injEq,
          decide_eq_true_eq] at hjob
        exact ⟨d, rfl, hjob.1, hjob.2⟩

/-- C8 (as stated, fails): for the Germany EU Blue Card and the scenario
profile, whose salary amount is 50000, the salary score is 27 while the salary
weight is 30. -/
theorem C8_counterexample :
    salaryAmount scenarioProfile = some 50000 ∧
      (evaluate "Germany" "EU Blue Card" scenarioProfile none).map
          (fun r => r.breakdown.salary.map (fun d => (d.score, d.maxScore)))
        = Except.ok (some (27, 30)) := by
  decide!

/-- C8 (amended): for the Germany EU Blue Card (salary minimum 45300, salary
weight 30) and every profile whose salary amount is 50000, the salary dimension
scores 90% of its weight, that is 27. -/
theorem C8_salary_meets_minimum (profile : Profile) (x : Option ExtractionResults)
    (eng : ScoringEngine)
    (hnew : ScoringEngine.new "Germany" "EU Blue Card" profile x = Except.ok eng)
    (hamount : salaryAmount profile = some 50000) :
    ∃ req, eng.requirements.salary = some req ∧ req.minAmount = some 45300 ∧
      (scoreSalary eng req).1.maxScore = 30 ∧
      (scoreSalary eng req).1.score = 0.9 * (scoreSalary eng req).1.maxScore ∧
      (scoreSalary eng req).1.score = 27 := by
  rw [new_euBlueCard] at hnew
  simp only [Except.ok.injEq] at hnew
  subst hnew
  have hsal : euBlueCard.salary = some euBlueCardSalary := by decide!
  have hmin : euBlueCardSalary.minAmount = some 45300 := by decide!
  refine ⟨euBlueCardSalary, hsal, hmin, ?_⟩
  have hw : numOr euBlueCardSalary.weight 25 = 30 := by decide!
  have hm : numOr euBlueCardSalary.minAmount 30000 = 45300 := by decide!
  have hp : (freshEngine "Germany" "EU Blue Card" profile x euBlueCard).profile = profile := rfl
  unfold scoreSalary
  simp only [hp, hamount, hw, hm]
  norm_num [numTruthy]

/-- Instance of the amended C8 at the scenario profile. -/
theorem C8_salary_meets_minimum_witness :
    ∃ req, (freshEngine "Germany" "EU Blue Card" scenarioProfile none euBlueCard
        ).requirements.salary = some req ∧ req.minAmount = some 45300 ∧
      (scoreSalary (freshEngine "Germany" "EU Blue Card" scenarioProfile none euBlueCard)
        req).1.maxScore = 30 ∧
      (scoreSalary (freshEngine "Germany" "EU Blue Card" scenarioProfile none euBlueCard)
        req).1.score
        = 0.9 * (scoreSalary (freshEngine "Germany" "EU Blue Card" scenarioProfile none
          euBlueCard) req).1.maxScore ∧
      (scoreSalary (freshEngine "Germany" "EU Blue Card" scenarioProfile none euBlueCard)
        req).1.score = 27 :=
  C8_salary_meets_minimum scenarioProfile none
    (freshEngine "Germany" "EU Blue Card" scenarioProfile none euBlueCard)
    (new_euBlueCard scenarioProfile none) (by decide)

/-- C10: for every salary requirement with positive weight `req.weight || 25`
and non-negative minimum `req.minAmount || 30000`, and every known, non-zero
salary amount with amount < 0.7 × minimum, `scoreSalary` returns a score that
is strictly greater than 0 and strictly less than 0.3 × weight. -/
theorem C10_salary_below_floor (e : ScoringEngine) (req : SalaryReq) (amount : ℚ)
    (hw : 0 < numOr req.weight 25) (hmin : 0 ≤ numOr req.minAmount 30000)
    (hknown : salaryAmount e.profile = some amount) (hne : amount ≠ 0)
    (hlt : amount < 0.7 * numOr req.minAmount 30000) :
    0 < (scoreSalary e req).1.score ∧
      (scoreSalary e req).1.score < 0.3 * numOr req.weight 25 := by
  have h1 : ¬ amount ≥ numOr req.minAmount 30000 * 1.5 := by
    rw [not_le]
    linarith
  have h2 : ¬ amount ≥ numOr req.minAmount 30000 := by
    rw [not_le]
    linarith
  have h3 : ¬ amount ≥ numOr req.minAmount 30000 * 0.8 := by
    rw [not_le]
    linarith
  unfold scoreSalary
  simp only [hknown, numTruthy, hne, ne_eq, not_false_eq_true, decide_True, Bool.true_eq_false,
    if_false, Option.getD_some, h1, h2, h3]
  constructor <;> linarith

/-- Instance of C10 at the Germany EU Blue Card with a salary of 1000. -/
theorem C10_salary_below_floor_witness :
    0 < (scoreSalary (freshEngine "Germany" "EU Blue Card" lowSalaryProfile none euBlueCard)
        euBlueCardSalary).1.score ∧
      (scoreSalary (freshEngine "Germany" "EU Blue Card" lowSalaryProfile none euBlueCard)
        euBlueCardSalary).1.score < 0.3 * numOr euBlueCardSalary.weight 25 :=
  C10_salary_below_floor
    (freshEngine "Germany" "EU Blue Card" lowSalaryProfile none euBlueCard)
    euBlueCardSalary 1000 (by decide!) (by decide!) (by decide!) (by norm_num) (by
      have hm : numOr euBlueCardSalary.minAmount 30000 = 45300 := by decide!
      rw [hm]
      norm_num)

/-- C12 (as stated, fails): for the Australia Skilled Independent (189)
experience requirement (required, `minYears = 3`, weight 20), a profile with
`totalYears = 0` scores 0, which is not greater than 0, and a profile with
`totalYears = 2`, below 0.7 × 3, scores 20/3, which is not below 0.3 × 20. -/
theorem C12_counterexample :
    australiaExperience.minYears = some 3 ∧ australiaExperience.weight = some 20 ∧
      (scoreExperience (freshEngine "Australia" "Skilled Independent (189)"
        { experience := some { totalYears := some 0 } } none {}) australiaExperience).1.score = 0 ∧
      (2 : ℚ) < 0.7 * 3 ∧
      (scoreExperience (freshEngine "Australia" "Skilled Independent (189)"
        { experience := some { totalYears := some 2 } } none {}) australiaExperience).1.score
        = 20 / 3 ∧
      ¬ ((20 : ℚ) / 3 < 0.3 * 20) := by
  decide!

/-- C12 (amended): for every experience requirement with positive weight
`req.weight || 20`, `minYears > 0` and `minYears` at most the recommended years
`req.recommended || 5`, a profile with 0 years scores 0, and a profile with
0 < years < 0.7 × minYears scores weight × (years / minYears) × 0.5, which is
strictly greater than 0 and strictly less than 0.35 × weight. -/
theorem C12_experience_below_minimum (e : ScoringEngine) (req : ExperienceReq)
    (hw : 0 < numOr req.weight 20) (hmin : 0 < numOr req.minYears 0)
    (hrec : numOr req.minYears 0 ≤ numOr req.recommended 5) :
    (experienceYears e.profile = 0 → (scoreExperience e req).1.score = 0) ∧
    (0 < experienceYears e.profile → experienceYears e.profile < 0.7 * numOr req.minYears 0 →
      (scoreExperience e req).1.score
        = numOr req.weight 20 * (experienceYears e.profile / numOr req.minYears 0) * 0.5 ∧
      0 < (scoreExperience e req).1.score ∧
      (scoreExperience e req).1.score < 0.35 * numOr req.weight 20) := by
  constructor
  · intro h0
    have h1 : ¬ (0 : ℚ) ≥ numOr req.recommended 5 := by
      rw [not_le]
      linarith
    have h2 : ¬ (0 : ℚ) ≥ numOr req.minYears 0 := not_le.mpr hmin
    unfold scoreExperience
    simp only [h0, h1, h2, lt_irrefl, if_false, true_and]
    split_ifs <;> rfl
  · intro hpos hlt
    have hne : experienceYears e.profile ≠ 0 := ne_of_gt hpos
    have h1 : ¬ experienceYears e.profile ≥ numOr req.recommended 5 := by
      rw [not_le]
      linarith
    have h2 : ¬ experienceYears e.profile ≥ numOr req.minYears 0 := by
      rw [not_le]
      linarith
    have hscore : (scoreExperience e req).1.score
        = numOr req.weight 20 * (experienceYears e.profile / numOr req.minYears 0) * 0.5 := by
      unfold scoreExperience
      simp only [hne, false_and, if_false, h1, h2, hpos, if_true]
    have hr0 : 0 < experienceYears e.profile / numOr req.minYears 0 := div_pos hpos hmin
    have hr1 : experienceYears e.profile / numOr req.minYears 0 < 0.7 := by
      rw [div_lt_iff₀ hmin]
      exact hlt
    refine ⟨hscore, ?_, ?_⟩
    · rw [hscore]
      exact mul_pos (mul_pos hw hr0) (by norm_num)
    · rw [hscore]
      have : numOr req.weight 20 * (experienceYears e.profile / numOr req.minYears 0)
          < numOr req.weight 20 * 0.7 := mul_lt_mul_of_pos_left hr1 hw
      linarith

/-- Instance of the amended C12 at the Australia Skilled Independent (189)
experience requirement with 2 years of experience. -/
theorem C12_experience_below_minimum_witness :
    (scoreExperience (freshEngine "Australia" "Skilled Independent (189)"
        { experience := some { totalYears := some 2 } } none {}) australiaExperience).1.score
        = numOr australiaExperience.weight 20
          * (experienceYears { experience := some { totalYears := some 2 } }
            / numOr australiaExperience.minYears 0) * 0.5 ∧
      0 < (scoreExperience (freshEngine "Australia" "Skilled Independent (189)"
        { experience := some { totalYears := some 2 } } none {}) australiaExperience).1.score ∧
      (scoreExperience (freshEngine "Australia" "Skilled Independent (189)"
        { experience := some { totalYears := some 2 } } none {}) australiaExperience).1.score
        < 0.35 * numOr australiaExperience.weight 20 :=
  (C12_experience_below_minimum
    (freshEngine "Australia" "Skilled Independent (189)"
      { experience := some { totalYears := some 2 } } none {})
    australiaExperience (by decide!) (by decide!) (by decide!)).2 (by decide!) (by decide!)

theorem experienceYears_noExperience (p : Profile) :
    experienceYears (noExperience p) = numOr p.totalExperienceYears 0 := by
  simp [experienceYears, noExperience, numOr]

theorem experienceYears_zeroExperience (p : Profile) :
    experienceYears (zeroExperience p) = numOr p.totalExperienceYears 0 := by
  simp [experienceYears, zeroExperience, numOr]

/-- C13 (as stated, fails): for the Germany EU Blue Card the profile `{}`, with
no experience data, and the profile with `experience.totalYears = 0` receive
the same experience score, 6 of 10. -/
theorem C13_counterexample :
    (evaluate "Germany" "EU Blue Card" (noExperience {}) none).map
        (fun r => r.breakdown.experience.map (fun d => d.score)) = Except.ok (some 6) ∧
      (evaluate "Germany" "EU Blue Card" (zeroExperience {}) none).map
        (fun r => r.breakdown.experience.map (fun d => d.score)) = Except.ok (some 6) := by
  decide!

/-- C13 (amended): the engine does not distinguish unknown experience from
known-zero experience: for every experience requirement and every profile, the
profile with no experience data and the profile with `experience.totalYears = 0`
receive the same experience result and the same entries of `failedRequirements`,
`metRequirements` and `warnings`. -/
theorem C13_unknown_same_as_zero (e : ScoringEngine) (req : ExperienceReq) (p : Profile) :
    (scoreExperience { e with profile := noExperience p } req).1
        = (scoreExperience { e with profile := zeroExperience p } req).1 ∧
      (scoreExperience { e with profile := noExperience p } req).2.failedRequirements
        = (scoreExperience { e with profile := zeroExperience p } req).2.failedRequirements ∧
      (scoreExperience { e with profile := noExperience p } req).2.metRequirements
        = (scoreExperience { e with profile := zeroExperience p } req).2.metRequirements ∧
      (scoreExperience { e with profile := noExperience p } req).2.warnings
        = (scoreExperience { e with profile := zeroExperience p } req).2.warnings := by
  unfold scoreExperience
  simp only [experienceYears_noExperience, experienceYears_zeroExperience]
  split_ifs <;> exact ⟨rfl, rfl, rfl, rfl⟩

/-- C14 (as stated, fails): for the Poland Work Permit Type C, whose education,
experience, salary and language requirements are not required, the profile `{}`
scores 0 in each of these four dimensions and `warnings` stays empty. -/
theorem C14_counterexample :
    (evaluate "Poland" "Work Permit Type C" {} none).map
        (fun r => (r.breakdown.education.map (fun d => d.score),
          r.breakdown.experience.map (fun d => d.score),
          r.breakdown.salary.map (fun d => d.score),
          r.breakdown.language.map (fun d => d.score), r.warnings))
      = Except.ok (some 0, some 0, some 0, some 0, []) := by
  decide!

/-- C14 (amended): when the requirement is not required and the profile field
is unknown, `scoreEducation`, `scoreSalary` and `scoreLanguage` return the score
0 and add no entry to `warnings`; `scoreExperience` adds no entry to `warnings`
either and, with positive recommended years `req.recommended || 5`, returns 60%
of the weight when `minYears` is unset or 0 and the score 0 when `minYears` is
positive. -/
theorem C14_optional_unknown (e : ScoringEngine) :
    (∀ req : EducationReq, req.required = false → recognisedLevel e.profile = 0 →
      (scoreEducation e req).1.score = 0 ∧ (scoreEducation e req).2.warnings = e.warnings) ∧
    (∀ req : ExperienceReq, req.required = false →
      (e.profile.experience.getD {}).totalYears = none →
      e.profile.totalExperienceYears = none →
      (scoreExperience e req).2.warnings = e.warnings ∧
      (numOr req.minYears 0 = 0 → 0 < numOr req.recommended 5 →
        (scoreExperience e req).1.score = 0.6 * numOr req.weight 20) ∧
      (0 < numOr req.minYears 0 → 0 < numOr req.recommended 5 →
        (scoreExperience e req).1.score = 0)) ∧
    (∀ req : SalaryReq, req.required = false → numTruthy (salaryAmount e.profile) = false →
      (scoreSalary e req).1.score = 0 ∧ (scoreSalary e req).2.warnings = e.warnings) ∧
    (∀ req : LanguageReq, req.required = false → e.profile.languages.getD [] = [] →
      (scoreLanguage e req).1.score = 0 ∧ (scoreLanguage e req).2.warnings = e.warnings) := by
  refine ⟨?_, ?_, ?_, ?_⟩
  · intro req hreq hu
    unfold recognisedLevel at hu
    unfold scoreEducation
    simp [hu, hreq]
  · intro req hreq h1 h2
    have hy : experienceYears e.profile = 0 := by
      simp [experienceYears, h1, h2, numOr]
    refine ⟨?_, ?_, ?_⟩
    · unfold scoreExperience
      simp only [hy, hreq]
      split_ifs <;> rfl
    · intro hmin hrec
      have h1 : ¬ (0 : ℚ) ≥ numOr req.recommended 5 := not_le.mpr hrec
      unfold scoreExperience
      simp only [hy, hreq, hmin, h1, Bool.false_eq_true, and_false, if_false, ge_iff_le,
        le_refl, if_true, sub_zero, zero_div, zero_mul, add_zero]
      ring
    · intro hmin hrec
      have h1 : ¬ (0 : ℚ) ≥ numOr req.recommended 5 := not_le.mpr hrec
      have h2 : ¬ (0 : ℚ) ≥ numOr req.minYears 0 := not_le.mpr hmin
      unfold scoreExperience
      simp only [hy, hreq, h1, h2, Bool.false_eq_true, and_false, if_false, lt_irrefl]
  · intro req hreq hamount
    unfold scoreSalary
    simp [hamount, hreq]
  · intro req hreq hl
    unfold scoreLanguage
    simp [hl, hreq]

/-- Instance of the amended C14 on a fresh engine with the empty profile and an
optional requirement of each of the four kinds. -/
theorem C14_optional_unknown_witness :
    ((scoreEducation (freshEngine "Poland" "Work Permit Type C" {} none {})
        { required := false, weight := some 25 }).1.score = 0 ∧
      (scoreEducation (freshEngine "Poland" "Work Permit Type C" {} none {})
        { required := false, weight := some 25 }).2.warnings = []) ∧
    ((scoreExperience (freshEngine "Poland" "Work Permit Type C" {} none {})
        { required := false, weight := some 25 }).1.score = 0.6 * numOr (some 25) 20) ∧
    ((scoreSalary (freshEngine "Poland" "Work Permit Type C" {} none {})
        { required := false, weight := some 15 }).1.score = 0 ∧
      (scoreSalary (freshEngine "Poland" "Work Permit Type C" {} none {})
        { required := false, weight := some 15 }).2.warnings = []) ∧
    ((scoreLanguage (freshEngine "Poland" "Work Permit Type C" {} none {})
        { required := false, weight := some 10 }).1.score = 0 ∧
      (scoreLanguage (freshEngine "Poland" "Work Permit Type C" {} none {})
        { required := false, weight := some 10 }).2.warnings = []) :=
  ⟨(C14_optional_unknown (freshEngine "Poland" "Work Permit Type C" {} none {})).1
      { required := false, weight := some 25 } rfl (by decide),
   ((C14_optional_unknown (freshEngine "Poland" "Work Permit Type C" {} none {})).2.1
      { required := false, weight := some 25 } rfl rfl rfl).2.1 (by decide!) (by decide!),
   (C14_optional_unknown (freshEngine "Poland" "Work Permit Type C" {} none {})).2.2.1
      { required := false, weight := some 15 } rfl (by decide),
   (C14_optional_unknown (freshEngine "Poland" "Work Permit Type C" {} none {})).2.2.2
      { required := false, weight := some 10 } rfl rfl⟩

theorem numOr_some_pos (w d : ℚ) (hw : 0 < w) : numOr (some w) d = w := by
  simp [numOr, ne_of_gt hw]

/-- C15: for every requirement whose weight `w` is positive and every profile,
each of the six dimension scorers returns a result with `maxScore = w` and
`0 ≤ score ≤ maxScore`; the bonuses for a higher degree, for the institution and
for years beyond the minimum never lift a score above the weight. -/
theorem C15_score_within_weight (e : ScoringEngine) (w : ℚ) (hw : 0 < w) :
    (∀ req : EducationReq, req.weight = some w →
      (scoreEducation e req).1.maxScore = w ∧ 0 ≤ (scoreEducation e req).1.score ∧
      (scoreEducation e req).1.score ≤ (scoreEducation e req).1.maxScore) ∧
    (∀ req : ExperienceReq, req.weight = some w →
      (scoreExperience e req).1.maxScore = w ∧ 0 ≤ (scoreExperience e req).1.score ∧
      (scoreExperience e req).1.score ≤ (scoreExperience e req).1.maxScore) ∧
    (∀ req : SalaryReq, req.weight = some w →
      (scoreSalary e req).1.maxScore = w ∧ 0 ≤ (scoreSalary e req).1.score ∧
      (scoreSalary e req).1.score ≤ (scoreSalary e req).1.maxScore) ∧
    (∀ req : JobOfferReq, req.weight = some w →
      (scoreJobOffer e req).1.maxScore = w ∧ 0 ≤ (scoreJobOffer e req).1.score ∧
      (scoreJobOffer e req).1.score ≤ (scoreJobOffer e req).1.maxScore) ∧
    (∀ req : LanguageReq, req.weight = some w →
      (scoreLanguage e req).1.maxScore = w ∧ 0 ≤ (scoreLanguage e req).1.score ∧
      (scoreLanguage e req).1.score ≤ (scoreLanguage e req).1.maxScore) ∧
    (∀ req : AgeReq, req.weight = some w →
      (scoreAge e req).1.maxScore = w ∧ 0 ≤ (scoreAge e req).1.score ∧
      (scoreAge e req).1.score ≤ (scoreAge e req).1.maxScore) := by
  refine ⟨?_, ?_, ?_, ?_, ?_, ?_⟩
  · intro req hreq
    have hn : numOr req.weight 25 = w := by rw [hreq]; exact numOr_some_pos w 25 hw
    refine ⟨?_, scoreEducation_bounds e req (by rw [hn]; exact hw.le)⟩
    unfold scoreEducation
    simp only
    split_ifs <;> exact hn
  · intro req hreq
    have hn : numOr req.weight 20 = w := by rw [hreq]; exact numOr_some_pos w 20 hw
    refine ⟨?_, scoreExperience_bounds e req (by rw [hn]; exact hw.le)⟩
    unfold scoreExperience
    simp only
    split_ifs <;> exact hn
  · intro req hreq
    have hn : numOr req.weight 25 = w := by rw [hreq]; exact numOr_some_pos w 25 hw
    refine ⟨?_, scoreSalary_bounds e req (by rw [hn]; exact hw.le)⟩
    unfold scoreSalary
    simp only
    split_ifs <;> exact hn
  · intro req hreq
    have hn : numOr req.weight 20 = w := by rw [hreq]; exact numOr_some_pos w 20 hw
    refine ⟨?_, scoreJobOffer_bounds e req (by rw [hn]; exact hw.le)⟩
    unfold scoreJobOffer
    simp only
    split_ifs <;> exact hn
  · intro req hreq
    have hn : numOr req.weight 15 = w := by rw [hreq]; exact numOr_some_pos w 15 hw
    refine ⟨?_, scoreLanguage_bounds e req (by rw [hn]; exact hw.le)⟩
    unfold scoreLanguage
    simp only
    split <;> [skip; split_ifs] <;> exact hn
  · intro req hreq
    have hn : numOr req.weight 10 = w := by rw [hreq]; exact numOr_some_pos w 10 hw
    refine ⟨?_, scoreAge_bounds e req (by rw [hn]; exact hw.le)⟩
    unfold scoreAge
    exact hn

/-- Instance of C15 at the scenario profile with requirements of weight 25: the
education score of a master degree and the experience score of 2 years. -/
theorem C15_score_within_weight_witness :
    ((scoreEducation (freshEngine "Germany" "EU Blue Card" scenarioProfile none euBlueCard)
        { minLevel := some "bachelors", weight := some 25 }).1.maxScore = 25 ∧
      0 ≤ (scoreEducation (freshEngine "Germany" "EU Blue Card" scenarioProfile none euBlueCard)
        { minLevel := some "bachelors", weight := some 25 }).1.score ∧
      (scoreEducation (freshEngine "Germany" "EU Blue Card" scenarioProfile none euBlueCard)
        { minLevel := some "bachelors", weight := some 25 }).1.score
        ≤ (scoreEducation (freshEngine "Germany" "EU Blue Card" scenarioProfile none euBlueCard)
          { minLevel := some "bachelors", weight := some 25 }).1.maxScore) ∧
    ((scoreExperience (freshEngine "Germany" "EU Blue Card" scenarioProfile none euBlueCard)
        { recommended := some 3, weight := some 25 }).1.maxScore = 25 ∧
      0 ≤ (scoreExperience (freshEngine "Germany" "EU Blue Card" scenarioProfile none euBlueCard)
        { recommended := some 3, weight := some 25 }).1.score ∧
      (scoreExperience (freshEngine "Germany" "EU Blue Card" scenarioProfile none euBlueCard)
        { recommended := some 3, weight := some 25 }).1.score
        ≤ (scoreExperience (freshEngine "Germany" "EU Blue Card" scenarioProfile none euBlueCard)
          { recommended := some 3, weight := some 25 }).1.maxScore) :=
  ⟨(C15_score_within_weight
      (freshEngine "Germany" "EU Blue Card" scenarioProfile none euBlueCard) 25 (by norm_num)).1
      { minLevel := some "bachelors", weight := some 25 } rfl,
   (C15_score_within_weight
      (freshEngine "Germany" "EU Blue Card" scenarioProfile none euBlueCard) 25 (by norm_num)).2.1
      { recommended := some 3, weight := some 25 } rfl⟩

/-- C16 (fails on the code): `getPassingScore` reads a table of its own keyed by
visa type and never the catalog. For the Ireland Critical Skills Employment
Permit the catalog passing score is 70 and the result carries 60; for the
Poland Work Permit Type C the catalog passing score is 55 and a profile that
scores 55 is reported with passing score 60 and `isPassing = false`. -/
theorem C16_passing_score_ignores_catalog :
    (getVisaConfig "Ireland" "Critical Skills Employment Permit").bind
        (fun config => config.passingScore) = some 70 ∧
      (evaluate "Ireland" "Critical Skills Employment Permit" {} none).map
        (fun r => r.passingScore) = Except.ok 60 ∧
      (getVisaConfig "Poland" "Work Permit Type C").bind
        (fun config => config.passingScore) = some 55 ∧
      (evaluate "Poland" "Work Permit Type C" borderlineProfile none).map
        (fun r => (r.score, r.passingScore, r.isPassing)) = Except.ok (55, 60, false) := by
  decide!

theorem confidence_step (c : ℚ) (n : ℕ) (k : ℚ) (kn : ℕ) (p : Prop) [Decidable p]
    (hk : k = (kn : ℚ)) (h : c = 50 + (n : ℚ)) :
    ∃ m : ℕ, m ≤ n + kn ∧ (if p then c + k else c) = 50 + (m : ℚ) := by
  by_cases hp : p
  · exact ⟨n + kn, le_refl _, by rw [if_pos hp, h, hk]; push_cast; ring⟩
  · exact ⟨n, Nat.le_add_right _ _, by rw [if_neg hp, h]⟩

theorem calculateConfidence_eq (e : ScoringEngine) :
    ∃ n : ℕ, n ≤ 45 ∧
      calculateConfidence e
        = min 95 (match e.extractionResults.bind (fun x => x.dataQuality) with
          | some quality => max (50 + (n : ℚ)) quality.overallConfidence
          | none => 50 + (n : ℚ)) := by
  obtain ⟨n1, b1, h1⟩ := confidence_step 50 0 10 10
    ((e.profile.education.getD {}).verified = true) (by norm_num) (by norm_num)
  obtain ⟨n2, b2, h2⟩ := confidence_step _ n1 10 10
    (salaryVerified e.profile = true) (by norm_num) h1
  obtain ⟨n3, b3, h3⟩ := confidence_step _ n2 10 10
    ((e.profile.jobOffer.getD {}).hasOffer = true) (by norm_num) h2
  obtain ⟨n4, b4, h4⟩ := confidence_step _ n3 5 5
    ((e.profile.languages.getD []).any (fun l => l.verified) = true) (by norm_num) h3
  obtain ⟨n5, b5, h5⟩ := confidence_step _ n4 5 5
    ((match (e.profile.experience.getD {}).totalYears with
      | some years => decide (years > 0)
      | none => false) = true) (by norm_num) h4
  obtain ⟨n6, b6, h6⟩ := confidence_step _ n5 5 5
    ((e.profile.skillsAll.getD []).length > 3) (by norm_num) h5
  refine ⟨n6, by omega, ?_⟩
  rw [← h6]
  rfl

/-- C17 (as stated, fails): with the empty profile and extraction results whose
`dataQuality.overallConfidence` is 60.5, `calculateConfidence` returns 60.5,
which is not an integer. -/
theorem C17_counterexample :
    calculateConfidence (freshEngine "Germany" "EU Blue Card" {}
        (some { dataQuality := some { overallConfidence := 60.5 } }) euBlueCard) = 60.5 ∧
      ¬ ∃ n : ℤ, calculateConfidence (freshEngine "Germany" "EU Blue Card" {}
        (some { dataQuality := some { overallConfidence := 60.5 } }) euBlueCard) = n := by
  have h : calculateConfidence (freshEngine "Germany" "EU Blue Card" {}
      (some { dataQuality := some { overallConfidence := 60.5 } }) euBlueCard) = 60.5 := by
    decide!
  refine ⟨h, ?_⟩
  rw [h]
  rintro ⟨n, hn⟩
  have h2 : (121 : ℚ) = 2 * n := by
    rw [← hn]
    norm_num
  have h3 : (121 : ℤ) = 2 * n := by exact_mod_cast h2
  omega

/-- C17 (amended): for every profile and every extraction results value,
`calculateConfidence` returns a number in [50, 95]; it is an integer whenever
there is no `dataQuality` or `dataQuality.overallConfidence` is an integer. -/
theorem C17_confidence_range (e : ScoringEngine) :
    50 ≤ calculateConfidence e ∧ calculateConfidence e ≤ 95 ∧
      ((∀ quality, e.extractionResults.bind (fun x => x.dataQuality) = some quality →
          ∃ k : ℤ, quality.overallConfidence = k) →
        ∃ n : ℤ, calculateConfidence e = n) := by
  obtain ⟨n, hn, hc⟩ := calculateConfidence_eq e
  have hn0 : (0 : ℚ) ≤ n := Nat.cast_nonneg n
  rw [hc]
  cases hq : e.extractionResults.bind (fun x => x.dataQuality) with
  | none =>
    simp only
    refine ⟨le_min (by norm_num) (le_add_of_nonneg_right hn0), min_le_left _ _, ?_⟩
    intro _
    rcases le_total (95 : ℚ) (50 + (n : ℚ)) with h | h
    · exact ⟨95, by rw [min_eq_left h]; norm_num⟩
    · exact ⟨50 + n, by rw [min_eq_right h]; push_cast; rfl⟩
  | some quality =>
    simp only
    refine ⟨le_min (by norm_num) (le_trans (le_add_of_nonneg_right hn0) (le_max_left _ _)),
      min_le_left _ _, ?_⟩
    intro hint
    obtain ⟨k, hk⟩ := hint quality rfl
    rw [hk]
    rcases le_total (95 : ℚ) (max (50 + (n : ℚ)) (k : ℚ)) with h | h
    · exact ⟨95, by rw [min_eq_left h]; norm_num⟩
    · rw [min_eq_right h]
      rcases le_total (50 + (n : ℚ)) (k : ℚ) with h2 | h2
      · exact ⟨k, by rw [max_eq_right h2]⟩
      · exact ⟨50 + n, by rw [max_eq_left h2]; push_cast; rfl⟩

/-- C18 (fails on the code): `calculateConfidence` adds 10 for
`jobOffer.hasOffer` and never reads `jobOffer.verified`: with no extraction
results, a profile whose only content is an unverified job offer gets 60 and
not 50, and a profile whose job offer is verified but has `hasOffer` unset
gets 50 and not 60. -/
theorem C18_unverified_offer_counts :
    calculateConfidence (freshEngine "Germany" "EU Blue Card" unverifiedOfferProfile none
        euBlueCard) = 60 ∧
      calculateConfidence (freshEngine "Germany" "EU Blue Card"
        { jobOffer := some { hasOffer := false, verified := true } } none euBlueCard) = 50 := by
  decide!

/-! ### The stable sort of the `/compare` handler -/

theorem arraySort_sorted {α : Type} (key : α → ℤ) (l : List α) :
    (arraySort (fun a b => key b - key a) l).Pairwise (fun a b => key a ≥ key b) := by
  have h := @List.sorted_mergeSort α (fun a b => decide (key b - key a ≤ 0))
    (by
      intro a b c hab hbc
      simp only [decide_eq_true_eq] at hab hbc ⊢
      omega)
    (by
      intro a b
      simp only [Bool.or_eq_true, decide_eq_true_eq]
      omega) l
  unfold arraySort
  refine List.Pairwise.imp ?_ h
  intro a b hab
  simp only [decide_eq_true_eq] at hab
  omega

theorem arraySort_perm {α : Type} (compareFn : α → α → ℤ) (l : List α) :
    (arraySort compareFn l).Perm l :=
  List.mergeSort_perm l _

theorem arraySort_stable {α : Type} (key : α → ℤ) (l : List α) (s : ℤ) :
    (arraySort (fun a b => key b - key a) l).filter (fun c => decide (key c = s))
      = l.filter (fun c => decide (key c = s)) := by
  have hsub : List.Sublist (l.filter (fun c => decide (key c = s)))
      (arraySort (fun a b => key b - key a) l) := by
    unfold arraySort
    apply List.sublist_mergeSort
    · intro a b c hab hbc
      simp only [decide_eq_true_eq] at hab hbc ⊢
      omega
    · intro a b
      simp only [Bool.or_eq_true, decide_eq_true_eq]
      omega
    · rw [List.pairwise_iff_forall_sublist]
      intro a b hab
      have ha : a ∈ l.filter (fun c => decide (key c = s)) := hab.subset (by simp)
      have hb : b ∈ l.filter (fun c => decide (key c = s)) := hab.subset (by simp)
      simp only [List.mem_filter, decide_eq_true_eq] at ha hb
      simp only [decide_eq_true_eq]
      omega
    · exact List.filter_sublist l
  have hsub2 := hsub.filter (fun c => decide (key c = s))
  rw [List.filter_filter] at hsub2
  simp only [Bool.and_self] at hsub2
  have hlen := ((arraySort_perm (fun a b => key b - key a) l).filter
    (fun c => decide (key c = s))).length_eq
  exact (hsub2.eq_of_length hlen.symm).symm

theorem lookup_isSome_of_mem_keys {β : Type} (l : List (String × β)) (a : String)
    (h : a ∈ l.map Prod.fst) : ∃ b, l.lookup a = some b := by
  induction l with
  | nil => simp at h
  | cons hd tl ih =>
    obtain ⟨k, v⟩ := hd
    simp only [List.lookup]
    by_cases hk : a = k
    · subst hk
      exact ⟨v, by simp⟩
    · have hmem : a ∈ tl.map Prod.fst := by
        simp only [List.map_cons, List.mem_cons] at h
        rcases h with h | h
        · exact absurd h hk
        · exact h
      obtain ⟨b, hb⟩ := ih hmem
      refine ⟨b, ?_⟩
      have : (a == k) = false := by simpa using hk
      rw [this]
      exact hb

theorem configs_have_requirements :
    ∀ c ∈ tableEntries VISA_CONFIGS, c.requirements.isSome = true := by
  decide!

theorem new_ok_of_visaType (country visaType : String) (profile : Profile)
    (x : Option ExtractionResults) (h : visaType ∈ getVisaTypes country) :
    ∃ eng, ScoringEngine.new country visaType profile x = Except.ok eng := by
  unfold getVisaTypes at h
  cases hc : VISA_CONFIGS.lookup country with
  | none => simp [hc] at h
  | some byType =>
    simp only [hc] at h
    obtain ⟨cfg, hcfg⟩ := lookup_isSome_of_mem_keys byType visaType h
    have hget : getVisaConfig country visaType = some cfg := by
      simp [getVisaConfig, lookup2, hc, hcfg]
    have hsome := configs_have_requirements cfg (lookup2_mem _ _ _ _ hget)
    obtain ⟨r, hr⟩ := Option.isSome_iff_exists.mp hsome
    unfold ScoringEngine.new getRequirements
    simp only [hget, Option.bind, hr]
    split
    · exact ⟨_, rfl⟩
    · exact ⟨_, rfl⟩

theorem evaluate_ok_of_visaType (country visaType : String) (profile : Profile)
    (x : Option ExtractionResults) (h : visaType ∈ getVisaTypes country) :
    ∃ r, evaluate country visaType profile x = Except.ok r := by
  obtain ⟨eng, heng⟩ := new_ok_of_visaType country visaType profile x h
  obtain ⟨_, _, _, _, _, hlog, _⟩ := new_ok country visaType profile x eng heng
  obtain ⟨r, e3, hcalc, _⟩ := calculateScore_ok eng [] hlog
  refine ⟨r, ?_⟩
  unfold evaluate
  rw [heng]
  simp only [Except.bind, hcalc, Except.map]

theorem compareCountry_pairs (data : Profile) (country : String) :
    (compareCountry data country).map (fun c => (c.country, c.visaType))
      = (getVisaTypes country).map (fun visaType => (country, visaType)) := by
  unfold compareCountry
  have key : ∀ l : List String, (∀ v ∈ l, v ∈ getVisaTypes country) →
      (l.filterMap (fun visaType =>
        match evaluate country visaType data none with
        | Except.ok scoreResult =>
          some ({ country := country, visaType := visaType, score := scoreResult.score,
                  confidence := scoreResult.confidence, isPassing := scoreResult.isPassing,
                  passingScore := scoreResult.passingScore } : Comparison)
        | Except.error _ => none)).map (fun c => (c.country, c.visaType))
        = l.map (fun visaType => (country, visaType)) := by
    intro l
    induction l with
    | nil => intro _; rfl
    | cons v tl ih =>
      intro hl
      obtain ⟨r, hr⟩ := evaluate_ok_of_visaType country v data none (hl v (by simp))
      rw [List.filterMap_cons]
      simp only [hr, List.map_cons]
      rw [ih (fun w hw => hl w (List.mem_cons_of_mem _ hw))]
  exact key _ (fun _ hv => hv)

theorem collectComparisons_pairs (data : Profile) (countriesToCompare : List String) :
    (collectComparisons data countriesToCompare).map (fun c => (c.country, c.visaType))
      = (countriesToCompare.map (fun country =>
          (getVisaTypes country).map (fun visaType => (country, visaType)))).flatten := by
  unfold collectComparisons
  induction countriesToCompare with
  | nil => rfl
  | cons c tl ih =>
    simp only [List.map_cons, List.flatten_cons, List.map_append]
    rw [compareCountry_pairs, ih]

/-- C20: for every profile and every optional list of countries, the
`comparisons` of the `/compare` handler are a permutation of the entries
collected in loop order, sorted by score in non-increasing order; the loop
yields one entry for each country of the list and each visa type of that
country in `VISA_CONFIGS`, in that order, and the entries of any one score
appear in the sorted list in the same order as in the loop; `bestMatch` is the
first entry, absent exactly when the list is empty, and no entry has a higher
score than `bestMatch`. -/
theorem C20_compare_sorted_stable (data : Profile) (countries : Option (List String)) :
    (compareHandler data countries).comparisons.Pairwise (fun a b => a.score ≥ b.score) ∧
    (compareHandler data countries).comparisons.Perm
      (collectComparisons data (countries.getD getCountries)) ∧
    (collectComparisons data (countries.getD getCountries)).map
        (fun c => (c.country, c.visaType))
      = ((countries.getD getCountries).map (fun country =>
          (getVisaTypes country).map (fun visaType => (country, visaType)))).flatten ∧
    (∀ s : ℤ,
      (compareHandler data countries).comparisons.filter (fun c => decide (c.score = s))
        = (collectComparisons data (countries.getD getCountries)).filter
            (fun c => decide (c.score = s))) ∧
    (compareHandler data countries).bestMatch
      = (compareHandler data countries).comparisons.head? ∧
    ((compareHandler data countries).bestMatch = none
      ↔ (compareHandler data countries).comparisons = []) ∧
    (∀ best, (compareHandler data countries).bestMatch = some best →
      best ∈ (compareHandler data countries).comparisons ∧
      ∀ c ∈ (compareHandler data countries).comparisons, c.score ≤ best.score) := by
  have hsorted := arraySort_sorted (fun c : Comparison => c.score)
    (collectComparisons data (countries.getD getCountries))
  refine ⟨hsorted, arraySort_perm _ _, collectComparisons_pairs _ _,
    arraySort_stable (fun c : Comparison => c.score) _, rfl, ?_, ?_⟩
  · exact List.head?_eq_none_iff
  · intro best hbest
    have hbest1 : (arraySort (fun a b : Comparison => b.score - a.score)
        (collectComparisons data (countries.getD getCountries))).head? = some best := hbest
    change best ∈ arraySort (fun a b : Comparison => b.score - a.score)
        (collectComparisons data (countries.getD getCountries)) ∧
      ∀ c ∈ arraySort (fun a b : Comparison => b.score - a.score)
        (collectComparisons data (countries.getD getCountries)), c.score ≤ best.score
    cases hl : arraySort (fun a b : Comparison => b.score - a.score)
        (collectComparisons data (countries.getD getCountries)) with
    | nil =>
      rw [hl] at hbest1
      simp at hbest1
    | cons hd tl =>
      rw [hl] at hbest1 hsorted
      simp only [List.head?_cons, Option.some.injEq] at hbest1
      subst hbest1
      refine ⟨List.mem_cons_self _ _, ?_⟩
      intro c hc
      rcases List.mem_cons.mp hc with rfl | hc
      · exact le_refl _
      · exact (List.pairwise_cons.mp hsorted).1 c hc

/-! ### Requirements outside the six scored kinds -/

/-- C21: the breakdown has no entry for a requirement outside the six scored
kinds.  `OFFICIAL_REQUIREMENTS.UK['Skilled Worker Visa']` lists `skillLevel`
(weight 20) and `sponsorship` (weight 10) beside `jobOffer`, `salary` and
`language`; the engine resolves the pair to that entry, the breakdown of
`calculateScore` holds the three entries `salary`, `jobOffer` and `language`
only, the normalisation denominator is 70, not 100, and a profile that meets
these three is reported at the ceiling 85. -/
theorem C21_unscored_requirements :
    ScoringEngine.new "UK" "Skilled Worker Visa" ukStrongProfile none
        = Except.ok (freshEngine "UK" "Skilled Worker Visa" ukStrongProfile none ukSkilledWorker) ∧
      ukSkilledWorker.other = [("skillLevel", some 20), ("sponsorship", some 10)] ∧
      (evaluate "UK" "Skilled Worker Visa" ukStrongProfile none).map (fun r => r.breakdown)
        = Except.ok
            { salary := some { score := 25, maxScore := 25, verified := some true },
              jobOffer := some { score := 30, maxScore := 30, verified := some false },
              language := some { score := 15, maxScore := 15, verified := some true } } ∧
      (scoreDimensions
        (freshEngine "UK" "Skilled Worker Visa" ukStrongProfile none ukSkilledWorker)).1.totalWeight
        = 70 ∧
      (evaluate "UK" "Skilled Worker Visa" ukStrongProfile none).map (fun r => r.score)
        = Except.ok 85 := by
  refine ⟨?_, ?_, ?_, ?_, ?_⟩ <;> decide!

/-! ### Scaling of the weights -/

theorem numOr_scaled (a : Option ℚ) (k d d1 : ℚ) (hk : 0 < k) (ha : optPos a = true) :
    numOr (a.map (fun w => k * w)) d1 = k * numOr a d := by
  cases a with
  | none => simp [optPos] at ha
  | some w =>
    simp only [optPos, decide_eq_true_eq] at ha
    simp [numOr, ne_of_gt ha, ne_of_gt hk]

theorem scoreEducation_scaled (e e1 : ScoringEngine) (req : EducationReq) (k : ℚ)
    (hk : 0 < k) (hw : optPos req.weight = true) (hp : e1.profile = e.profile) :
    DimResult.ScaledBy k (scoreEducation e req).1
      (scoreEducation e1 { req with weight := req.weight.map (fun w => k * w) }).1 := by
  unfold scoreEducation DimResult.ScaledBy
  simp only [hp, numOr_scaled req.weight k 25 25 hk hw]
  split_ifs <;> simp only [mul_zero, true_and, and_true, and_self] <;>
    first
      | ring1
      | (rw [mul_min_of_nonneg _ _ hk.le]; congr 1; ring1)

theorem scoreExperience_scaled (e e1 : ScoringEngine) (req : ExperienceReq) (k : ℚ)
    (hk : 0 < k) (hw : optPos req.weight = true) (hp : e1.profile = e.profile) :
    DimResult.ScaledBy k (scoreExperience e req).1
      (scoreExperience e1 { req with weight := req.weight.map (fun w => k * w) }).1 := by
  unfold scoreExperience DimResult.ScaledBy
  simp only [hp, numOr_scaled req.weight k 20 20 hk hw]
  split_ifs <;> simp only [mul_zero, true_and, and_true, and_self] <;> ring1

theorem scoreSalary_scaled (e e1 : ScoringEngine) (req : SalaryReq) (k : ℚ)
    (hk : 0 < k) (hw : optPos req.weight = true) (hp : e1.profile = e.profile) :
    DimResult.ScaledBy k (scoreSalary e req).1
      (scoreSalary e1 { req with weight := req.weight.map (fun w => k * w) }).1 := by
  unfold scoreSalary DimResult.ScaledBy
  simp only [hp, numOr_scaled req.weight k 25 25 hk hw]
  split_ifs <;> simp only [mul_zero, true_and, and_true, and_self] <;> ring1

theorem scoreJobOffer_scaled (e e1 : ScoringEngine) (req : JobOfferReq) (k : ℚ)
    (hk : 0 < k) (hw : optPos req.weight = true) (hp : e1.profile = e.profile) :
    DimResult.ScaledBy k (scoreJobOffer e req).1
      (scoreJobOffer e1 { req with weight := req.weight.map (fun w => k * w) }).1 := by
  unfold scoreJobOffer DimResult.ScaledBy
  simp only [hp, numOr_scaled req.weight k 20 20 hk hw]
  split_ifs <;> simp only [mul_zero, true_and, and_true, and_self]

theorem scoreLanguage_scaled (e e1 : ScoringEngine) (req : LanguageReq) (k : ℚ)
    (hk : 0 < k) (hw : optPos req.weight = true) (hp : e1.profile = e.profile) :
    DimResult.ScaledBy k (scoreLanguage e req).1
      (scoreLanguage e1 { req with weight := req.weight.map (fun w => k * w) }).1 := by
  unfold scoreLanguage DimResult.ScaledBy
  simp only [hp, numOr_scaled req.weight k 15 15 hk hw]
  split
  · simp only [true_and, and_true, and_self]
  · split_ifs <;> simp only [mul_zero, true_and, and_true, and_self]
    ring1

theorem scoreAge_scaled (e e1 : ScoringEngine) (req : AgeReq) (k : ℚ)
    (hk : 0 < k) (hw : optPos req.weight = true) :
    DimResult.ScaledBy k (scoreAge e req).1
      (scoreAge e1 { req with weight := req.weight.map (fun w => k * w) }).1 := by
  unfold scoreAge DimResult.ScaledBy
  simp only [numOr_scaled req.weight k 10 10 hk hw]
  refine ⟨by ring1, trivial, trivial, trivial⟩

theorem Totals.addScore_scaled (k : ℚ) (t t1 : Totals) (r r1 : DimResult)
    (ht : Totals.ScaledBy k t t1) (hr : DimResult.ScaledBy k r r1) :
    Totals.ScaledBy k (t.addScore r) (t1.addScore r1) := by
  obtain ⟨a, b, c, d⟩ := ht
  obtain ⟨x, y, _, _⟩ := hr
  refine ⟨?_, ?_, c, d⟩
  · simp only [Totals.addScore, a, x]; ring
  · simp only [Totals.addScore, b, y]; ring

theorem Totals.pushHardFail_scaled (k : ℚ) (t t1 : Totals) (r r1 : DimResult)
    (ht : Totals.ScaledBy k t t1) (hr : DimResult.ScaledBy k r r1) :
    Totals.ScaledBy k (t.pushHardFail r) (t1.pushHardFail r1) := by
  obtain ⟨a, b, c, d⟩ := ht
  obtain ⟨_, _, z, _⟩ := hr
  unfold Totals.pushHardFail
  rw [z]
  split_ifs
  · exact ⟨a, b, by simp only [c], d⟩
  · exact ⟨a, b, c, d⟩

theorem Totals.applyCap_scaled (k : ℚ) (t t1 : Totals) (r r1 : DimResult)
    (ht : Totals.ScaledBy k t t1) (hr : DimResult.ScaledBy k r r1) :
    Totals.ScaledBy k (t.applyCap r) (t1.applyCap r1) := by
  obtain ⟨a, b, c, d⟩ := ht
  obtain ⟨_, _, _, u⟩ := hr
  unfold Totals.applyCap
  rw [u]
  split_ifs
  · exact ⟨a, b, c, by simp only [d]⟩
  · exact ⟨a, b, c, d⟩

theorem positiveWeights_fields (r : Requirements) (h : r.positiveWeights = true) :
    (∀ q, r.education = some q → optPos q.weight = true) ∧
    (∀ q, r.experience = some q → optPos q.weight = true) ∧
    (∀ q, r.salary = some q → optPos q.weight = true) ∧
    (∀ q, r.jobOffer = some q → optPos q.weight = true) ∧
    (∀ q, r.language = some q → optPos q.weight = true) ∧
    (∀ q, r.age = some q → optPos q.weight = true) := by
  unfold Requirements.positiveWeights at h
  simp only [Bool.and_eq_true] at h
  obtain ⟨⟨⟨⟨⟨h1, h2⟩, h3⟩, h4⟩, h5⟩, h6⟩ := h
  refine ⟨?_, ?_, ?_, ?_, ?_, ?_⟩ <;> intro q hq
  · rw [hq] at h1; exact h1
  · rw [hq] at h2; exact h2
  · rw [hq] at h3; exact h3
  · rw [hq] at h4; exact h4
  · rw [hq] at h5; exact h5
  · rw [hq] at h6; exact h6

theorem stepEducation_scaled (k : ℚ) (hk : 0 < k) (s s1 : Totals × ScoringEngine)
    (hpos : s.2.requirements.positiveWeights = true) (h : ScaledState k s s1) :
    ScaledState k (stepEducation s) (stepEducation s1) := by
  obtain ⟨ht, hp, hv, hr⟩ := h
  have hs := stepEducation_same s
  have hs1 := stepEducation_same s1
  refine ⟨?_, ?_, ?_, ?_⟩
  · unfold stepEducation
    rw [hr]
    cases hq : s.2.requirements.education with
    | none => simpa [scaleWeights, hq] using ht
    | some q =>
      have hw := (positiveWeights_fields _ hpos).1 q hq
      have hd := scoreEducation_scaled s.2 s1.2 q k hk hw hp
      simp only [scaleWeights, hq, Option.map_some']
      exact Totals.applyCap_scaled k _ _ _ _
        (Totals.pushHardFail_scaled k _ _ _ _ (Totals.addScore_scaled k _ _ _ _ ht hd) hd) hd
  · rw [hs1.2.2.1, hs.2.2.1, hp]
  · rw [hs1.2.1, hs.2.1, hv]
  · rw [hs1.2.2.2.2.1, hs.2.2.2.2.1, hr]

theorem stepExperience_scaled (k : ℚ) (hk : 0 < k) (s s1 : Totals × ScoringEngine)
    (hpos : s.2.requirements.positiveWeights = true) (h : ScaledState k s s1) :
    ScaledState k (stepExperience s) (stepExperience s1) := by
  obtain ⟨ht, hp, hv, hr⟩ := h
  have hs := stepExperience_same s
  have hs1 := stepExperience_same s1
  refine ⟨?_, ?_, ?_, ?_⟩
  · unfold stepExperience
    rw [hr]
    cases hq : s.2.requirements.experience with
    | none => simpa [scaleWeights, hq] using ht
    | some q =>
      have hw := (positiveWeights_fields _ hpos).2.1 q hq
      have hd := scoreExperience_scaled s.2 s1.2 q k hk hw hp
      simp only [scaleWeights, hq, Option.map_some']
      exact Totals.addScore_scaled k _ _ _ _ ht hd
  · rw [hs1.2.2.1, hs.2.2.1, hp]
  · rw [hs1.2.1, hs.2.1, hv]
  · rw [hs1.2.2.2.2.1, hs.2.2.2.2.1, hr]

theorem stepSalary_scaled (k : ℚ) (hk : 0 < k) (s s1 : Totals × ScoringEngine)
    (hpos : s.2.requirements.positiveWeights = true) (h : ScaledState k s s1) :
    ScaledState k (stepSalary s) (stepSalary s1) := by
  obtain ⟨ht, hp, hv, hr⟩ := h
  have hs := stepSalary_same s
  have hs1 := stepSalary_same s1
  refine ⟨?_, ?_, ?_, ?_⟩
  · unfold stepSalary
    rw [hr]
    cases hq : s.2.requirements.salary with
    | none => simpa [scaleWeights, hq] using ht
    | some q =>
      have hw := (positiveWeights_fields _ hpos).2.2.1 q hq
      have hd := scoreSalary_scaled s.2 s1.2 q k hk hw hp
      simp only [scaleWeights, hq, Option.map_some']
      exact Totals.applyCap_scaled k _ _ _ _
        (Totals.pushHardFail_scaled k _ _ _ _ (Totals.addScore_scaled k _ _ _ _ ht hd) hd) hd
  · rw [hs1.2.2.1, hs.2.2.1, hp]
  · rw [hs1.2.1, hs.2.1, hv]
  · rw [hs1.2.2.2.2.1, hs.2.2.2.2.1, hr]

theorem stepJobOffer_scaled (k : ℚ) (hk : 0 < k) (s s1 : Totals × ScoringEngine)
    (hpos : s.2.requirements.positiveWeights = true) (h : ScaledState k s s1) :
    ScaledState k (stepJobOffer s) (stepJobOffer s1) := by
  obtain ⟨ht, hp, hv, hr⟩ := h
  have hs := stepJobOffer_same s
  have hs1 := stepJobOffer_same s1
  refine ⟨?_, ?_, ?_, ?_⟩
  · unfold stepJobOffer
    rw [hr]
    cases hq : s.2.requirements.jobOffer with
    | none => simpa [scaleWeights, hq] using ht
    | some q =>
      have hw := (positiveWeights_fields _ hpos).2.2.2.1 q hq
      have hd := scoreJobOffer_scaled s.2 s1.2 q k hk hw hp
      simp only [scaleWeights, hq, Option.map_some']
      exact Totals.pushHardFail_scaled k _ _ _ _ (Totals.addScore_scaled k _ _ _ _ ht hd) hd
  · rw [hs1.2.2.1, hs.2.2.1, hp]
  · rw [hs1.2.1, hs.2.1, hv]
  · rw [hs1.2.2.2.2.1, hs.2.2.2.2.1, hr]

theorem stepLanguage_scaled (k : ℚ) (hk : 0 < k) (s s1 : Totals × ScoringEngine)
    (hpos : s.2.requirements.positiveWeights = true) (h : ScaledState k s s1) :
    ScaledState k (stepLanguage s) (stepLanguage s1) := by
  obtain ⟨ht, hp, hv, hr⟩ := h
  have hs := stepLanguage_same s
  have hs1 := stepLanguage_same s1
  refine ⟨?_, ?_, ?_, ?_⟩
  · unfold stepLanguage
    rw [hr]
    cases hq : s.2.requirements.language with
    | none => simpa [scaleWeights, hq] using ht
    | some q =>
      have hw := (positiveWeights_fields _ hpos).2.2.2.2.1 q hq
      have hd := scoreLanguage_scaled s.2 s1.2 q k hk hw hp
      simp only [scaleWeights, hq, Option.map_some']
      exact Totals.pushHardFail_scaled k _ _ _ _ (Totals.addScore_scaled k _ _ _ _ ht hd) hd
  · rw [hs1.2.2.1, hs.2.2.1, hp]
  · rw [hs1.2.1, hs.2.1, hv]
  · rw [hs1.2.2.2.2.1, hs.2.2.2.2.1, hr]

theorem stepAge_scaled (k : ℚ) (hk : 0 < k) (s s1 : Totals × ScoringEngine)
    (hpos : s.2.requirements.positiveWeights = true) (h : ScaledState k s s1) :
    ScaledState k (stepAge s) (stepAge s1) := by
  obtain ⟨ht, hp, hv, hr⟩ := h
  have hs := stepAge_same s
  have hs1 := stepAge_same s1
  refine ⟨?_, ?_, ?_, ?_⟩
  · unfold stepAge
    rw [hr]
    cases hq : s.2.requirements.age with
    | none => simpa [scaleWeights, hq] using ht
    | some q =>
      have hw := (positiveWeights_fields _ hpos).2.2.2.2.2 q hq
      have hd := scoreAge_scaled s.2 s1.2 q k hk hw
      simp only [scaleWeights, hq, Option.map_some']
      exact Totals.addScore_scaled k _ _ _ _ ht hd
  · rw [hs1.2.2.1, hs.2.2.1, hp]
  · rw [hs1.2.1, hs.2.1, hv]
  · rw [hs1.2.2.2.2.1, hs.2.2.2.2.1, hr]

theorem positiveWeights_of_same (e e1 : ScoringEngine) (h : SameInputs e e1)
    (hpos : e.requirements.positiveWeights = true) :
    e1.requirements.positiveWeights = true := by
  rw [h.2.2.2.2.1]
  exact hpos

theorem scoreDimensions_scaled (k : ℚ) (hk : 0 < k) (e e1 : ScoringEngine)
    (hpos : e.requirements.positiveWeights = true) (hp : e1.profile = e.profile)
    (hv : e1.visaType = e.visaType) (hr : e1.requirements = scaleWeights k e.requirements) :
    ScaledState k (scoreDimensions e) (scoreDimensions e1) := by
  unfold scoreDimensions
  have h0 : ScaledState k (({}, e) : Totals × ScoringEngine) ({}, e1) := by
    refine ⟨⟨?_, ?_, rfl, rfl⟩, hp, hv, hr⟩ <;> simp
  have s1 := stepEducation_same ({}, e)
  have s2 := s1.trans (stepExperience_same _)
  have s3 := s2.trans (stepSalary_same _)
  have s4 := s3.trans (stepJobOffer_same _)
  have s5 := s4.trans (stepLanguage_same _)
  have g1 := stepEducation_scaled k hk _ _ hpos h0
  have g2 := stepExperience_scaled k hk _ _ (positiveWeights_of_same _ _ s1 hpos) g1
  have g3 := stepSalary_scaled k hk _ _ (positiveWeights_of_same _ _ s2 hpos) g2
  have g4 := stepJobOffer_scaled k hk _ _ (positiveWeights_of_same _ _ s3 hpos) g3
  have g5 := stepLanguage_scaled k hk _ _ (positiveWeights_of_same _ _ s4 hpos) g4
  exact stepAge_scaled k hk _ _ (positiveWeights_of_same _ _ s5 hpos) g5

theorem normalize_scaled (k : ℚ) (hk : 0 < k) (t t1 : Totals) (h : Totals.ScaledBy k t t1) :
    normalize t1 = normalize t := by
  obtain ⟨a, b, _, _⟩ := h
  unfold normalize
  rw [a, b]
  by_cases hw : t.totalWeight > 0
  · have hw1 : k * t.totalWeight > 0 := mul_pos hk hw
    rw [if_pos hw, if_pos hw1, mul_div_mul_left _ _ (ne_of_gt hk)]
  · have hw1 : ¬ k * t.totalWeight > 0 := by
      intro hc
      exact hw (pos_of_mul_pos_right hc hk.le)
    rw [if_neg hw, if_neg hw1]

theorem finalNormalized_scaled (k : ℚ) (hk : 0 < k) (t t1 : Totals)
    (h : Totals.ScaledBy k t t1) : finalNormalized t1 = finalNormalized t := by
  have hn := normalize_scaled k hk t t1 h
  obtain ⟨_, _, c, d⟩ := h
  unfold finalNormalized afterHardFailCap
  rw [hn, c, d]

/-- In exact arithmetic the engine normalises weights: for every requirement set
with positive weights, every profile, every country and visa type and every
factor `k > 0`, `calculateScore` returns a result both under the requirement set
and under the set with all weights multiplied by `k`, and the two results have
the same score and the same `isPassing`. -/
theorem weights_normalised_exact (country visaType : String) (profile : Profile)
    (x : Option ExtractionResults) (requirements : Requirements) (k : ℚ) (hk : 0 < k)
    (hpos : requirements.positiveWeights = true) :
    ∃ r r1 e e1,
      calculateScore (freshEngine country visaType profile x requirements) = Except.ok (r, e) ∧
      calculateScore (freshEngine country visaType profile x (scaleWeights k requirements))
        = Except.ok (r1, e1) ∧
      r1.score = r.score ∧ r1.isPassing = r.isPassing := by
  obtain ⟨r, e, hr, hscore, hpass, _⟩ :=
    calculateScore_ok (freshEngine country visaType profile x requirements) [] rfl
  obtain ⟨r1, e1, hr1, hscore1, hpass1, _⟩ :=
    calculateScore_ok (freshEngine country visaType profile x (scaleWeights k requirements)) []
      rfl
  have hs := scoreDimensions_scaled k hk
    (started (freshEngine country visaType profile x requirements) [])
    (started (freshEngine country visaType profile x (scaleWeights k requirements)) [])
    hpos rfl rfl rfl
  have hf := finalNormalized_scaled k hk _ _ hs.1
  refine ⟨r, r1, e, e1, hr, hr1, ?_, ?_⟩
  · rw [hscore1, hscore, hf]
  · rw [hpass1, hpass, hf]
    rfl

/-! ### The consolidated profile of the document extractor -/

/-- C23: a failed extraction is not treated as unknown.  For every `results`
object, `buildConsolidatedProfile` returns `jobOffer.hasOffer = true` whatever
object is stored as `results.jobOffer`, and one language entry with
`verified = true` whatever object is stored as `results.languageCert`; with the
marker `{ extractionFailed: true }` stored for a failed extraction, the profile
has `jobOffer.hasOffer = true` and the language entry `{ verified: true }`, while
its `dataQuality` flags `jobOfferVerified` and `languageVerified` are `false`. -/
theorem C23_failed_extraction_counted (results : ExtractionData) (offer : JobOfferData)
    (cert : LanguageCertData) :
    (buildConsolidatedProfile { results with jobOffer := some offer }).jobOffer.hasOffer
        = true ∧
      (buildConsolidatedProfile { results with languageCert := some cert }).languages.map
        (fun l => l.verified) = [true] ∧
      (buildConsolidatedProfile { results with jobOffer := some failedJobOffer }).jobOffer.hasOffer
        = true ∧
      (buildConsolidatedProfile
        { results with jobOffer := some failedJobOffer }).dataQuality.jobOfferVerified = false ∧
      (buildConsolidatedProfile
        { results with languageCert := some failedLanguageCert }).languages
        = [{ verified := true }] ∧
      (buildConsolidatedProfile
        { results with languageCert := some failedLanguageCert }).dataQuality.languageVerified
        = false := by
  refine ⟨rfl, rfl, rfl, rfl, rfl, rfl⟩

/-! ### The rule-based component of the `/evaluate` handler -/

/-- C24: the rule-based component exceeds 70 under the default scoring.  For
Germany and the visa type "Digital Nomad Visa" the handler finds no visa config;
for a profile with a degree, three years of experience, four skills, one
language and a job offer `calculateDefaultScore` returns 90 while the maxima of
`getDefaultBreakdown` sum to 65, so `normalizedRuleScore` is 90 / 65 × 70 =
1260 / 13, above 70; the AI score itself lies in [0, 30] for all counts of
strengths and weaknesses. -/
theorem C24_default_rule_score_exceeds_70 :
    Route.usesVisaConfig "Germany" "Digital Nomad Visa" = false ∧
      Route.calculateDefaultScore fullRouteProfile = 90 ∧
      Route.totalMaxScore (Route.getDefaultBreakdown fullRouteProfile) = 65 ∧
      Route.defaultRuleComponent fullRouteProfile = 1260 / 13 ∧
      70 < Route.defaultRuleComponent fullRouteProfile ∧
      (∀ strengthCount weaknessCount : ℕ,
        0 ≤ Route.aiScore strengthCount weaknessCount ∧
          Route.aiScore strengthCount weaknessCount ≤ 30) := by
  refine ⟨by decide!, by decide!, by decide!, by decide!, by decide!, ?_⟩
  intro s w
  unfold Route.aiScore
  exact ⟨le_min (by norm_num) (le_max_left _ _), min_le_left _ _⟩

/-! ### Passing and the rounded score -/

theorem mathRound_ge_of_int_le (x : ℚ) (n : ℤ) (h : (n : ℚ) ≤ x) : n ≤ mathRound x := by
  unfold mathRound
  apply Int.le_floor.mpr
  linarith

theorem getPassingScore_int (e : ScoringEngine) : ∃ n : ℤ, getPassingScore e = n := by
  unfold getPassingScore
  split
  · exact ⟨67, by norm_num⟩
  · exact ⟨60, by norm_num⟩
  · exact ⟨60, by norm_num⟩
  · exact ⟨65, by norm_num⟩
  · exact ⟨70, by norm_num⟩
  · exact ⟨60, by norm_num⟩

/-- C25: for every result of `calculateScore`, `isPassing = true` implies that
the reported integer score is at least `passingScore`. -/
theorem C25_passing_implies_score (e0 : ScoringEngine)
    (out : EvaluationResult × ScoringEngine) (hcalc : calculateScore e0 = Except.ok out)
    (hpass : out.1.isPassing = true) : out.1.passingScore ≤ (out.1.score : ℚ) := by
  cases hl : e0.scoringLog with
  | none =>
    unfold calculateScore ScoringEngine.log at hcalc
    rw [hl] at hcalc
    cases hcalc
  | some entries =>
    obtain ⟨r, e3, hr, hscore, hisp, hps, _⟩ := calculateScore_ok e0 entries hl
    rw [hr] at hcalc
    simp only [Except.ok.injEq] at hcalc
    subst hcalc
    simp only at hpass ⊢
    rw [hisp, decide_eq_true_eq] at hpass
    obtain ⟨n, hn⟩ := getPassingScore_int e0
    rw [hps, hscore, hn]
    rw [hn] at hpass
    exact_mod_cast mathRound_ge_of_int_le _ n hpass

/-- Instance of C25 at the Germany EU Blue Card with the scenario profile. -/
theorem C25_passing_implies_score_witness :
    scenarioOutput.1.passingScore ≤ (scenarioOutput.1.score : ℚ) :=
  C25_passing_implies_score
    (freshEngine "Germany" "EU Blue Card" scenarioProfile none euBlueCard) scenarioOutput
    (by decide!) (by decide!)

/-! ### Monotonicity of the experience score -/

theorem scoreExperience_score_congr (e1 e2 : ScoringEngine) (req : ExperienceReq)
    (h : experienceYears e1.profile = experienceYears e2.profile) :
    (scoreExperience e1 req).1.score = (scoreExperience e2 req).1.score := by
  unfold scoreExperience
  simp only [h]
  split_ifs <;> rfl

theorem scoreExperience_branch2 (e : ScoringEngine) (req : ExperienceReq)
    (h0 : ¬ (experienceYears e.profile = 0 ∧ req.required = true))
    (h1 : ¬ experienceYears e.profile ≥ numOr req.recommended 5)
    (h2 : experienceYears e.profile ≥ numOr req.minYears 0) :
    (scoreExperience e req).1.score
      = numOr req.weight 20 * (0.6 + (experienceYears e.profile - numOr req.minYears 0)
          / (numOr req.recommended 5 - numOr req.minYears 0) * 0.4) := by
  unfold scoreExperience
  simp only [h0, h1, h2, if_false, if_true]

theorem scoreExperience_branch3 (e : ScoringEngine) (req : ExperienceReq)
    (h0 : ¬ (experienceYears e.profile = 0 ∧ req.required = true))
    (h1 : ¬ experienceYears e.profile ≥ numOr req.recommended 5)
    (h2 : ¬ experienceYears e.profile ≥ numOr req.minYears 0)
    (h3 : experienceYears e.profile > 0) :
    (scoreExperience e req).1.score
      = numOr req.weight 20 * (experienceYears e.profile / numOr req.minYears 0) * 0.5 := by
  unfold scoreExperience
  simp only [h0, h1, h2, h3, if_false, if_true]

theorem scoreExperience_full (e : ScoringEngine) (req : ExperienceReq)
    (h0 : ¬ (experienceYears e.profile = 0 ∧ req.required = true))
    (h1 : experienceYears e.profile ≥ numOr req.recommended 5) :
    (scoreExperience e req).1.score = numOr req.weight 20 := by
  unfold scoreExperience
  simp only [h0, h1, if_false, if_true]

theorem scoreExperience_required_zero (e : ScoringEngine) (req : ExperienceReq)
    (h0 : experienceYears e.profile = 0 ∧ req.required = true) :
    (scoreExperience e req).1.score = 0 := by
  unfold scoreExperience
  simp only [h0, and_self, if_true]

/-- C26: for every experience requirement with positive weight, `scoreExperience`
is monotone in the years of experience: for two engine states whose profiles
carry years 0 ≤ y1 ≤ y2, the score for y2 is at least the score for y1; and on
the path that divides by `recommended - minYears` that difference is not zero,
and on the path that divides by `minYears` that value is not zero. -/
theorem C26_experience_monotone (e1 e2 : ScoringEngine) (req : ExperienceReq)
    (hw : 0 < numOr req.weight 20) (h0 : 0 ≤ experienceYears e1.profile)
    (hle : experienceYears e1.profile ≤ experienceYears e2.profile) :
    (scoreExperience e1 req).1.score ≤ (scoreExperience e2 req).1.score ∧
    (∀ e : ScoringEngine, ¬ experienceYears e.profile ≥ numOr req.recommended 5 →
      experienceYears e.profile ≥ numOr req.minYears 0 →
      numOr req.recommended 5 - numOr req.minYears 0 ≠ 0) ∧
    (∀ e : ScoringEngine, ¬ experienceYears e.profile ≥ numOr req.minYears 0 →
      experienceYears e.profile > 0 → numOr req.minYears 0 ≠ 0) := by
  refine ⟨?_, ?_, ?_⟩
  · have hb1 := scoreExperience_bounds e1 req hw.le
    have hb2 := scoreExperience_bounds e2 req hw.le
    have hmax1 : (scoreExperience e1 req).1.maxScore = numOr req.weight 20 := by
      unfold scoreExperience
      simp only
      split_ifs <;> rfl
    rw [hmax1] at hb1
    by_cases hz2 : experienceYears e2.profile = 0 ∧ req.required = true
    · have hy : experienceYears e1.profile = experienceYears e2.profile := by
        rw [hz2.1] at hle ⊢
        exact le_antisymm hle h0
      exact le_of_eq (scoreExperience_score_congr e1 e2 req hy)
    by_cases hr2 : experienceYears e2.profile ≥ numOr req.recommended 5
    · rw [scoreExperience_full e2 req hz2 hr2]
      exact hb1.2
    have hr1 : ¬ experienceYears e1.profile ≥ numOr req.recommended 5 := by
      rw [ge_iff_le, not_le] at hr2 ⊢
      linarith
    by_cases hz1 : experienceYears e1.profile = 0 ∧ req.required = true
    · rw [scoreExperience_required_zero e1 req hz1]
      exact hb2.1
    by_cases hm2 : experienceYears e2.profile ≥ numOr req.minYears 0
    · rw [scoreExperience_branch2 e2 req hz2 hr2 hm2]
      have hden : 0 < numOr req.recommended 5 - numOr req.minYears 0 := by
        rw [ge_iff_le, not_le] at hr2
        linarith
      by_cases hm1 : experienceYears e1.profile ≥ numOr req.minYears 0
      · rw [scoreExperience_branch2 e1 req hz1 hr1 hm1]
        have hdiv : (experienceYears e1.profile - numOr req.minYears 0)
            / (numOr req.recommended 5 - numOr req.minYears 0)
            ≤ (experienceYears e2.profile - numOr req.minYears 0)
              / (numOr req.recommended 5 - numOr req.minYears 0) :=
          div_le_div_of_nonneg_right (by linarith) hden.le
        apply mul_le_mul_of_nonneg_left _ hw.le
        linarith
      · have hratio : 0 ≤ (experienceYears e2.profile - numOr req.minYears 0)
            / (numOr req.recommended 5 - numOr req.minYears 0) :=
          div_nonneg (by linarith) hden.le
        have hlow : numOr req.weight 20 * 0.6
            ≤ numOr req.weight 20 * (0.6 + (experienceYears e2.profile - numOr req.minYears 0)
              / (numOr req.recommended 5 - numOr req.minYears 0) * 0.4) := by
          apply mul_le_mul_of_nonneg_left _ hw.le
          linarith
        by_cases hp1 : experienceYears e1.profile > 0
        · rw [scoreExperience_branch3 e1 req hz1 hr1 hm1 hp1]
          rw [ge_iff_le, not_le] at hm1
          have hmpos : 0 < numOr req.minYears 0 := lt_trans hp1 hm1
          have hfrac : experienceYears e1.profile / numOr req.minYears 0 ≤ 1 := by
            rw [div_le_one hmpos]
            exact hm1.le
          have : numOr req.weight 20 * (experienceYears e1.profile / numOr req.minYears 0)
              ≤ numOr req.weight 20 * 1 := mul_le_mul_of_nonneg_left hfrac hw.le
          linarith
        · have hs : (scoreExperience e1 req).1.score = 0 := by
            unfold scoreExperience
            simp only [hz1, hr1, hm1, hp1, if_false]
          rw [hs]
          linarith
    · by_cases hp2 : experienceYears e2.profile > 0
      · rw [scoreExperience_branch3 e2 req hz2 hr2 hm2 hp2]
        have hm2' : experienceYears e2.profile < numOr req.minYears 0 := not_le.mp hm2
        have hmpos : 0 < numOr req.minYears 0 := lt_trans hp2 hm2'
        have hm1 : ¬ experienceYears e1.profile ≥ numOr req.minYears 0 := by
          rw [ge_iff_le, not_le]
          linarith
        by_cases hp1 : experienceYears e1.profile > 0
        · rw [scoreExperience_branch3 e1 req hz1 hr1 hm1 hp1]
          have hdiv : experienceYears e1.profile / numOr req.minYears 0
              ≤ experienceYears e2.profile / numOr req.minYears 0 :=
            div_le_div_of_nonneg_right hle hmpos.le
          have : numOr req.weight 20 * (experienceYears e1.profile / numOr req.minYears 0)
              ≤ numOr req.weight 20 * (experienceYears e2.profile / numOr req.minYears 0) :=
            mul_le_mul_of_nonneg_left hdiv hw.le
          linarith
        · have hs : (scoreExperience e1 req).1.score = 0 := by
            unfold scoreExperience
            simp only [hz1, hr1, hm1, hp1, if_false]
          rw [hs]
          exact mul_nonneg (mul_nonneg hw.le (div_nonneg hp2.le hmpos.le)) (by norm_num)
      · have hy : experienceYears e1.profile = experienceYears e2.profile := by
          have h2 : experienceYears e2.profile ≤ 0 := not_lt.mp hp2
          linarith
        exact le_of_eq (scoreExperience_score_congr e1 e2 req hy)
  · intro e h1 h2
    rw [ge_iff_le, not_le] at h1
    have : 0 < numOr req.recommended 5 - numOr req.minYears 0 := by linarith
    exact ne_of_gt this
  · intro e h1 h2
    rw [ge_iff_le, not_le] at h1
    have : 0 < numOr req.minYears 0 := lt_trans h2 h1
    exact ne_of_gt this

/-- Instance of C26 at the experience requirement of the Australia Skilled
Independent visa, for two and four years of experience. -/
theorem C26_experience_monotone_witness :
    (scoreExperience
        (freshEngine "Australia" "Skilled Independent (189)"
          { experience := some { totalYears := some 2 } } none {}) australiaExperience).1.score
      ≤ (scoreExperience
        (freshEngine "Australia" "Skilled Independent (189)"
          { experience := some { totalYears := some 4 } } none {}) australiaExperience).1.score :=
  (C26_experience_monotone
    (freshEngine "Australia" "Skilled Independent (189)"
      { experience := some { totalYears := some 2 } } none {})
    (freshEngine "Australia" "Skilled Independent (189)"
      { experience := some { totalYears := some 4 } } none {})
    australiaExperience (by decide!) (by decide!) (by decide!)).1

/-! ### Optional experience without a minimum -/

/-- C27: for an experience requirement that is not required and sets no
`minYears`, with positive recommended years `req.recommended || 5`, a profile
with zero or missing years of experience receives exactly 60% of the experience
weight `req.weight || 20` and the entry "Experience: 0 years" in
`metRequirements`. -/
theorem C27_optional_zero_years (e : ScoringEngine) (req : ExperienceReq)
    (hreq : req.required = false) (hmin : req.minYears = none)
    (hrec : 0 < numOr req.recommended 5) (hy : experienceYears e.profile = 0) :
    (scoreExperience e req).1.score = 0.6 * numOr req.weight 20 ∧
      (scoreExperience e req).2.metRequirements
        = e.metRequirements ++ [Msg.experienceMet 0] := by
  have h1 : ¬ (0 : ℚ) ≥ numOr req.recommended 5 := not_le.mpr hrec
  have hm : numOr req.minYears 0 = 0 := by rw [hmin]; rfl
  unfold scoreExperience
  simp only [hy, hreq, hm, h1, Bool.false_eq_true, and_false, if_false, ge_iff_le,
    le_refl, if_true, sub_zero, zero_div, zero_mul, add_zero, and_true]
  ring

/-- Instance of C27 at the experience requirement of the Germany EU Blue Card
with the empty profile. -/
theorem C27_optional_zero_years_witness :
    (scoreExperience (freshEngine "Germany" "EU Blue Card" {} none euBlueCard)
        (euBlueCard.experience.getD {})).1.score
        = 0.6 * numOr (euBlueCard.experience.getD {}).weight 20 ∧
      (scoreExperience (freshEngine "Germany" "EU Blue Card" {} none euBlueCard)
        (euBlueCard.experience.getD {})).2.metRequirements
        = [] ++ [Msg.experienceMet 0] :=
  C27_optional_zero_years (freshEngine "Germany" "EU Blue Card" {} none euBlueCard)
    (euBlueCard.experience.getD {}) (by decide!) (by decide!) (by decide!) (by decide!)

/-! ### What the language, salary and age scores depend on -/

theorem find_verified_eq_none (l : List Language) (h : l.any (fun x => x.verified) = false) :
    l.find? (fun x => x.verified) = none := by
  rw [List.find?_eq_none]
  intro x hx
  simp only [List.any_eq_false] at h
  simpa using h x hx

theorem find_verified_isSome (l : List Language) (h : l.any (fun x => x.verified) = true) :
    ∃ x, l.find? (fun x => x.verified) = some x := by
  cases hf : l.find? (fun x => x.verified) with
  | some x => exact ⟨x, rfl⟩
  | none =>
    rw [List.find?_eq_none] at hf
    simp only [List.any_eq_true] at h
    obtain ⟨x, hx, hv⟩ := h
    exact absurd hv (hf x hx)

/-- The score and hard fail of `scoreLanguage` in terms of the weight, the
required flag and the verified flags alone. -/
theorem scoreLanguage_formula (e : ScoringEngine) (req : LanguageReq) :
    (scoreLanguage e req).1.score
        = (if (e.profile.languages.getD []).any (fun l => l.verified) then numOr req.weight 15
           else if (e.profile.languages.getD []).length > 0 then numOr req.weight 15 * 0.5
           else 0) ∧
      (scoreLanguage e req).1.maxScore = numOr req.weight 15 ∧
      (scoreLanguage e req).1.hardFail
        = (if (e.profile.languages.getD []).any (fun l => l.verified) then none
           else if (e.profile.languages.getD []).length > 0 then none
           else if req.required then some "Language certification required"
           else none) := by
  cases hany : (e.profile.languages.getD []).any (fun l => l.verified) with
  | true =>
    obtain ⟨x, hx⟩ := find_verified_isSome _ hany
    unfold scoreLanguage
    simp only [hx, if_true]
    exact ⟨trivial, trivial, trivial⟩
  | false =>
    have hx := find_verified_eq_none _ hany
    unfold scoreLanguage
    simp only [hx, Bool.false_eq_true, if_false]
    split_ifs <;> exact ⟨rfl, rfl, rfl⟩

/-- C28: the score of `scoreLanguage` is the full weight if some language entry
is verified, half the weight if the list is non-empty with no verified entry
and 0 if the list is empty; two requirements with the same weight and required
flag, whatever their minima, and two profiles whose language entries carry the
same verified flags, whatever their proficiency or test score, get the same
score, maximum score and hard fail. -/
theorem C28_language_depends_on_verified (e : ScoringEngine) (req : LanguageReq) :
    (scoreLanguage e req).1.score
        = (if (e.profile.languages.getD []).any (fun l => l.verified) then numOr req.weight 15
           else if (e.profile.languages.getD []).length > 0 then numOr req.weight 15 * 0.5
           else 0) ∧
    (∀ (e1 : ScoringEngine) (req1 : LanguageReq),
      req1.weight = req.weight → req1.required = req.required →
      (e1.profile.languages.getD []).map (fun l => l.verified)
        = (e.profile.languages.getD []).map (fun l => l.verified) →
      (scoreLanguage e1 req1).1.score = (scoreLanguage e req).1.score ∧
      (scoreLanguage e1 req1).1.maxScore = (scoreLanguage e req).1.maxScore ∧
      (scoreLanguage e1 req1).1.hardFail = (scoreLanguage e req).1.hardFail) := by
  refine ⟨(scoreLanguage_formula e req).1, ?_⟩
  intro e1 req1 hw hr hl
  have hany : (e1.profile.languages.getD []).any (fun l => l.verified)
      = (e.profile.languages.getD []).any (fun l => l.verified) := by
    have h1 : ∀ l : List Language,
        l.any (fun x => x.verified) = (l.map (fun x => x.verified)).any id := by
      intro l
      induction l with
      | nil => rfl
      | cons a t ih => simp [List.any_cons, ih]
    rw [h1, h1, hl]
  have hlen : (e1.profile.languages.getD []).length = (e.profile.languages.getD []).length := by
    have := congrArg List.length hl
    simpa using this
  obtain ⟨a1, a2, a3⟩ := scoreLanguage_formula e1 req1
  obtain ⟨b1, b2, b3⟩ := scoreLanguage_formula e req
  rw [a1, a2, a3, b1, b2, b3, hany, hlen, hw, hr]
  exact ⟨rfl, rfl, rfl⟩

/-- Instance of C28: a verified entry with proficiency B1 under a requirement
with `minCLB = 7`, and a verified entry with score 9 under a requirement with
`minIELTS = 6`, both of weight 20, score alike. -/
theorem C28_language_depends_on_verified_witness :
    (scoreLanguage (freshEngine "Canada" "Express Entry"
        { languages := some [{ proficiency := some "B1", verified := true }] } none {})
        { required := true, weight := some 20, minCLB := some 7 }).1.score
      = (scoreLanguage (freshEngine "Canada" "Express Entry"
        { languages := some [{ score := some 9, verified := true }] } none {})
        { required := true, weight := some 20, minIELTS := some 6 }).1.score :=
  ((C28_language_depends_on_verified
    (freshEngine "Canada" "Express Entry"
      { languages := some [{ score := some 9, verified := true }] } none {})
    { required := true, weight := some 20, minIELTS := some 6 }).2
    (freshEngine "Canada" "Express Entry"
      { languages := some [{ proficiency := some "B1", verified := true }] } none {})
    { required := true, weight := some 20, minCLB := some 7 } rfl rfl rfl).1

/-- C29: the salary result does not depend on currency: for two profiles that
differ only in `salary.currency` and two requirements that differ only in
`currency`, `scoreSalary` returns the same result, in particular the same score
and the same `scoreCap`. -/
theorem C29_salary_ignores_currency (e : ScoringEngine) (req : SalaryReq)
    (amount : Option ℚ) (verified : Bool) (c1 c2 r1 r2 : Option String) :
    (scoreSalary { e with profile := { e.profile with
          salary := some (Salary.object amount c1 verified) } }
        { req with currency := r1 }).1
      = (scoreSalary { e with profile := { e.profile with
          salary := some (Salary.object amount c2 verified) } }
        { req with currency := r2 }).1 := by
  unfold scoreSalary
  simp only [salaryAmount, salaryVerified]
  split_ifs <;> rfl

/-- C30: `scoreAge` returns exactly 70% of the age weight `req.weight || 10`,
with that weight as maximum score, for every profile and every age requirement;
the result is the same for every other engine state and every requirement of
the same weight, whatever the age of the profile and the `required`, `maxAge`
and `optimalRange` of the requirement. -/
theorem C30_age_fixed_share (e : ScoringEngine) (req : AgeReq) :
    (scoreAge e req).1.score = 0.7 * numOr req.weight 10 ∧
      (scoreAge e req).1.maxScore = numOr req.weight 10 ∧
      (∀ (e1 : ScoringEngine) (req1 : AgeReq), req1.weight = req.weight →
        (scoreAge e1 req1).1 = (scoreAge e req).1) := by
  refine ⟨?_, rfl, ?_⟩
  · unfold scoreAge
    simp only
    ring
  · intro e1 req1 hw
    unfold scoreAge
    rw [hw]

/-! ### Rounding to a double -/

theorem twoPow_eq (e : ℤ) : twoPow e = (2 : ℚ) ^ e := by
  unfold twoPow
  split_ifs with h
  · obtain ⟨n, rfl⟩ := Int.eq_ofNat_of_zero_le h
    simp
  · have h1 : 0 ≤ -e := by omega
    obtain ⟨n, hn⟩ := Int.eq_ofNat_of_zero_le h1
    have he : e = -(n : ℤ) := by omega
    subst he
    simp

theorem twoPow_pos (e : ℤ) : 0 < twoPow e := by
  rw [twoPow_eq]
  positivity

theorem twoPow_add (a b : ℤ) : twoPow (a + b) = twoPow a * twoPow b := by
  simp only [twoPow_eq]
  exact zpow_add₀ (by norm_num) a b

theorem twoPow_lt_iff (a b : ℤ) : twoPow a < twoPow b ↔ a < b := by
  simp only [twoPow_eq]
  exact zpow_lt_zpow_iff_right₀ (by norm_num)

theorem twoPow_le_iff (a b : ℤ) : twoPow a ≤ twoPow b ↔ a ≤ b := by
  simp only [twoPow_eq]
  exact zpow_le_zpow_iff_right₀ (by norm_num)

theorem log2Fuel_eq (fuel n : ℕ) (h : n ≤ fuel) : log2Fuel fuel n = Nat.log 2 n := by
  induction fuel generalizing n with
  | zero =>
    have : n = 0 := by omega
    subst this
    simp [log2Fuel]
  | succ k ih =>
    unfold log2Fuel
    split_ifs with h2
    · rw [Nat.log_of_lt h2]
    · have h3 : 2 ≤ n := by omega
      rw [Nat.log_of_one_lt_of_le (by norm_num) h3]
      rw [ih (n / 2) (by omega)]

theorem floorLog2_spec (n : ℕ) (hn : n ≠ 0) :
    2 ^ floorLog2 n ≤ n ∧ n < 2 ^ (floorLog2 n + 1) := by
  unfold floorLog2
  rw [log2Fuel_eq n n le_rfl]
  exact ⟨Nat.pow_log_le_self 2 hn, Nat.lt_pow_succ_log_self (by norm_num) n⟩

theorem abs_eq_natAbs_div (x : ℚ) : |x| = (x.num.natAbs : ℚ) / (x.den : ℚ) := by
  have h := Rat.num_div_den x
  have hd : (0 : ℚ) < x.den := by exact_mod_cast x.den_pos
  conv_lhs => rw [← h]
  rw [abs_div, abs_of_pos hd]
  rw [Nat.cast_natAbs, Int.cast_abs]

theorem binaryExponent_spec (x : ℚ) (hx : x ≠ 0) :
    twoPow (binaryExponent x) ≤ |x| ∧ |x| < twoPow (binaryExponent x + 1) := by
  have hnum : x.num.natAbs ≠ 0 := by
    simpa using hx
  have hden : x.den ≠ 0 := x.den_nz
  obtain ⟨a1, a2⟩ := floorLog2_spec _ hnum
  obtain ⟨b1, b2⟩ := floorLog2_spec _ hden
  have habs := abs_eq_natAbs_div x
  have hd : (0 : ℚ) < x.den := by exact_mod_cast x.den_pos
  have a1q : (2 : ℚ) ^ (floorLog2 x.num.natAbs : ℤ) ≤ (x.num.natAbs : ℚ) := by
    rw [zpow_natCast]
    exact_mod_cast a1
  have a2q : (x.num.natAbs : ℚ) < (2 : ℚ) ^ ((floorLog2 x.num.natAbs : ℤ) + 1) := by
    have : ((floorLog2 x.num.natAbs : ℤ) + 1) = ((floorLog2 x.num.natAbs + 1 : ℕ) : ℤ) := by
      push_cast; rfl
    rw [this, zpow_natCast]
    exact_mod_cast a2
  have b1q : (2 : ℚ) ^ (floorLog2 x.den : ℤ) ≤ (x.den : ℚ) := by
    rw [zpow_natCast]
    exact_mod_cast b1
  have b2q : (x.den : ℚ) < (2 : ℚ) ^ ((floorLog2 x.den : ℤ) + 1) := by
    have : ((floorLog2 x.den : ℤ) + 1) = ((floorLog2 x.den + 1 : ℕ) : ℤ) := by
      push_cast; rfl
    rw [this, zpow_natCast]
    exact_mod_cast b2
  have two_ne : (2 : ℚ) ≠ 0 := by norm_num
  have hpb : (0 : ℚ) < 2 ^ (floorLog2 x.den : ℤ) := by positivity
  have hpb1 : (0 : ℚ) < 2 ^ ((floorLog2 x.den : ℤ) + 1) := by positivity
  -- upper bound: |x| < 2 ^ (a - b + 1)
  have hup : |x| < (2 : ℚ) ^ ((floorLog2 x.num.natAbs : ℤ) - (floorLog2 x.den : ℤ) + 1) := by
    rw [habs, div_lt_iff₀ hd]
    have e1 : (2 : ℚ) ^ ((floorLog2 x.num.natAbs : ℤ) - (floorLog2 x.den : ℤ) + 1)
        * 2 ^ (floorLog2 x.den : ℤ) = 2 ^ ((floorLog2 x.num.natAbs : ℤ) + 1) := by
      rw [← zpow_add₀ two_ne]
      congr 1
      ring
    calc (x.num.natAbs : ℚ) < 2 ^ ((floorLog2 x.num.natAbs : ℤ) + 1) := a2q
      _ = (2 : ℚ) ^ ((floorLog2 x.num.natAbs : ℤ) - (floorLog2 x.den : ℤ) + 1)
            * 2 ^ (floorLog2 x.den : ℤ) := e1.symm
      _ ≤ _ := by
          apply mul_le_mul_of_nonneg_left b1q
          positivity
  -- lower bound: 2 ^ (a - b - 1) ≤ |x|
  have hlow : (2 : ℚ) ^ ((floorLog2 x.num.natAbs : ℤ) - (floorLog2 x.den : ℤ) - 1) ≤ |x| := by
    rw [habs, le_div_iff₀ hd]
    have e1 : (2 : ℚ) ^ ((floorLog2 x.num.natAbs : ℤ) - (floorLog2 x.den : ℤ) - 1)
        * 2 ^ ((floorLog2 x.den : ℤ) + 1) = 2 ^ (floorLog2 x.num.natAbs : ℤ) := by
      rw [← zpow_add₀ two_ne]
      congr 1
      ring
    calc (2 : ℚ) ^ ((floorLog2 x.num.natAbs : ℤ) - (floorLog2 x.den : ℤ) - 1) * (x.den : ℚ)
        ≤ (2 : ℚ) ^ ((floorLog2 x.num.natAbs : ℤ) - (floorLog2 x.den : ℤ) - 1)
            * 2 ^ ((floorLog2 x.den : ℤ) + 1) := by
          apply mul_le_mul_of_nonneg_left b2q.le
          positivity
      _ = 2 ^ (floorLog2 x.num.natAbs : ℤ) := e1
      _ ≤ _ := a1q
  unfold binaryExponent
  simp only
  split_ifs with h
  · refine ⟨h, ?_⟩
    rw [twoPow_eq]
    exact hup
  · rw [not_le] at h
    refine ⟨?_, ?_⟩
    · rw [twoPow_eq]
      exact hlow
    · rw [sub_add_cancel]
      exact h

theorem binaryExponent_unique (x : ℚ) (e : ℤ) (hx : x ≠ 0)
    (h1 : twoPow e ≤ |x|) (h2 : |x| < twoPow (e + 1)) : binaryExponent x = e := by
  obtain ⟨s1, s2⟩ := binaryExponent_spec x hx
  have l1 : twoPow e < twoPow (binaryExponent x + 1) := lt_of_le_of_lt h1 s2
  have l2 : twoPow (binaryExponent x) < twoPow (e + 1) := lt_of_le_of_lt s1 h2
  rw [twoPow_lt_iff] at l1 l2
  omega

theorem roundHalfEven_floor_or (q : ℚ) :
    (roundHalfEven q = ⌊q⌋ ∧ q - ⌊q⌋ ≤ 1 / 2) ∨ (roundHalfEven q = ⌊q⌋ + 1 ∧ 1 / 2 ≤ q - ⌊q⌋) := by
  unfold roundHalfEven
  simp only
  split_ifs with h1 h2 h3
  · exact Or.inl ⟨rfl, h1.le⟩
  · exact Or.inr ⟨rfl, h2.le⟩
  · exact Or.inl ⟨rfl, not_lt.mp h2⟩
  · exact Or.inr ⟨rfl, not_lt.mp h1⟩

theorem roundHalfEven_intCast (n : ℤ) : roundHalfEven (n : ℚ) = n := by
  unfold roundHalfEven
  simp

theorem roundHalfEven_le_int (q : ℚ) (n : ℤ) (h : q ≤ n) : roundHalfEven q ≤ n := by
  rcases roundHalfEven_floor_or q with ⟨hr, _⟩ | ⟨hr, hf⟩
  · rw [hr]
    exact Int.floor_le_floor h |>.trans (by simp)
  · rw [hr]
    have hlt : ⌊q⌋ < n := by
      by_contra hc
      rw [not_lt] at hc
      have h2 : (n : ℚ) ≤ ⌊q⌋ := by exact_mod_cast hc
      have h3 : (⌊q⌋ : ℚ) ≤ q := Int.floor_le q
      linarith
    omega

theorem roundHalfEven_ge_int (q : ℚ) (n : ℤ) (h : (n : ℚ) ≤ q) : n ≤ roundHalfEven q := by
  have hf : n ≤ ⌊q⌋ := Int.le_floor.mpr h
  rcases roundHalfEven_floor_or q with ⟨hr, _⟩ | ⟨hr, _⟩ <;> omega

theorem roundHalfEven_mono (x y : ℚ) (h : x ≤ y) : roundHalfEven x ≤ roundHalfEven y := by
  have hfl : ⌊x⌋ ≤ ⌊y⌋ := Int.floor_le_floor h
  rcases lt_or_eq_of_le hfl with hlt | heq
  · have h1 : roundHalfEven x ≤ ⌊x⌋ + 1 := by
      rcases roundHalfEven_floor_or x with ⟨hr, _⟩ | ⟨hr, _⟩ <;> omega
    have h2 : ⌊y⌋ ≤ roundHalfEven y := by
      rcases roundHalfEven_floor_or y with ⟨hr, _⟩ | ⟨hr, _⟩ <;> omega
    omega
  · unfold roundHalfEven
    simp only [heq]
    have hxy : x - ⌊y⌋ ≤ y - ⌊y⌋ := by linarith
    split_ifs <;> first | omega | (exfalso; linarith)

theorem roundHalfEven_neg (q : ℚ) : roundHalfEven (-q) = -roundHalfEven q := by
  by_cases hint : (⌊q⌋ : ℚ) = q
  · rw [← hint, ← Int.cast_neg, roundHalfEven_intCast, roundHalfEven_intCast]
  · have hlt : (⌊q⌋ : ℚ) < q := lt_of_le_of_ne (Int.floor_le q) hint
    have hub : q < ⌊q⌋ + 1 := Int.lt_floor_add_one q
    have hfn : ⌊-q⌋ = -⌊q⌋ - 1 := by
      rw [Int.floor_eq_iff]
      push_cast
      constructor <;> linarith
    unfold roundHalfEven
    simp only [hfn]
    push_cast
    split_ifs <;> first | omega | (exfalso; linarith)

theorem binaryExponent_neg (x : ℚ) : binaryExponent (-x) = binaryExponent x := by
  unfold binaryExponent
  simp

theorem roundDouble_neg (x : ℚ) : roundDouble (-x) = -roundDouble x := by
  unfold roundDouble
  by_cases hx : x = 0
  · simp [hx]
  · have hnx : -x ≠ 0 := neg_ne_zero.mpr hx
    simp only [hx, hnx, if_false, binaryExponent_neg, neg_div, roundHalfEven_neg, Int.cast_neg,
      neg_mul]

/-- For a positive number with binary exponent `e` the rounded value is the
multiple `n * 2 ^ (e - 52)` with `2 ^ 52 ≤ n ≤ 2 ^ 53` nearest to it. -/
theorem roundDouble_pos_bounds (x : ℚ) (hx : 0 < x) :
    twoPow (binaryExponent x) ≤ roundDouble x ∧
      roundDouble x ≤ twoPow (binaryExponent x + 1) := by
  have hne : x ≠ 0 := ne_of_gt hx
  obtain ⟨s1, s2⟩ := binaryExponent_spec x hne
  rw [abs_of_pos hx] at s1 s2
  have hu : 0 < twoPow (binaryExponent x - 52) := twoPow_pos _
  have e1 : twoPow (binaryExponent x) = ((2 ^ 52 : ℤ) : ℚ) * twoPow (binaryExponent x - 52) := by
    have : twoPow (52 : ℤ) = ((2 ^ 52 : ℤ) : ℚ) := by rw [twoPow_eq]; norm_num
    rw [← this, ← twoPow_add]
    congr 1
    ring
  have e2 : twoPow (binaryExponent x + 1)
      = ((2 ^ 53 : ℤ) : ℚ) * twoPow (binaryExponent x - 52) := by
    have : twoPow (53 : ℤ) = ((2 ^ 53 : ℤ) : ℚ) := by rw [twoPow_eq]; norm_num
    rw [← this, ← twoPow_add]
    congr 1
    ring
  have q1 : ((2 ^ 52 : ℤ) : ℚ) ≤ x / twoPow (binaryExponent x - 52) := by
    rw [le_div_iff₀ hu, ← e1]
    exact s1
  have q2 : x / twoPow (binaryExponent x - 52) ≤ ((2 ^ 53 : ℤ) : ℚ) := by
    rw [div_le_iff₀ hu, ← e2]
    exact s2.le
  have r1 := roundHalfEven_ge_int _ _ q1
  have r2 := roundHalfEven_le_int _ _ q2
  unfold roundDouble
  simp only [hne, if_false]
  rw [e1, e2]
  constructor
  · apply mul_le_mul_of_nonneg_right _ hu.le
    exact_mod_cast r1
  · apply mul_le_mul_of_nonneg_right _ hu.le
    exact_mod_cast r2

theorem roundDouble_pos (x : ℚ) (hx : 0 < x) : 0 < roundDouble x :=
  lt_of_lt_of_le (twoPow_pos _) (roundDouble_pos_bounds x hx).1

theorem binaryExponent_mono (x y : ℚ) (hx : 0 < x) (hxy : x ≤ y) :
    binaryExponent x ≤ binaryExponent y := by
  have hy : 0 < y := lt_of_lt_of_le hx hxy
  obtain ⟨s1, _⟩ := binaryExponent_spec x (ne_of_gt hx)
  obtain ⟨_, t2⟩ := binaryExponent_spec y (ne_of_gt hy)
  rw [abs_of_pos hx] at s1
  rw [abs_of_pos hy] at t2
  have : twoPow (binaryExponent x) < twoPow (binaryExponent y + 1) := by linarith
  rw [twoPow_lt_iff] at this
  omega

theorem roundDouble_mono_pos (x y : ℚ) (hx : 0 < x) (hxy : x ≤ y) :
    roundDouble x ≤ roundDouble y := by
  have hy : 0 < y := lt_of_lt_of_le hx hxy
  rcases lt_or_eq_of_le (binaryExponent_mono x y hx hxy) with hlt | heq
  · have b1 := (roundDouble_pos_bounds x hx).2
    have b2 := (roundDouble_pos_bounds y hy).1
    have : twoPow (binaryExponent x + 1) ≤ twoPow (binaryExponent y) := by
      rw [twoPow_le_iff]
      omega
    linarith
  · unfold roundDouble
    simp only [ne_of_gt hx, ne_of_gt hy, if_false, heq]
    have hu : 0 < twoPow (binaryExponent y - 52) := twoPow_pos _
    apply mul_le_mul_of_nonneg_right _ hu.le
    have : x / twoPow (binaryExponent y - 52) ≤ y / twoPow (binaryExponent y - 52) :=
      div_le_div_of_nonneg_right hxy hu.le
    exact_mod_cast roundHalfEven_mono _ _ this

theorem roundDouble_zero : roundDouble 0 = 0 := by
  simp [roundDouble]

/-- Rounding is monotone. -/
theorem roundDouble_mono (x y : ℚ) (hxy : x ≤ y) : roundDouble x ≤ roundDouble y := by
  rcases lt_trichotomy x 0 with hx | hx | hx
  · rcases lt_trichotomy y 0 with hy | hy | hy
    · have h := roundDouble_mono_pos (-y) (-x) (by linarith) (by linarith)
      rw [roundDouble_neg, roundDouble_neg] at h
      linarith
    · rw [hy, roundDouble_zero]
      have h := roundDouble_pos (-x) (by linarith)
      rw [roundDouble_neg] at h
      linarith
    · have h := roundDouble_pos (-x) (by linarith)
      rw [roundDouble_neg] at h
      have h2 := roundDouble_pos y hy
      linarith
  · rw [hx, roundDouble_zero]
    rcases lt_or_eq_of_le (hx ▸ hxy) with hy | hy
    · exact (roundDouble_pos y hy).le
    · rw [← hy, roundDouble_zero]
  · exact roundDouble_mono_pos x y hx hxy

/-- Rounding commutes with scaling by a power of two. -/
theorem roundDouble_twoPow_mul (n : ℤ) (x : ℚ) :
    roundDouble (twoPow n * x) = twoPow n * roundDouble x := by
  by_cases hx : x = 0
  · simp [hx, roundDouble_zero]
  · have hp := twoPow_pos n
    have hnx : twoPow n * x ≠ 0 := mul_ne_zero (ne_of_gt hp) hx
    obtain ⟨s1, s2⟩ := binaryExponent_spec x hx
    have he : binaryExponent (twoPow n * x) = binaryExponent x + n := by
      apply binaryExponent_unique _ _ hnx
      · rw [abs_mul, abs_of_pos hp, add_comm, twoPow_add]
        exact mul_le_mul_of_nonneg_left s1 hp.le
      · rw [abs_mul, abs_of_pos hp]
        have : twoPow (binaryExponent x + n + 1) = twoPow n * twoPow (binaryExponent x + 1) := by
          rw [← twoPow_add]
          congr 1
          ring
        rw [this]
        exact mul_lt_mul_of_pos_left s2 hp
    unfold roundDouble
    simp only [hx, hnx, if_false, he]
    have hu : twoPow (binaryExponent x + n - 52) = twoPow n * twoPow (binaryExponent x - 52) := by
      rw [← twoPow_add]
      congr 1
      ring
    rw [hu]
    have hq : twoPow n * x / (twoPow n * twoPow (binaryExponent x - 52))
        = x / twoPow (binaryExponent x - 52) := by
      rw [mul_div_mul_left _ _ (ne_of_gt hp)]
    rw [hq]
    ring

/-! ### The salary buckets in double arithmetic -/

theorem roundDouble_le_of_le_double (x a : ℚ) (ha : isDouble a = true) (h : x ≤ a) :
    roundDouble x ≤ a := by
  have h1 := roundDouble_mono x a h
  simp only [isDouble, decide_eq_true_eq] at ha
  rw [ha] at h1
  exact h1

theorem lit_three_halves : Float64.lit 1.5 = 1.5 := by decide!

/-- C9: in the double arithmetic of the code, for every salary requirement, with
minimum `req.minAmount || 30000`, and every known, non-zero salary amount that
is a double with amount ≥ 1.5 × minimum, `scoreSalary` returns a score equal to
the full weight `req.weight || 25`, which is also the `maxScore` of the result:
the threshold `minAmount * 1.5` is the product rounded to a double, and rounding
never carries it above a double that is at least the exact product. -/
theorem C9_salary_full_weight (e : ScoringEngine) (req : SalaryReq) (amount : ℚ)
    (hknown : salaryAmount e.profile = some amount) (hne : amount ≠ 0)
    (hdouble : isDouble amount = true)
    (hge : amount ≥ 1.5 * numOr req.minAmount 30000) :
    (Float64.scoreSalary e req).1.score = numOr req.weight 25 ∧
      (Float64.scoreSalary e req).1.score = (Float64.scoreSalary e req).1.maxScore := by
  have hthr : amount ≥ Float64.mul (numOr req.minAmount 30000) (Float64.lit 1.5) := by
    rw [lit_three_halves]
    unfold Float64.mul
    apply roundDouble_le_of_le_double _ _ hdouble
    linarith
  unfold Float64.scoreSalary
  simp [hknown, numTruthy, hne, hthr]

/-- Instance of C9 at the Germany EU Blue Card with a salary of 67950, which is
1.5 × 45300. -/
theorem C9_salary_full_weight_witness :
    (Float64.scoreSalary (freshEngine "Germany" "EU Blue Card"
        { salary := some (Salary.number 67950) } none euBlueCard) euBlueCardSalary).1.score
        = numOr euBlueCardSalary.weight 25 ∧
      (Float64.scoreSalary (freshEngine "Germany" "EU Blue Card"
        { salary := some (Salary.number 67950) } none euBlueCard) euBlueCardSalary).1.score
        = (Float64.scoreSalary (freshEngine "Germany" "EU Blue Card"
          { salary := some (Salary.number 67950) } none euBlueCard)
            euBlueCardSalary).1.maxScore :=
  C9_salary_full_weight
    (freshEngine "Germany" "EU Blue Card" { salary := some (Salary.number 67950) } none euBlueCard)
    euBlueCardSalary 67950 (by decide!) (by norm_num) (by decide!) (by decide!)

/-- The boundary of the full-weight bucket at the Germany ICT Permit, whose
minimum is the literal `41041.80`: the double read from the literal `61562.7`
lies below 1.5 times the double read from `41041.80`, the rounded threshold is
the next double above it, and the amount scores 22.5, the 90% bucket of the
weight 25. -/
theorem ictPermit_salary_boundary :
    isDouble (Float64.lit 61562.7) = true ∧
      Float64.lit 61562.7 < 1.5 * numOr ictPermitSalary.minAmount 30000 ∧
      Float64.lit 61562.7
        < Float64.mul (numOr ictPermitSalary.minAmount 30000) (Float64.lit 1.5) ∧
      (Float64.scoreSalary (freshEngine "Germany" "ICT Permit"
        { salary := some (Salary.number (Float64.lit 61562.7)) } none {})
          ictPermitSalary).1.score = 22.5 := by
  refine ⟨?_, ?_, ?_, ?_⟩ <;> decide!

/-- C11: the 50% bucket of the engine starts at 80% of the minimum, not at 70%
as in the sibling scorer of the `/evaluate` route.  For the Germany EU Blue Card
(minimum 45300) the amount 33000 lies between 0.7 × minimum and the minimum; the
engine's `scoreSalary` awards 6 of 30, that is 20% of the weight, with the cap
40, in double arithmetic as in exact arithmetic, while `scoreSalary` of
`routes/evaluation.js`, whose third bucket tests `minAmount * 0.7`, awards 15 of
30 for the same requirement. -/
theorem C11_half_weight_threshold :
    (0.7 : ℚ) * numOr euBlueCardSalary.minAmount 30000 ≤ 33000 ∧
      (33000 : ℚ) < numOr euBlueCardSalary.minAmount 30000 ∧
      numOr euBlueCardSalary.weight 25 = 30 ∧
      (Float64.calculateScore (freshEngine "Germany" "EU Blue Card"
          { salary := some (Salary.number 33000) } none euBlueCard)).map
          (fun out => out.1.breakdown.salary.map (fun d => (d.score, d.maxScore, d.scoreCap)))
        = Except.ok (some (6, 30, some 40)) ∧
      (evaluate "Germany" "EU Blue Card" { salary := some (Salary.number 33000) } none).map
          (fun r => r.breakdown.salary.map (fun d => (d.score, d.maxScore, d.scoreCap)))
        = Except.ok (some (6, 30, some 40)) ∧
      Route.scoreSalary 33000 euBlueCardSalary = 15 := by
  refine ⟨?_, ?_, ?_, ?_, ?_, ?_⟩ <;> decide!

/-- C22 (as stated, fails): the requirements of the France Talent Passport have
positive weights, and so has the set with all weights multiplied by 1.1, whose
weights 27.5, 22, 33 and 27.5 are doubles; for a profile with a bachelor degree
`calculateScore` in double arithmetic returns the score 17 (normalised 16.5)
under the first set and the score 16 (normalised 16.499999999999996) under the
second. -/
theorem C22_counterexample :
    talentPassport.positiveWeights = true ∧
      talentPassport.asDoubles = talentPassport ∧
      (scaleWeights 1.1 talentPassport).asDoubles = scaleWeights 1.1 talentPassport ∧
      (Float64.calculateScore
          (freshEngine "France" "Talent Passport" bachelorProfile none talentPassport)).map
          (fun out => out.1.score) = Except.ok 17 ∧
      (Float64.calculateScore
          (freshEngine "France" "Talent Passport" bachelorProfile none
            (scaleWeights 1.1 talentPassport))).map
          (fun out => out.1.score) = Except.ok 16 ∧
      Float64.normalize (Float64.scoreDimensions
          (freshEngine "France" "Talent Passport" bachelorProfile none talentPassport)).1
        = 16.5 ∧
      Float64.normalize (Float64.scoreDimensions
          (freshEngine "France" "Talent Passport" bachelorProfile none
            (scaleWeights 1.1 talentPassport))).1 < 16.5 := by
  refine ⟨?_, ?_, ?_, ?_, ?_, ?_, ?_⟩ <;> decide!

/-! ### Scaling by a power of two in double arithmetic -/

theorem float64_mul_scaled (n : ℤ) (w c : ℚ) :
    Float64.mul (twoPow n * w) c = twoPow n * Float64.mul w c := by
  unfold Float64.mul
  rw [mul_assoc, roundDouble_twoPow_mul]

theorem float64_add_scaled (n : ℤ) (a b : ℚ) :
    Float64.add (twoPow n * a) (twoPow n * b) = twoPow n * Float64.add a b := by
  unfold Float64.add
  rw [← mul_add, roundDouble_twoPow_mul]

theorem float64_div_scaled (n : ℤ) (a b : ℚ) :
    Float64.div (twoPow n * a) (twoPow n * b) = Float64.div a b := by
  unfold Float64.div
  rw [mul_div_mul_left _ _ (ne_of_gt (twoPow_pos n))]

theorem float64_scoreEducation_scaled (e e1 : ScoringEngine) (req : EducationReq) (n : ℤ)
    (hw : optPos req.weight = true) (hp : e1.profile = e.profile) :
    DimResult.ScaledBy (twoPow n) (Float64.scoreEducation e req).1
      (Float64.scoreEducation e1
        { req with weight := req.weight.map (fun w => twoPow n * w) }).1 := by
  unfold Float64.scoreEducation DimResult.ScaledBy
  simp only [hp, numOr_scaled req.weight (twoPow n) 25 25 (twoPow_pos n) hw,
    float64_mul_scaled, float64_add_scaled]
  split_ifs <;> simp only [mul_zero, true_and, and_true, and_self] <;>
    rw [float64_add_scaled, mul_min_of_nonneg _ _ (twoPow_pos n).le]

theorem float64_scoreExperience_scaled (e e1 : ScoringEngine) (req : ExperienceReq) (n : ℤ)
    (hw : optPos req.weight = true) (hp : e1.profile = e.profile) :
    DimResult.ScaledBy (twoPow n) (Float64.scoreExperience e req).1
      (Float64.scoreExperience e1
        { req with weight := req.weight.map (fun w => twoPow n * w) }).1 := by
  unfold Float64.scoreExperience DimResult.ScaledBy
  simp only [hp, numOr_scaled req.weight (twoPow n) 20 20 (twoPow_pos n) hw,
    float64_mul_scaled]
  split_ifs <;> simp only [mul_zero, true_and, and_true, and_self]

theorem float64_scoreSalary_scaled (e e1 : ScoringEngine) (req : SalaryReq) (n : ℤ)
    (hw : optPos req.weight = true) (hp : e1.profile = e.profile) :
    DimResult.ScaledBy (twoPow n) (Float64.scoreSalary e req).1
      (Float64.scoreSalary e1
        { req with weight := req.weight.map (fun w => twoPow n * w) }).1 := by
  unfold Float64.scoreSalary DimResult.ScaledBy
  simp only [hp, numOr_scaled req.weight (twoPow n) 25 25 (twoPow_pos n) hw,
    float64_mul_scaled]
  split_ifs <;> simp only [mul_zero, true_and, and_true, and_self]

theorem float64_scoreLanguage_scaled (e e1 : ScoringEngine) (req : LanguageReq) (n : ℤ)
    (hw : optPos req.weight = true) (hp : e1.profile = e.profile) :
    DimResult.ScaledBy (twoPow n) (Float64.scoreLanguage e req).1
      (Float64.scoreLanguage e1
        { req with weight := req.weight.map (fun w => twoPow n * w) }).1 := by
  unfold Float64.scoreLanguage DimResult.ScaledBy
  simp only [hp, numOr_scaled req.weight (twoPow n) 15 15 (twoPow_pos n) hw,
    float64_mul_scaled]
  split
  · simp only [true_and, and_true, and_self]
  · split_ifs <;> simp only [mul_zero, true_and, and_true, and_self]

theorem float64_scoreAge_scaled (e e1 : ScoringEngine) (req : AgeReq) (n : ℤ)
    (hw : optPos req.weight = true) :
    DimResult.ScaledBy (twoPow n) (Float64.scoreAge e req).1
      (Float64.scoreAge e1 { req with weight := req.weight.map (fun w => twoPow n * w) }).1 := by
  unfold Float64.scoreAge DimResult.ScaledBy
  simp only [numOr_scaled req.weight (twoPow n) 10 10 (twoPow_pos n) hw, float64_mul_scaled]
  exact ⟨trivial, trivial, trivial, trivial⟩

theorem float64_addScore_scaled (n : ℤ) (t t1 : Totals) (r r1 : DimResult)
    (ht : Totals.ScaledBy (twoPow n) t t1) (hr : DimResult.ScaledBy (twoPow n) r r1) :
    Totals.ScaledBy (twoPow n) (Float64.addScore t r) (Float64.addScore t1 r1) := by
  obtain ⟨a, b, c, d⟩ := ht
  obtain ⟨x, y, _, _⟩ := hr
  refine ⟨?_, ?_, c, d⟩
  · simp only [Float64.addScore, a, x, float64_add_scaled]
  · simp only [Float64.addScore, b, y, float64_add_scaled]

theorem float64_scoreEducation_same (e : ScoringEngine) (req : EducationReq) :
    SameInputs e (Float64.scoreEducation e req).2 := by
  unfold Float64.scoreEducation SameInputs
  simp only
  split_ifs <;> simp

theorem float64_scoreExperience_same (e : ScoringEngine) (req : ExperienceReq) :
    SameInputs e (Float64.scoreExperience e req).2 := by
  unfold Float64.scoreExperience SameInputs
  simp only
  split_ifs <;> simp

theorem float64_scoreSalary_same (e : ScoringEngine) (req : SalaryReq) :
    SameInputs e (Float64.scoreSalary e req).2 := by
  unfold Float64.scoreSalary SameInputs
  simp only
  split_ifs <;> simp

theorem float64_scoreLanguage_same (e : ScoringEngine) (req : LanguageReq) :
    SameInputs e (Float64.scoreLanguage e req).2 := by
  unfold Float64.scoreLanguage SameInputs
  simp only
  split <;> [skip; split_ifs] <;> simp

theorem float64_stepEducation_same (s : Totals × ScoringEngine) :
    SameInputs s.2 (Float64.stepEducation s).2 := by
  unfold Float64.stepEducation
  split
  · exact float64_scoreEducation_same _ _
  · exact SameInputs.refl _

theorem float64_stepExperience_same (s : Totals × ScoringEngine) :
    SameInputs s.2 (Float64.stepExperience s).2 := by
  unfold Float64.stepExperience
  split
  · exact float64_scoreExperience_same _ _
  · exact SameInputs.refl _

theorem float64_stepSalary_same (s : Totals × ScoringEngine) :
    SameInputs s.2 (Float64.stepSalary s).2 := by
  unfold Float64.stepSalary
  split
  · exact float64_scoreSalary_same _ _
  · exact SameInputs.refl _

theorem float64_stepJobOffer_same (s : Totals × ScoringEngine) :
    SameInputs s.2 (Float64.stepJobOffer s).2 := by
  unfold Float64.stepJobOffer
  split
  · exact scoreJobOffer_same _ _
  · exact SameInputs.refl _

theorem float64_stepLanguage_same (s : Totals × ScoringEngine) :
    SameInputs s.2 (Float64.stepLanguage s).2 := by
  unfold Float64.stepLanguage
  split
  · exact float64_scoreLanguage_same _ _
  · exact SameInputs.refl _

theorem float64_stepAge_same (s : Totals × ScoringEngine) :
    SameInputs s.2 (Float64.stepAge s).2 := by
  unfold Float64.stepAge
  split
  · simp [Float64.scoreAge, SameInputs]
  · exact SameInputs.refl _

theorem float64_scoreDimensions_same (e : ScoringEngine) :
    SameInputs e (Float64.scoreDimensions e).2 := by
  unfold Float64.scoreDimensions
  exact (((((float64_stepEducation_same ({}, e)).trans (float64_stepExperience_same _)).trans
    (float64_stepSalary_same _)).trans (float64_stepJobOffer_same _)).trans
    (float64_stepLanguage_same _)).trans (float64_stepAge_same _)

theorem float64_stepEducation_scaled (n : ℤ) (s s1 : Totals × ScoringEngine)
    (hpos : s.2.requirements.positiveWeights = true) (h : ScaledState (twoPow n) s s1) :
    ScaledState (twoPow n) (Float64.stepEducation s) (Float64.stepEducation s1) := by
  obtain ⟨ht, hp, hv, hr⟩ := h
  have hs := float64_stepEducation_same s
  have hs1 := float64_stepEducation_same s1
  refine ⟨?_, ?_, ?_, ?_⟩
  · unfold Float64.stepEducation
    rw [hr]
    cases hq : s.2.requirements.education with
    | none => simpa [scaleWeights, hq] using ht
    | some q =>
      have hw := (positiveWeights_fields _ hpos).1 q hq
      have hd := float64_scoreEducation_scaled s.2 s1.2 q n hw hp
      simp only [scaleWeights, hq, Option.map_some']
      exact Totals.applyCap_scaled (twoPow n) _ _ _ _
        (Totals.pushHardFail_scaled (twoPow n) _ _ _ _ (float64_addScore_scaled n _ _ _ _ ht hd) hd) hd
  · rw [hs1.2.2.1, hs.2.2.1, hp]
  · rw [hs1.2.1, hs.2.1, hv]
  · rw [hs1.2.2.2.2.1, hs.2.2.2.2.1, hr]

theorem float64_stepExperience_scaled (n : ℤ) (s s1 : Totals × ScoringEngine)
    (hpos : s.2.requirements.positiveWeights = true) (h : ScaledState (twoPow n) s s1) :
    ScaledState (twoPow n) (Float64.stepExperience s) (Float64.stepExperience s1) := by
  obtain ⟨ht, hp, hv, hr⟩ := h
  have hs := float64_stepExperience_same s
  have hs1 := float64_stepExperience_same s1
  refine ⟨?_, ?_, ?_, ?_⟩
  · unfold Float64.stepExperience
    rw [hr]
    cases hq : s.2.requirements.experience with
    | none => simpa [scaleWeights, hq] using ht
    | some q =>
      have hw := (positiveWeights_fields _ hpos).2.1 q hq
      have hd := float64_scoreExperience_scaled s.2 s1.2 q n hw hp
      simp only [scaleWeights, hq, Option.map_some']
      exact float64_addScore_scaled n _ _ _ _ ht hd
  · rw [hs1.2.2.1, hs.2.2.1, hp]
  · rw [hs1.2.1, hs.2.1, hv]
  · rw [hs1.2.2.2.2.1, hs.2.2.2.2.1, hr]

theorem float64_stepSalary_scaled (n : ℤ) (s s1 : Totals × ScoringEngine)
    (hpos : s.2.requirements.positiveWeights = true) (h : ScaledState (twoPow n) s s1) :
    ScaledState (twoPow n) (Float64.stepSalary s) (Float64.stepSalary s1) := by
  obtain ⟨ht, hp, hv, hr⟩ := h
  have hs := float64_stepSalary_same s
  have hs1 := float64_stepSalary_same s1
  refine ⟨?_, ?_, ?_, ?_⟩
  · unfold Float64.stepSalary
    rw [hr]
    cases hq : s.2.requirements.salary with
    | none => simpa [scaleWeights, hq] using ht
    | some q =>
      have hw := (positiveWeights_fields _ hpos).2.2.1 q hq
      have hd := float64_scoreSalary_scaled s.2 s1.2 q n hw hp
      simp only [scaleWeights, hq, Option.map_some']
      exact Totals.applyCap_scaled (twoPow n) _ _ _ _
        (Totals.pushHardFail_scaled (twoPow n) _ _ _ _ (float64_addScore_scaled n _ _ _ _ ht hd) hd) hd
  · rw [hs1.2.2.1, hs.2.2.1, hp]
  · rw [hs1.2.1, hs.2.1, hv]
  · rw [hs1.2.2.2.2.1, hs.2.2.2.2.1, hr]

theorem float64_stepJobOffer_scaled (n : ℤ) (s s1 : Totals × ScoringEngine)
    (hpos : s.2.requirements.positiveWeights = true) (h : ScaledState (twoPow n) s s1) :
    ScaledState (twoPow n) (Float64.stepJobOffer s) (Float64.stepJobOffer s1) := by
  obtain ⟨ht, hp, hv, hr⟩ := h
  have hs := float64_stepJobOffer_same s
  have hs1 := float64_stepJobOffer_same s1
  refine ⟨?_, ?_, ?_, ?_⟩
  · unfold Float64.stepJobOffer
    rw [hr]
    cases hq : s.2.requirements.jobOffer with
    | none => simpa [scaleWeights, hq] using ht
    | some q =>
      have hw := (positiveWeights_fields _ hpos).2.2.2.1 q hq
      have hd := scoreJobOffer_scaled s.2 s1.2 q (twoPow n) (twoPow_pos n) hw hp
      simp only [scaleWeights, hq, Option.map_some']
      exact Totals.pushHardFail_scaled (twoPow n) _ _ _ _ (float64_addScore_scaled n _ _ _ _ ht hd) hd
  · rw [hs1.2.2.1, hs.2.2.1, hp]
  · rw [hs1.2.1, hs.2.1, hv]
  · rw [hs1.2.2.2.2.1, hs.2.2.2.2.1, hr]

theorem float64_stepLanguage_scaled (n : ℤ) (s s1 : Totals × ScoringEngine)
    (hpos : s.2.requirements.positiveWeights = true) (h : ScaledState (twoPow n) s s1) :
    ScaledState (twoPow n) (Float64.stepLanguage s) (Float64.stepLanguage s1) := by
  obtain ⟨ht, hp, hv, hr⟩ := h
  have hs := float64_stepLanguage_same s
  have hs1 := float64_stepLanguage_same s1
  refine ⟨?_, ?_, ?_, ?_⟩
  · unfold Float64.stepLanguage
    rw [hr]
    cases hq : s.2.requirements.language with
    | none => simpa [scaleWeights, hq] using ht
    | some q =>
      have hw := (positiveWeights_fields _ hpos).2.2.2.2.1 q hq
      have hd := float64_scoreLanguage_scaled s.2 s1.2 q n hw hp
      simp only [scaleWeights, hq, Option.map_some']
      exact Totals.pushHardFail_scaled (twoPow n) _ _ _ _ (float64_addScore_scaled n _ _ _ _ ht hd) hd
  · rw [hs1.2.2.1, hs.2.2.1, hp]
  · rw [hs1.2.1, hs.2.1, hv]
  · rw [hs1.2.2.2.2.1, hs.2.2.2.2.1, hr]

theorem float64_stepAge_scaled (n : ℤ) (s s1 : Totals × ScoringEngine)
    (hpos : s.2.requirements.positiveWeights = true) (h : ScaledState (twoPow n) s s1) :
    ScaledState (twoPow n) (Float64.stepAge s) (Float64.stepAge s1) := by
  obtain ⟨ht, hp, hv, hr⟩ := h
  have hs := float64_stepAge_same s
  have hs1 := float64_stepAge_same s1
  refine ⟨?_, ?_, ?_, ?_⟩
  · unfold Float64.stepAge
    rw [hr]
    cases hq : s.2.requirements.age with
    | none => simpa [scaleWeights, hq] using ht
    | some q =>
      have hw := (positiveWeights_fields _ hpos).2.2.2.2.2 q hq
      have hd := float64_scoreAge_scaled s.2 s1.2 q n hw
      simp only [scaleWeights, hq, Option.map_some']
      exact float64_addScore_scaled n _ _ _ _ ht hd
  · rw [hs1.2.2.1, hs.2.2.1, hp]
  · rw [hs1.2.1, hs.2.1, hv]
  · rw [hs1.2.2.2.2.1, hs.2.2.2.2.1, hr]

theorem float64_scoreDimensions_scaled (n : ℤ) (e e1 : ScoringEngine)
    (hpos : e.requirements.positiveWeights = true) (hp : e1.profile = e.profile)
    (hv : e1.visaType = e.visaType)
    (hr : e1.requirements = scaleWeights (twoPow n) e.requirements) :
    ScaledState (twoPow n) (Float64.scoreDimensions e) (Float64.scoreDimensions e1) := by
  unfold Float64.scoreDimensions
  have h0 : ScaledState (twoPow n) (({}, e) : Totals × ScoringEngine) ({}, e1) := by
    refine ⟨⟨?_, ?_, rfl, rfl⟩, hp, hv, hr⟩ <;> simp
  have s1 := float64_stepEducation_same ({}, e)
  have s2 := s1.trans (float64_stepExperience_same _)
  have s3 := s2.trans (float64_stepSalary_same _)
  have s4 := s3.trans (float64_stepJobOffer_same _)
  have s5 := s4.trans (float64_stepLanguage_same _)
  have g1 := float64_stepEducation_scaled n _ _ hpos h0
  have g2 := float64_stepExperience_scaled n _ _ (positiveWeights_of_same _ _ s1 hpos) g1
  have g3 := float64_stepSalary_scaled n _ _ (positiveWeights_of_same _ _ s2 hpos) g2
  have g4 := float64_stepJobOffer_scaled n _ _ (positiveWeights_of_same _ _ s3 hpos) g3
  have g5 := float64_stepLanguage_scaled n _ _ (positiveWeights_of_same _ _ s4 hpos) g4
  exact float64_stepAge_scaled n _ _ (positiveWeights_of_same _ _ s5 hpos) g5

theorem float64_normalize_scaled (n : ℤ) (t t1 : Totals)
    (h : Totals.ScaledBy (twoPow n) t t1) : Float64.normalize t1 = Float64.normalize t := by
  obtain ⟨a, b, _, _⟩ := h
  have hk := twoPow_pos n
  unfold Float64.normalize
  rw [a, b, float64_div_scaled]
  by_cases hw : t.totalWeight > 0
  · have hw1 : twoPow n * t.totalWeight > 0 := mul_pos hk hw
    rw [if_pos hw, if_pos hw1]
  · have hw1 : ¬ twoPow n * t.totalWeight > 0 := by
      intro hc
      exact hw (pos_of_mul_pos_right hc hk.le)
    rw [if_neg hw, if_neg hw1]

theorem float64_finalNormalized_scaled (n : ℤ) (t t1 : Totals)
    (h : Totals.ScaledBy (twoPow n) t t1) :
    Float64.finalNormalized t1 = Float64.finalNormalized t := by
  have hn := float64_normalize_scaled n t t1 h
  obtain ⟨_, _, c, d⟩ := h
  unfold Float64.finalNormalized
  rw [hn, c, d]

theorem float64_finishScore_ok (t : Totals) (e2 : ScoringEngine) (entries : List LogMsg)
    (h : e2.scoringLog = some entries) :
    ∃ r e3, Float64.finishScore t e2 = Except.ok (r, e3) ∧
      r.score = mathRound (Float64.finalNormalized t) ∧
      r.isPassing = decide (Float64.finalNormalized t ≥ getPassingScore e2) := by
  by_cases h1 : t.hardFails.length > 0 ∧ Float64.normalize t > t.scoreCap
  · by_cases h2 : t.scoreCap > 85
    · simp [Float64.finishScore, h1, h2, Float64.finalNormalized, ScoringEngine.log, h,
        Except.map, bind, Except.bind, pure, Except.pure, calculateConfidence, getPassingScore]
    · simp [Float64.finishScore, h1, h2, Float64.finalNormalized, ScoringEngine.log, h,
        Except.map, bind, Except.bind, pure, Except.pure, calculateConfidence, getPassingScore]
  · by_cases h2 : Float64.normalize t > 85
    · simp [Float64.finishScore, h1, h2, Float64.finalNormalized, ScoringEngine.log, h,
        Except.map, bind, Except.bind, pure, Except.pure, calculateConfidence, getPassingScore]
    · simp [Float64.finishScore, h1, h2, Float64.finalNormalized, ScoringEngine.log, h,
        Except.map, bind, Except.bind, pure, Except.pure, calculateConfidence, getPassingScore]

theorem float64_calculateScore_ok (e0 : ScoringEngine) (entries : List LogMsg)
    (h : e0.scoringLog = some entries) :
    ∃ r e3, Float64.calculateScore e0 = Except.ok (r, e3) ∧
      r.score
        = mathRound (Float64.finalNormalized (Float64.scoreDimensions (started e0 entries)).1) ∧
      r.isPassing
        = decide (Float64.finalNormalized (Float64.scoreDimensions (started e0 entries)).1
            ≥ getPassingScore e0) := by
  have hsame := float64_scoreDimensions_same (started e0 entries)
  have hpass : getPassingScore (Float64.scoreDimensions (started e0 entries)).2
      = getPassingScore e0 := by
    rw [getPassingScore_congr _ _ hsame]
    rfl
  obtain ⟨r, e3, hfin, hrest⟩ := float64_finishScore_ok
    (Float64.scoreDimensions (started e0 entries)).1
    (Float64.scoreDimensions (started e0 entries)).2 _ hsame.2.2.2.2.2
  refine ⟨r, e3, ?_, ?_⟩
  · unfold Float64.calculateScore
    rw [log_of_some e0 entries _ h]
    exact hfin
  · rw [hpass] at hrest
    exact hrest

/-- C22 (amended): in the double arithmetic of the code the engine normalises
weights under scaling by a power of two.  For every requirement set with
positive weights, every profile, every country and visa type and every integer
`n`, `calculateScore` returns a result both under the requirement set and under
the set with all weights multiplied by `2 ^ n`, and the two results have the
same score and the same `isPassing`. -/
theorem C22_weights_normalised (country visaType : String) (profile : Profile)
    (x : Option ExtractionResults) (requirements : Requirements) (n : ℤ)
    (hpos : requirements.positiveWeights = true) :
    ∃ r r1 e e1,
      Float64.calculateScore (freshEngine country visaType profile x requirements)
        = Except.ok (r, e) ∧
      Float64.calculateScore
          (freshEngine country visaType profile x (scaleWeights ((2 : ℚ) ^ n) requirements))
        = Except.ok (r1, e1) ∧
      r1.score = r.score ∧ r1.isPassing = r.isPassing := by
  rw [← twoPow_eq]
  obtain ⟨r, e, hr, hscore, hpass⟩ :=
    float64_calculateScore_ok (freshEngine country visaType profile x requirements) [] rfl
  obtain ⟨r1, e1, hr1, hscore1, hpass1⟩ :=
    float64_calculateScore_ok
      (freshEngine country visaType profile x (scaleWeights (twoPow n) requirements)) [] rfl
  have hs := float64_scoreDimensions_scaled n
    (started (freshEngine country visaType profile x requirements) [])
    (started (freshEngine country visaType profile x (scaleWeights (twoPow n) requirements)) [])
    hpos rfl rfl rfl
  have hf := float64_finalNormalized_scaled n _ _ hs.1
  refine ⟨r, r1, e, e1, hr, hr1, ?_, ?_⟩
  · rw [hscore1, hscore, hf]
  · rw [hpass1, hpass, hf]
    rfl

/-- Instance of the amended C22 at the France Talent Passport with the bachelor
profile and all weights multiplied by 8. -/
theorem C22_weights_normalised_witness :
    ∃ r r1 e e1,
      Float64.calculateScore
          (freshEngine "France" "Talent Passport" bachelorProfile none talentPassport)
        = Except.ok (r, e) ∧
      Float64.calculateScore
          (freshEngine "France" "Talent Passport" bachelorProfile none
            (scaleWeights ((2 : ℚ) ^ (3 : ℤ)) talentPassport))
        = Except.ok (r1, e1) ∧
      r1.score = r.score ∧ r1.isPassing = r.isPassing :=
  C22_weights_normalised "France" "Talent Passport" bachelorProfile none talentPassport 3
    (by decide!)

/-! ### The clock and the result -/

theorem timedLog_of_some (clock : ℕ → String) (s : TimedEngine) (m : LogMsg)
    (entries : List LogMsg) (h : s.engine.scoringLog = some entries) :
    Timed.log clock s m
      = Except.ok { engine := { s.engine with scoringLog := some (entries ++ [m]) },
                    timestamps := s.timestamps ++ [clock s.reads],
                    reads := s.reads + 1 } := by
  unfold Timed.log
  rw [h]

theorem timedLog_of_none (clock : ℕ → String) (s : TimedEngine) (m : LogMsg)
    (h : s.engine.scoringLog = none) :
    Timed.log clock s m
      = Except.error (JsError.typeError "Cannot read properties of undefined (reading push)") := by
  unfold Timed.log
  rw [h]

/-- Without its timestamps the result of `Timed.finishScore` is that of
`finishScore`. -/
theorem timedFinishScore_result (clock : ℕ → String) (t : Totals) (s2 : TimedEngine) :
    (Timed.finishScore clock t s2).map (fun out => out.result)
      = (finishScore t s2.engine).map Prod.fst := by
  cases h : s2.engine.scoringLog with
  | none =>
    by_cases h1 : t.hardFails.length > 0 ∧ normalize t > t.scoreCap
    · simp [Timed.finishScore, finishScore, h1, Timed.log, ScoringEngine.log, h,
        Except.map, bind, Except.bind]
    · by_cases h2 : normalize t > 85
      · simp [Timed.finishScore, finishScore, h1, h2, Timed.log, ScoringEngine.log, h,
          Except.map, bind, Except.bind]
      · simp [Timed.finishScore, finishScore, h1, h2, Timed.log, ScoringEngine.log, h,
          Except.map, bind, Except.bind, pure, Except.pure]
  | some entries =>
    by_cases h1 : t.hardFails.length > 0 ∧ normalize t > t.scoreCap
    · by_cases h2 : t.scoreCap > 85
      · simp [Timed.finishScore, finishScore, h1, h2, Timed.log, ScoringEngine.log, h,
          Except.map, bind, Except.bind, pure, Except.pure]
      · simp [Timed.finishScore, finishScore, h1, h2, Timed.log, ScoringEngine.log, h,
          Except.map, bind, Except.bind, pure, Except.pure]
    · by_cases h2 : normalize t > 85
      · simp [Timed.finishScore, finishScore, h1, h2, Timed.log, ScoringEngine.log, h,
          Except.map, bind, Except.bind, pure, Except.pure]
      · simp [Timed.finishScore, finishScore, h1, h2, Timed.log, ScoringEngine.log, h,
          Except.map, bind, Except.bind, pure, Except.pure]

/-- Without its timestamps the result of `Timed.calculateScore` is that of
`calculateScore`. -/
theorem timedCalculateScore_result (clock : ℕ → String) (s0 : TimedEngine) :
    (Timed.calculateScore clock s0).map (fun out => out.result)
      = (calculateScore s0.engine).map Prod.fst := by
  cases h : s0.engine.scoringLog with
  | none =>
    simp [Timed.calculateScore, calculateScore, Timed.log, ScoringEngine.log, h, Except.map,
      bind, Except.bind]
  | some entries =>
    have h1 := timedFinishScore_result clock
      (scoreDimensions { s0.engine with
        scoringLog := some (entries ++ [LogMsg.start s0.engine.country s0.engine.visaType]) }).1
      { engine := (scoreDimensions { s0.engine with
          scoringLog := some (entries ++ [LogMsg.start s0.engine.country s0.engine.visaType]) }).2,
        timestamps := s0.timestamps ++ [clock s0.reads], reads := s0.reads + 1 }
    simp only [Timed.calculateScore, calculateScore, timedLog_of_some clock s0 _ entries h,
      log_of_some s0.engine entries _ h, bind, Except.bind]
    exact h1

/-- The engine built by `Timed.new` is the one built by the constructor, with no
timestamp and, when the constructor returns, no clock reading made. -/
theorem timedNew_engine (clock : ℕ → String) (reads : ℕ) (country visaType : String)
    (profile : Profile) (x : Option ExtractionResults) :
    Timed.new clock reads country visaType profile x
      = (ScoringEngine.new country visaType profile x).map
          (fun e => { engine := e, timestamps := [], reads := reads }) := by
  unfold Timed.new ScoringEngine.new Timed.getRequirements getRequirements
  simp only
  cases h1 : lookup2 OFFICIAL_REQUIREMENTS country visaType with
  | some r => rfl
  | none =>
    cases h2 : (getVisaConfig country visaType).bind (fun config => config.requirements) with
    | some r => rfl
    | none =>
      cases h3 : (VISA_CATEGORIES.lookup country).bind
          (fun categories => findVisaRequirements categories visaType) with
      | some b => rfl
      | none => rfl

/-- Without its timestamps the result of a fresh evaluation under any clock is
the result of `evaluate`. -/
theorem timedEvaluate_result (clock : ℕ → String) (reads : ℕ) (country visaType : String)
    (profile : Profile) (x : Option ExtractionResults) :
    (Timed.evaluate clock reads country visaType profile x).map (fun out => out.result)
      = evaluate country visaType profile x := by
  unfold Timed.evaluate evaluate
  rw [timedNew_engine]
  cases ScoringEngine.new country visaType profile x with
  | error err => rfl
  | ok eng =>
    simp only [Except.map, Except.bind]
    exact timedCalculateScore_result clock { engine := eng, timestamps := [], reads := reads }

theorem timedLog_stamped (clock : ℕ → String) (first : ℕ) (s : TimedEngine) (m : LogMsg)
    (h : Stamped clock first s) :
    ∃ s1, Timed.log clock s m = Except.ok s1 ∧ Stamped clock first s1 ∧
      s1.engine = { s.engine with scoringLog := some (s.engine.scoringLog.getD [] ++ [m]) } := by
  obtain ⟨entries, h1, h2, h3⟩ := h
  refine ⟨_, timedLog_of_some clock s m entries h1, ⟨entries ++ [m], rfl, ?_, ?_⟩, ?_⟩
  · simp only [List.length_append, List.length_singleton, List.range_succ, List.map_append,
      List.map_singleton, h2, h3]
  · simp only [List.length_append, List.length_singleton, h3]
    omega
  · simp [h1]

theorem timedFinishScore_stamped (clock : ℕ → String) (first : ℕ) (t : Totals)
    (s2 : TimedEngine) (h : Stamped clock first s2) (out : TimedResult)
    (hout : Timed.finishScore clock t s2 = Except.ok out) :
    out.timestamps
      = (List.range out.result.scoringLog.length).map (fun i => clock (first + i)) := by
  have key : ∀ s3 : TimedEngine, Stamped clock first s3 →
      s3.timestamps
        = (List.range (s3.engine.scoringLog.getD []).length).map (fun i => clock (first + i)) := by
    intro s3 h3
    obtain ⟨entries, e1, e2, _⟩ := h3
    rw [e1, e2]
    rfl
  unfold Timed.finishScore at hout
  simp only [bind, Except.bind, pure, Except.pure] at hout
  by_cases h1 : t.hardFails.length > 0 ∧ normalize t > t.scoreCap
  · obtain ⟨sa, ha, hsa, _⟩ := timedLog_stamped clock first s2
      (LogMsg.cappedByHardFail t.scoreCap t.hardFails) h
    simp only [h1, and_self, if_true, ha, Except.map] at hout
    by_cases h2 : t.scoreCap > 85
    · obtain ⟨sb, hb, hsb, _⟩ := timedLog_stamped clock first sa LogMsg.cappedAt85 hsa
      simp only [h2, if_true, hb] at hout
      obtain ⟨sc, hc, hsc, _⟩ := timedLog_stamped clock first sb
        (LogMsg.final (mathRound 85) (calculateConfidence sb.engine)
          (decide ((85 : ℚ) ≥ getPassingScore sb.engine))) hsb
      simp only [hc, Except.ok.injEq] at hout
      subst hout
      exact key sc hsc
    · simp only [h2, if_false] at hout
      obtain ⟨sc, hc, hsc, _⟩ := timedLog_stamped clock first sa
        (LogMsg.final (mathRound t.scoreCap) (calculateConfidence sa.engine)
          (decide (t.scoreCap ≥ getPassingScore sa.engine))) hsa
      simp only [hc, Except.ok.injEq] at hout
      subst hout
      exact key sc hsc
  · simp only [h1, if_false] at hout
    by_cases h2 : normalize t > 85
    · obtain ⟨sb, hb, hsb, _⟩ := timedLog_stamped clock first s2 LogMsg.cappedAt85 h
      simp only [h2, if_true, hb, Except.map] at hout
      obtain ⟨sc, hc, hsc, _⟩ := timedLog_stamped clock first sb
        (LogMsg.final (mathRound 85) (calculateConfidence sb.engine)
          (decide ((85 : ℚ) ≥ getPassingScore sb.engine))) hsb
      simp only [hc, Except.ok.injEq] at hout
      subst hout
      exact key sc hsc
    · simp only [h2, if_false] at hout
      obtain ⟨sc, hc, hsc, _⟩ := timedLog_stamped clock first s2
        (LogMsg.final (mathRound (normalize t)) (calculateConfidence s2.engine)
          (decide (normalize t ≥ getPassingScore s2.engine))) h
      simp only [hc, Except.ok.injEq] at hout
      subst hout
      exact key sc hsc

theorem timedEvaluate_stamped (clock : ℕ → String) (reads : ℕ) (country visaType : String)
    (profile : Profile) (x : Option ExtractionResults) (out : TimedResult)
    (hout : Timed.evaluate clock reads country visaType profile x = Except.ok out) :
    out.timestamps
      = (List.range out.result.scoringLog.length).map (fun i => clock (reads + i)) := by
  unfold Timed.evaluate at hout
  rw [timedNew_engine] at hout
  cases hnew : ScoringEngine.new country visaType profile x with
  | error err =>
    rw [hnew] at hout
    simp [Except.map, Except.bind] at hout
  | ok eng =>
    rw [hnew] at hout
    simp only [Except.map, Except.bind] at hout
    have hlog : eng.scoringLog = some [] := (new_ok country visaType profile x eng hnew).2.2.2.2.2.1
    have h0 : Stamped clock reads
        ({ engine := eng, timestamps := [], reads := reads } : TimedEngine) :=
      ⟨[], hlog, rfl, rfl⟩
    unfold Timed.calculateScore at hout
    simp only [bind, Except.bind] at hout
    obtain ⟨s1, hs1, hst1, heng1⟩ := timedLog_stamped clock reads _
      (LogMsg.start eng.country eng.visaType) h0
    simp only [hs1] at hout
    have hsame := scoreDimensions_same s1.engine
    obtain ⟨entries, e1, e2, e3⟩ := hst1
    have hst2 : Stamped clock reads { s1 with engine := (scoreDimensions s1.engine).2 } :=
      ⟨entries, by rw [hsame.2.2.2.2.2]; exact e1, e2, e3⟩
    exact timedFinishScore_stamped clock reads _ _ hst2 out hout

/-- C19: scoring is deterministic.  Two fresh evaluations with the same country,
visa type, profile and extraction results, made under any two clocks and after
any numbers of earlier clock readings, either both throw the same exception or
both return a result, and the two results agree in score, confidence, passing
score, `isPassing`, breakdown, hard fails, met and failed requirements, warnings
and the messages of the scoring log; only the timestamps of the log entries,
which are the readings of the clock in order, depend on the clock. -/
theorem C19_deterministic (clock1 clock2 : ℕ → String) (reads1 reads2 : ℕ)
    (country visaType : String) (profile : Profile) (x : Option ExtractionResults) :
    (Timed.evaluate clock1 reads1 country visaType profile x).map (fun out => out.result)
        = (Timed.evaluate clock2 reads2 country visaType profile x).map (fun out => out.result) ∧
      (∀ out, Timed.evaluate clock1 reads1 country visaType profile x = Except.ok out →
        out.timestamps
          = (List.range out.result.scoringLog.length).map (fun i => clock1 (reads1 + i))) := by
  constructor
  · rw [timedEvaluate_result, timedEvaluate_result]
  · intro out hout
    exact timedEvaluate_stamped clock1 reads1 country visaType profile x out hout

end VisaEval
